import Mathlib

/-!
Verification development for the gameplay simulation core of a top-down
wave-survival game (world grid, procedural generation, entities, spawning,
waves, projectiles, combat).

Modelling conventions, applied uniformly:
* JavaScript `number` is modelled as `ℚ` where values may be fractional
  (positions, budgets, damage) and as `ℤ`/`ℕ` where the program only ever
  holds integers (tile coordinates, counters, packed masks).
* Typed-array stores (`Uint32Array`, `Int16Array`, `Uint8Array`) are lists
  with the corresponding wrap-around conversion applied on write.
* In-place mutation is explicit state passing: every method that mutates
  an object takes and returns the modelled state.
* External callbacks (`onEntityKilled`, `onDamageApplied`, `onWaveStart`,
  AI target resolvers, …) are modelled as absent (the `?.()` no-op branch);
  the pure `damageModifier` hook is kept and passed as a parameter.
* `Math.random()` is an explicit ambient stream parameter `rolls : ℕ → ℚ`
  with a cursor, so that dependence on ambient randomness is visible.
* `Math.cos`/`Math.sin`/`Math.sqrt`/`Math.PI` are fields of a `FloatOps`
  parameter record: the theorems hold for every interpretation of them.
-/

set_option autoImplicit false

namespace Rogue

/-! ## TileMap (`world/TileMap.ts`) -/

/-- `BaseType` constants. -/
def BaseDirt : ℕ := 1
def BaseStone : ℕ := 2
def BaseFloor : ℕ := 3
def BaseWall : ℕ := 4
def BaseWater : ℕ := 5
def BaseVoid : ℕ := 6

/-- `FlagBits` constants. -/
def FlagWalkable : ℕ := 1
def FlagBlocked : ℕ := 2
def FlagLosBlock : ℕ := 4

def MASK_BASE : ℕ := 0xff
def MASK_FLAGS : ℕ := 0xff00
def MASK_DECOR : ℕ := 0x0f0000
def MASK_EFFECT : ℕ := 0xf00000
def MASK_STATE : ℕ := 0x0f000000

/-- `Int16Array` write conversion. -/
def toInt16 (v : ℤ) : ℤ := ((v + 32768) % 65536) - 32768

/-- `Uint8Array` write conversion. -/
def toUint8 (v : ℤ) : ℕ := (v % 256).toNat

/-- The packed per-tile state store.  `occupants` carries no data relevant
to the verified operations and is omitted. -/
structure TileMap where
  width : ℕ
  height : ℕ
  virtualPixelScale : ℚ
  mask : List ℕ
  hp : List ℤ
  durability : List ℕ
  usage : List ℕ
  overlayTTL : List ℕ
  dirtyTiles : List ℕ
deriving DecidableEq, Repr

/-- The `TileMap` constructor: all arrays zeroed. -/
def TileMap.create (w h : ℕ) (scale : ℚ) : TileMap :=
  { width := w, height := h, virtualPixelScale := scale
    mask := List.replicate (w * h) 0
    hp := List.replicate (w * h) 0
    durability := List.replicate (w * h) 0
    usage := List.replicate (w * h) 0
    overlayTTL := List.replicate (w * h) 0
    dirtyTiles := [] }

def TileMap.inBounds (tm : TileMap) (x y : ℤ) : Bool :=
  decide (0 ≤ x ∧ 0 ≤ y ∧ x < (tm.width : ℤ) ∧ y < (tm.height : ℤ))

def TileMap.index (tm : TileMap) (x y : ℤ) : ℕ :=
  (y * (tm.width : ℤ) + x).toNat

/-- `encode`: pack base/flags/decor/effect/state into one uint32. -/
def encodeTile (base flags decor effect st : ℕ) : ℕ :=
  ((base &&& MASK_BASE) |||
   ((flags <<< 8) &&& MASK_FLAGS) |||
   ((decor <<< 16) &&& MASK_DECOR) |||
   ((effect <<< 20) &&& MASK_EFFECT) |||
   ((st <<< 24) &&& MASK_STATE)) % 2 ^ 32

def decodeBase (m : ℕ) : ℕ := m &&& MASK_BASE
def decodeFlags (m : ℕ) : ℕ := (m &&& MASK_FLAGS) >>> 8
def decodeDecor (m : ℕ) : ℕ := (m &&& MASK_DECOR) >>> 16
def decodeEffect (m : ℕ) : ℕ := (m &&& MASK_EFFECT) >>> 20
def decodeState (m : ℕ) : ℕ := (m &&& MASK_STATE) >>> 24

/-- The mask word at (x, y); 0 when out of range (reads are guarded by
`inBounds` at every call site, mirroring the source). -/
def TileMap.maskAt (tm : TileMap) (x y : ℤ) : ℕ :=
  tm.mask.getD (tm.index x y) 0

def TileMap.baseAt (tm : TileMap) (x y : ℤ) : ℕ :=
  decodeBase (tm.maskAt x y)

def TileMap.durabilityAt (tm : TileMap) (x y : ℤ) : ℕ :=
  tm.durability.getD (tm.index x y) 0

def TileMap.hpAt (tm : TileMap) (x y : ℤ) : ℤ :=
  tm.hp.getD (tm.index x y) 0

/-- `TileSnapshot` as returned by `getTile` (without `occupants`). -/
structure TileSnapshot where
  base : ℕ
  flags : ℕ
  decor : ℕ
  effect : ℕ
  state : ℕ
  hp : ℤ
  durability : ℕ
  usage : ℕ
deriving DecidableEq, Repr

def TileMap.getTile (tm : TileMap) (x y : ℤ) : Option TileSnapshot :=
  if tm.inBounds x y then
    let idx := tm.index x y
    let m := tm.mask.getD idx 0
    some { base := decodeBase m, flags := decodeFlags m, decor := decodeDecor m
           effect := decodeEffect m, state := decodeState m
           hp := tm.hp.getD idx 0, durability := tm.durability.getD idx 0
           usage := tm.usage.getD idx 0 }
  else none

def defaultFlagsForBase (base : ℕ) : ℕ :=
  if base = BaseWall then FlagBlocked ||| FlagLosBlock
  else if base = BaseWater then 0
  else FlagWalkable

def TileMap.markDirty (tm : TileMap) (idx : ℕ) : TileMap :=
  { tm with dirtyTiles := tm.dirtyTiles ++ [idx] }

def TileMap.setTile (tm : TileMap) (x y : ℤ) (base : ℕ) : TileMap :=
  if tm.inBounds x y then
    let idx := tm.index x y
    let prev := tm.mask.getD idx 0
    let prevBase := decodeBase prev
    let flags := defaultFlagsForBase base
    let tm' := { tm with
      mask := tm.mask.set idx
        (encodeTile base flags (decodeDecor prev) (decodeEffect prev) (decodeState prev)) }
    if base ≠ prevBase then tm'.markDirty idx else tm'
  else tm

def TileMap.setWallTile (tm : TileMap) (x y : ℤ) (hitPoints : ℤ)
    (indestructible : Bool) : TileMap :=
  if tm.inBounds x y then
    let idx := tm.index x y
    let prev := tm.mask.getD idx 0
    let prevBase := decodeBase prev
    let flags := FlagBlocked ||| FlagLosBlock
    let tm' := { tm with
      mask := tm.mask.set idx
        (encodeTile BaseWall flags (decodeDecor prev) (decodeEffect prev) (decodeState prev))
      hp := tm.hp.set idx (if indestructible then 32767 else toInt16 hitPoints)
      durability := tm.durability.set idx (if indestructible then 255 else toUint8 hitPoints) }
    if prevBase ≠ BaseWall then tm'.markDirty idx else tm'
  else tm

/-- `damageWallTile(x, y, amount) -> destroyed`. -/
def TileMap.damageWallTile (tm : TileMap) (x y : ℤ) (amount : ℤ) : Bool × TileMap :=
  if ¬ tm.inBounds x y then (false, tm)
  else
    let idx := tm.index x y
    let base := decodeBase (tm.mask.getD idx 0)
    if base ≠ BaseWall then (false, tm)
    else if tm.durability.getD idx 0 ≥ 200 then (false, tm)
    else
      let newHp := max (-32768) (min 32767 (tm.hp.getD idx 0 - amount))
      let tm1 := { tm with hp := tm.hp.set idx newHp }
      if newHp ≤ 0 then
        let tm2 := tm1.setTile x y BaseFloor
        let tm3 := { tm2 with hp := tm2.hp.set idx 0,
                              durability := tm2.durability.set idx 0 }
        (true, tm3.markDirty idx)
      else (false, tm1)

def TileMap.isWalkable (tm : TileMap) (x y : ℤ) : Bool :=
  if tm.inBounds x y then
    decide ((decodeFlags (tm.mask.getD (tm.index x y) 0)) &&& FlagWalkable ≠ 0)
  else false

def TileMap.isBlocked (tm : TileMap) (x y : ℤ) : Bool :=
  if tm.inBounds x y then
    decide ((decodeFlags (tm.mask.getD (tm.index x y) 0)) &&& FlagBlocked ≠ 0)
  else true

/-- Well-formedness: the typed arrays have exactly `width * height` cells,
as guaranteed by the `TileMap` constructor. -/
def TileMap.WF (tm : TileMap) : Prop :=
  tm.mask.length = tm.width * tm.height ∧
  tm.hp.length = tm.width * tm.height ∧
  tm.durability.length = tm.width * tm.height

instance (tm : TileMap) : Decidable tm.WF := by
  unfold TileMap.WF; infer_instance

theorem TileMap.index_lt_of_inBounds (tm : TileMap) {x y : ℤ}
    (h : tm.inBounds x y = true) : tm.index x y < tm.width * tm.height := by
  simp only [TileMap.inBounds, decide_eq_true_eq] at h
  obtain ⟨hx0, hy0, hxw, hyh⟩ := h
  have hw : 0 < tm.width := by exact_mod_cast lt_of_le_of_lt hx0 hxw
  have hh : 0 < tm.height := by exact_mod_cast lt_of_le_of_lt hy0 hyh
  unfold TileMap.index
  rw [Int.toNat_lt' (Nat.mul_pos hw hh).ne']
  push_cast
  nlinarith

theorem getD_set_self_of_lt {α : Type} (l : List α) (i : ℕ) (a d : α)
    (h : i < l.length) : (l.set i a).getD i d = a := by
  simp [List.getD, List.getElem?_set_self', h]

theorem encodeTile_testBit_eight (b f d e s : ℕ) :
    (encodeTile b f d e s).testBit 8 = f.testBit 0 := by
  have h1 : (0xff : ℕ).testBit 8 = false := by decide
  have h2 : (0xff00 : ℕ).testBit 8 = true := by decide
  have h3 : (0x0f0000 : ℕ).testBit 8 = false := by decide
  have h4 : (0xf00000 : ℕ).testBit 8 = false := by decide
  have h5 : (0x0f000000 : ℕ).testBit 8 = false := by decide
  unfold encodeTile MASK_BASE MASK_FLAGS MASK_DECOR MASK_EFFECT MASK_STATE
  rw [Nat.testBit_mod_two_pow]
  simp [Nat.testBit_lor, Nat.testBit_land, Nat.testBit_shiftLeft, h1, h2, h3, h4, h5]

theorem encodeTile_testBit_nine (b f d e s : ℕ) :
    (encodeTile b f d e s).testBit 9 = f.testBit 1 := by
  have h1 : (0xff : ℕ).testBit 9 = false := by decide
  have h2 : (0xff00 : ℕ).testBit 9 = true := by decide
  have h3 : (0x0f0000 : ℕ).testBit 9 = false := by decide
  have h4 : (0xf00000 : ℕ).testBit 9 = false := by decide
  have h5 : (0x0f000000 : ℕ).testBit 9 = false := by decide
  unfold encodeTile MASK_BASE MASK_FLAGS MASK_DECOR MASK_EFFECT MASK_STATE
  rw [Nat.testBit_mod_two_pow]
  simp [Nat.testBit_lor, Nat.testBit_land, Nat.testBit_shiftLeft, h1, h2, h3, h4, h5]

theorem decodeFlags_and_blocked (m : ℕ) :
    decodeFlags m &&& FlagBlocked = (m.testBit 9).toNat * 2 := by
  unfold decodeFlags FlagBlocked MASK_FLAGS
  have h2 : (2 : ℕ) = 2 ^ 1 := rfl
  rw [h2, Nat.and_two_pow, Nat.testBit_shiftRight, Nat.testBit_land]
  have h3 : (0xff00 : ℕ).testBit 9 = true := by decide
  norm_num [h3]

theorem decodeFlags_and_walkable (m : ℕ) :
    decodeFlags m &&& FlagWalkable = (m.testBit 8).toNat := by
  unfold decodeFlags FlagWalkable MASK_FLAGS
  have h2 : (1 : ℕ) = 2 ^ 0 := rfl
  rw [h2, Nat.and_two_pow, Nat.testBit_shiftRight, Nat.testBit_land]
  have h3 : (0xff00 : ℕ).testBit 8 = true := by decide
  norm_num [h3]

theorem TileMap.isBlocked_eq_testBit (tm : TileMap) (x y : ℤ)
    (hin : tm.inBounds x y = true) :
    tm.isBlocked x y = (tm.mask.getD (tm.index x y) 0).testBit 9 := by
  unfold TileMap.isBlocked
  rw [if_pos hin, decodeFlags_and_blocked]
  cases h : (tm.mask.getD (tm.index x y) 0).testBit 9 <;> simp [h]

theorem TileMap.isWalkable_eq_testBit (tm : TileMap) (x y : ℤ)
    (hin : tm.inBounds x y = true) :
    tm.isWalkable x y = (tm.mask.getD (tm.index x y) 0).testBit 8 := by
  unfold TileMap.isWalkable
  rw [if_pos hin, decodeFlags_and_walkable]
  cases h : (tm.mask.getD (tm.index x y) 0).testBit 8 <;> simp [h]

theorem TileMap.setTile_dims (tm : TileMap) (x y : ℤ) (b : ℕ) :
    (tm.setTile x y b).width = tm.width ∧ (tm.setTile x y b).height = tm.height ∧
    (tm.setTile x y b).virtualPixelScale = tm.virtualPixelScale := by
  unfold TileMap.setTile TileMap.markDirty
  dsimp only
  split_ifs <;> exact ⟨rfl, rfl, rfl⟩

theorem TileMap.damageWallTile_dims (tm : TileMap) (x y a : ℤ) :
    ((tm.damageWallTile x y a).2).width = tm.width ∧
    ((tm.damageWallTile x y a).2).height = tm.height ∧
    ((tm.damageWallTile x y a).2).virtualPixelScale = tm.virtualPixelScale := by
  unfold TileMap.damageWallTile TileMap.setTile TileMap.markDirty
  dsimp only
  split_ifs <;> exact ⟨rfl, rfl, rfl⟩

theorem TileMap.setTile_mask_of_inBounds (tm : TileMap) (x y : ℤ) (b : ℕ)
    (hin : tm.inBounds x y = true) :
    (tm.setTile x y b).mask =
      tm.mask.set (tm.index x y)
        (encodeTile b (defaultFlagsForBase b)
          (decodeDecor (tm.mask.getD (tm.index x y) 0))
          (decodeEffect (tm.mask.getD (tm.index x y) 0))
          (decodeState (tm.mask.getD (tm.index x y) 0))) := by
  unfold TileMap.setTile TileMap.markDirty
  dsimp only
  rw [if_pos hin]
  split_ifs <;> rfl

/-- When `damageWallTile` reports the wall destroyed, the tile has been
rewritten to a floor tile, which no longer blocks. -/
theorem TileMap.damageWallTile_destroyed_unblocked (tm : TileMap) (x y a : ℤ)
    (hWF : tm.mask.length = tm.width * tm.height)
    (hin : tm.inBounds x y = true)
    (hwall : decodeBase (tm.mask.getD (tm.index x y) 0) = BaseWall)
    (hdur : tm.durability.getD (tm.index x y) 0 < 200)
    (h : (tm.damageWallTile x y a).1 = true) :
    (tm.damageWallTile x y a).2.isBlocked x y = false := by
  have hdims := tm.damageWallTile_dims x y a
  have hinRes : (tm.damageWallTile x y a).2.inBounds x y = true := by
    unfold TileMap.inBounds
    rw [hdims.1, hdims.2.1]
    exact hin
  have hidxRes : (tm.damageWallTile x y a).2.index x y = tm.index x y := by
    unfold TileMap.index
    rw [hdims.1]
  rw [TileMap.isBlocked_eq_testBit _ x y hinRes, hidxRes]
  -- identify the mask of the destroyed-tile result
  have hmask : (tm.damageWallTile x y a).2.mask =
      tm.mask.set (tm.index x y)
        (encodeTile BaseFloor (defaultFlagsForBase BaseFloor)
          (decodeDecor (tm.mask.getD (tm.index x y) 0))
          (decodeEffect (tm.mask.getD (tm.index x y) 0))
          (decodeState (tm.mask.getD (tm.index x y) 0))) := by
    unfold TileMap.damageWallTile at h ⊢
    dsimp only at h ⊢
    rw [if_neg (not_not_intro hin), if_neg (by simp only [ne_eq, not_not]; exact hwall),
      if_neg (by omega)] at h ⊢
    by_cases h4 : max (-32768) (min 32767 (tm.hp.getD (tm.index x y) 0 - a)) ≤ 0
    · rw [if_pos h4]
      show ((({ tm with hp := tm.hp.set (tm.index x y) (max (-32768) (min 32767 (tm.hp.getD (tm.index x y) 0 - a))) } : TileMap).setTile x y BaseFloor).mask) = _
      exact TileMap.setTile_mask_of_inBounds _ x y BaseFloor hin
    · rw [if_neg h4] at h
      exact absurd h (by simp)
  rw [hmask, getD_set_self_of_lt _ _ _ _ (by rw [hWF]; exact tm.index_lt_of_inBounds hin),
    encodeTile_testBit_nine]
  decide

/-! ## Components (`entities/components/*.ts`) -/

structure TransformComponent where
  x : ℚ
  y : ℚ
  width : ℚ
  height : ℚ
  vx : ℚ
  vy : ℚ
  speed : ℚ
  directionX : ℚ
  directionY : ℚ
deriving DecidableEq, Repr

def TransformComponent.create (x y w h : ℚ) : TransformComponent :=
  { x := x, y := y, width := w, height := h, vx := 0, vy := 0, speed := 0
    directionX := 1, directionY := 0 }

structure HealthComponent where
  max : ℚ
  current : ℚ
  invulnTimer : ℚ
deriving DecidableEq, Repr

/-- `new HealthComponent(max, invulnFrames)`: `Math.round` is `round`
(half toward +∞ on ℚ, as in JS). -/
def HealthComponent.create (maxHp : ℚ) (invulnFrames : ℚ) : HealthComponent :=
  let m : ℚ := Max.max 1 ((round maxHp : ℤ) : ℚ)
  { max := m, current := m, invulnTimer := Max.max 0 invulnFrames }

def HealthComponent.heal (h : HealthComponent) (amount : ℚ) : HealthComponent :=
  if amount ≤ 0 then h
  else { h with current := min h.max (h.current + amount) }

def HealthComponent.takeDamage (h : HealthComponent) (amount : ℚ) : HealthComponent :=
  let dmg := Max.max 0 amount
  if dmg ≤ 0 then h
  else { h with current := Max.max 0 (h.current - dmg)
                invulnTimer := Max.max 0 h.invulnTimer }

def HealthComponent.update (h : HealthComponent) (dt : ℚ) : HealthComponent :=
  if h.invulnTimer > 0 then { h with invulnTimer := Max.max 0 (h.invulnTimer - dt) }
  else h

def HealthComponent.isDead (h : HealthComponent) : Bool := decide (h.current ≤ 0)

structure CollisionComponent where
  radius : ℚ
deriving DecidableEq, Repr

def CollisionComponent.create (radius : ℚ) : CollisionComponent :=
  { radius := max 0 radius }

structure AttackComponent where
  damage : ℚ
  cooldown : ℚ
  range : ℚ
  timer : ℚ
  lockTimer : ℚ
deriving DecidableEq, Repr

def AttackComponent.create (damage cooldownFrames range : ℚ) : AttackComponent :=
  { damage := max 0 damage, cooldown := max 0 cooldownFrames
    range := max 0 range, timer := 0, lockTimer := 0 }

def AttackComponent.tick (a : AttackComponent) (dt : ℚ) : AttackComponent :=
  let a1 := if a.timer > 0 then { a with timer := max 0 (a.timer - dt) } else a
  if a1.lockTimer > 0 then { a1 with lockTimer := max 0 (a1.lockTimer - dt) } else a1

def AttackComponent.trigger (a : AttackComponent) : AttackComponent :=
  { a with timer := a.cooldown }

/-- `AIComponent` data fields.  The `targetResolver` / `attackHandler`
closures are non-owning references into the orchestration layer and are
modelled as absent (their `?.()` no-op branch). -/
structure AIComponent where
  behavior : String
  aggressionRadius : ℚ
  attackRange : ℚ
  idealRangeMin : ℚ
  idealRangeMax : ℚ
  retreatRange : ℚ
  attackCooldown : ℚ
  attackLockDuration : ℚ
  attackWindup : ℚ
  recoveryDuration : ℚ
  moveSpeed : ℚ
  cooldownTimer : ℚ
  lockedTimer : ℚ
deriving DecidableEq, Repr

/-- `AIBehaviorConfig` (data fields only). -/
structure AIBehaviorConfig where
  behavior : String
  aggressionRadius : Option ℚ
  attackRange : Option ℚ
  idealRangeMin : Option ℚ
  idealRangeMax : Option ℚ
  retreatRange : Option ℚ
  attackCooldown : Option ℚ
  attackLockDuration : Option ℚ
  attackWindup : Option ℚ
  recoveryDuration : Option ℚ
  moveSpeed : Option ℚ
deriving DecidableEq, Repr

def AIComponent.create (config : AIBehaviorConfig) : AIComponent :=
  let attackRange := config.attackRange.getD 12
  { behavior := config.behavior
    aggressionRadius := config.aggressionRadius.getD 200
    attackRange := attackRange
    idealRangeMin := config.idealRangeMin.getD attackRange
    idealRangeMax := config.idealRangeMax.getD (attackRange * 2)
    retreatRange := config.retreatRange.getD attackRange
    attackCooldown := config.attackCooldown.getD 45
    attackLockDuration := config.attackLockDuration.getD 0
    attackWindup := config.attackWindup.getD 0
    recoveryDuration := config.recoveryDuration.getD 0
    moveSpeed := config.moveSpeed.getD 1
    cooldownTimer := 0, lockedTimer := 0 }

structure EnemyInfoComponent where
  enemyType : String
  xpReward : ℚ
deriving DecidableEq, Repr

/-! ## Entity and EntityManager (`entities/Entity.ts`, `entities/EntityManager.ts`) -/

structure EntityFlags where
  collidable : Bool
  movable : Bool
  damageable : Bool
  hostile : Bool
deriving DecidableEq, Repr

/-- An entity: id, type tag, active flag, capability flags, and its
component bag narrowed to the component names the verified systems read
(at most one component per name, per the data model). -/
structure Entity where
  id : ℕ
  type : String
  active : Bool
  flags : EntityFlags
  transform : Option TransformComponent
  health : Option HealthComponent
  collision : Option CollisionComponent
  attack : Option AttackComponent
  ai : Option AIComponent
  enemyInfo : Option EnemyInfoComponent
deriving DecidableEq, Repr

def Entity.create (id : ℕ) (type : String) : Entity :=
  { id := id, type := type, active := true
    flags := { collidable := true, movable := true, damageable := true, hostile := false }
    transform := none, health := none, collision := none, attack := none
    ai := none, enemyInfo := none }

/-- The entity store.  `store` is the heap of every entity object ever
created, keyed by id (JS objects stay alive while referenced; ids are
monotonic and never reused).  `entities` / `enemies` / `pickups` / `player`
hold ids, mirroring the manager's arrays of references. -/
structure EntityManager where
  store : List Entity
  entities : List ℕ
  enemies : List ℕ
  pickups : List ℕ
  player : Option ℕ
  nextId : ℕ
deriving DecidableEq, Repr

def EntityManager.empty : EntityManager :=
  { store := [], entities := [], enemies := [], pickups := [], player := none, nextId := 1 }

/-- Resolve an entity reference (id) against the heap. -/
def EntityManager.lookup (em : EntityManager) (id : ℕ) : Option Entity :=
  em.store.find? (fun e => e.id == id)

/-- Mutate the entity object with the given id in place. -/
def EntityManager.updateEntity (em : EntityManager) (id : ℕ) (f : Entity → Entity) :
    EntityManager :=
  { em with store := em.store.map (fun e => if e.id = id then f e else e) }

def EntityManager.createEntity (em : EntityManager) (type : String) :
    Entity × EntityManager :=
  let e := Entity.create em.nextId type
  (e, { em with
    store := em.store ++ [e]
    entities := em.entities ++ [e.id]
    player := if type = "player" then some e.id else em.player
    enemies := if type = "enemy" then em.enemies ++ [e.id] else em.enemies
    pickups := if type = "pickup" then em.pickups ++ [e.id] else em.pickups
    nextId := em.nextId + 1 })

/-- `removeEntity`: mark the object inactive, clear the player slot when the
removed entity is the player, and filter it out of all three lists. -/
def EntityManager.removeEntity (em : EntityManager) (id : ℕ) : EntityManager :=
  { em with
    store := em.store.map (fun e => if e.id = id then { e with active := false } else e)
    player := if em.player = some id then none else em.player
    entities := em.entities.filter (fun i => i != id)
    enemies := em.enemies.filter (fun i => i != id)
    pickups := em.pickups.filter (fun i => i != id) }

/-! ## CombatSystem (`entities/CombatSystem.ts`) -/

structure CombatFlags where
  infinitePlayerHealth : Bool
  oneHitKillEnemies : Bool
  logDamage : Bool
deriving DecidableEq, Repr

structure StatusEffectInstance where
  type : String
  remaining : ℚ
  params : List (String × ℚ)
  source : Option ℕ
deriving DecidableEq, Repr

structure StatusState where
  baseMoveSpeed : Option ℚ
  effects : List StatusEffectInstance
deriving DecidableEq, Repr

/-- The combat system's own state plus the entity manager it drives.
`maxLogs = 8`.  The `onEntityKilled` / `onDamageApplied` callbacks are
modelled as absent; the `damageModifier` hook is a pure parameter of
`applyDamage`. -/
structure CombatSystem where
  em : EntityManager
  flags : CombatFlags
  damageLog : List String
  killCount : ℕ
  statuses : List (ℕ × StatusState)
deriving DecidableEq, Repr

def CombatSystem.pushLog (cs : CombatSystem) (entry : String) : CombatSystem :=
  let log := cs.damageLog ++ [entry]
  { cs with damageLog := if log.length > 8 then log.drop 1 else log }

/-- `handleDeath`: count enemy kills, drop the status bundle, remove the
entity (the `onEntityKilled` callback is absent). -/
def CombatSystem.handleDeath (cs : CombatSystem) (target : Entity)
    (_source : Option Entity) : CombatSystem :=
  let cs1 := if target.type = "enemy" then { cs with killCount := cs.killCount + 1 } else cs
  let cs2 := { cs1 with statuses := cs1.statuses.filter (fun p => p.1 != target.id) }
  { cs2 with em := cs2.em.removeEntity target.id }

/-- The optional `damageModifier(target, amount, source)` hook. -/
def DamageModifier : Type := Option (Entity → ℚ → Option Entity → ℚ)

/-- `applyDamage(target, amount, source) -> bool`.  The target is passed by
id (the heap reference). -/
def CombatSystem.applyDamage (modifier : DamageModifier) (cs : CombatSystem)
    (targetId : ℕ) (amount : ℚ) (source : Option Entity) : Bool × CombatSystem :=
  match cs.em.lookup targetId with
  | none => (false, cs)
  | some target =>
    match target.health with
    | none => (false, cs)
    | some health =>
      if target.type = "player" ∧ cs.flags.infinitePlayerHealth then (false, cs)
      else if health.invulnTimer > 0 then (false, cs)
      else
        let dmg0 := max 0 amount
        let dmg1 := match modifier with
          | some f => max 0 (f target dmg0 source)
          | none => dmg0
        let dmg := if cs.flags.oneHitKillEnemies ∧ target.type = "enemy" then
            health.current else dmg1
        if dmg ≤ 0 then (false, cs)
        else
          let health' := health.takeDamage dmg
          let em1 := cs.em.updateEntity targetId (fun e => { e with health := some health' })
          let cs1 := { cs with em := em1 }
          let attacker := match source with
            | some s => s.type ++ "#" ++ toString s.id
            | none => "env"
          let cs2 := if cs.flags.logDamage then
              cs1.pushLog ("Hit " ++ target.type ++ "#" ++ toString target.id ++
                " for " ++ toString dmg ++ " by " ++ attacker)
            else cs1
          if health'.isDead then (true, cs2.handleDeath target source)
          else (true, cs2)

/-! ## Projectiles (`entities/projectiles/ProjectileManager.ts`) -/

/-- A status-effect descriptor carried by a projectile. -/
structure EffectDesc where
  type : String
  params : List (String × ℚ)
deriving DecidableEq, Repr

def paramsGet (ps : List (String × ℚ)) (k : String) : Option ℚ :=
  (ps.find? (fun p => p.1 = k)).map (·.2)

structure ProjectileTypeDefinition where
  key : String
  speed : ℚ
  damage : ℚ
  lifetime : ℚ
  sizeScale : ℚ
  collisionRadiusScale : Option ℚ
  color : Option ℕ
deriving DecidableEq, Repr

/-- The pooled projectile record.  `source` is the source entity's id
(entity ids are unique and never reused, so the id stands for the
reference). -/
structure Projectile where
  id : ℕ
  type : ProjectileTypeDefinition
  source : Option ℕ
  x : ℚ
  y : ℚ
  dirX : ℚ
  dirY : ℚ
  speed : ℚ
  damage : ℚ
  lifetime : ℚ
  size : ℚ
  radius : ℚ
  pierce : ℤ
  hitIds : List ℕ
  effects : List EffectDesc
  remainingChains : ℤ
  chainRange : ℚ
  colorOverride : Option ℕ
  isPlayerProjectile : Bool
  isEnemyProjectile : Bool
  active : Bool
deriving DecidableEq, Repr

/-- Loop body of `collidesWithWall` over the sample list, threading the
tile map through `damageWallTile` calls. -/
def wallSampleLoop (p : Projectile) : TileMap → List (ℚ × ℚ) → Bool × TileMap
  | tm, [] => (false, tm)
  | tm, s :: rest =>
    let tx : ℤ := ⌊s.1 / tm.virtualPixelScale⌋
    let ty : ℤ := ⌊s.2 / tm.virtualPixelScale⌋
    if ¬ (0 ≤ tx ∧ 0 ≤ ty ∧ tx < (tm.width : ℤ) ∧ ty < (tm.height : ℤ)) then (true, tm)
    else if ¬ tm.isBlocked tx ty then wallSampleLoop p tm rest
    else
      let tile := tm.getTile tx ty
      let isWall := (tile.map (·.base)) = some BaseWall
      let indestructible :=
        (tile.map (·.base)) = some BaseWall ∧ ((tile.map (·.durability)).getD 0) ≥ 200
      if isWall ∧ p.isPlayerProjectile = true ∧ ¬ indestructible then
        let res := tm.damageWallTile tx ty 1
        if res.1 = false then (true, res.2)
        else wallSampleLoop p res.2 rest
      else (true, tm)

/-- `collidesWithWall`: five samples (center plus four radius offsets);
no tile map means no collision. -/
def collidesWithWall (tileMap : Option TileMap) (p : Projectile) :
    Bool × Option TileMap :=
  match tileMap with
  | none => (false, none)
  | some tm =>
    let samples : List (ℚ × ℚ) :=
      [(p.x, p.y), (p.x + p.radius, p.y), (p.x - p.radius, p.y),
       (p.x, p.y + p.radius), (p.x, p.y - p.radius)]
    let res := wallSampleLoop p tm samples
    (res.1, some res.2)

/-! ## Claim C9: `damageWallTile` on out-of-bounds / non-wall targets -/

/-- C9: for every coordinate pair that is out of bounds or whose tile's base
is not `Wall`, `damageWallTile` returns `false` and leaves the tile map fully
unchanged (mask, hp, durability, usage, overlay TTLs and dirty-tile queue);
conversely any mutation implies the target was an in-bounds wall tile with
durability below 200. -/
theorem damageWallTile_noop_spec (tm : TileMap) (x y : ℤ) (amount : ℤ) :
    ((tm.inBounds x y = false ∨ tm.baseAt x y ≠ BaseWall) →
      tm.damageWallTile x y amount = (false, tm)) ∧
    ((tm.damageWallTile x y amount).2 ≠ tm →
      tm.inBounds x y = true ∧ tm.baseAt x y = BaseWall ∧
        tm.durabilityAt x y < 200) := by
  have noop : (tm.inBounds x y = false ∨ tm.baseAt x y ≠ BaseWall ∨
      200 ≤ tm.durabilityAt x y) → tm.damageWallTile x y amount = (false, tm) := by
    intro h
    unfold TileMap.damageWallTile
    by_cases hb : tm.inBounds x y
    case neg => rw [if_pos hb]
    case pos =>
      rw [if_neg (not_not_intro hb)]
      dsimp only
      by_cases hw : decodeBase (tm.mask.getD (tm.index x y) 0) ≠ BaseWall
      · rw [if_pos hw]
      · push_neg at hw
        rw [if_neg (not_not_intro hw)]
        have hd : 200 ≤ tm.durability.getD (tm.index x y) 0 := by
          rcases h with h | h | h
          · exact absurd hb (by simp [h])
          · exact absurd hw h
          · exact h
        rw [if_pos hd]
  constructor
  · intro h
    apply noop
    tauto
  · intro hne
    by_cases hb : tm.inBounds x y
    case neg =>
      exact absurd (congrArg Prod.snd (noop (Or.inl (by simpa using hb)))) hne
    by_cases hw : tm.baseAt x y = BaseWall
    case neg =>
      exact absurd (congrArg Prod.snd (noop (Or.inr (Or.inl hw)))) hne
    by_cases hd : 200 ≤ tm.durabilityAt x y
    case pos =>
      exact absurd (congrArg Prod.snd (noop (Or.inr (Or.inr hd)))) hne
    case neg =>
      exact ⟨hb, hw, Nat.lt_of_not_le hd⟩

/-- Witness for C9 at a concrete input: a 2×2 map, coordinate (5, 0) out of
bounds, and coordinate (0, 0) holding a floor tile. -/
theorem damageWallTile_noop_spec_witness :
    ((TileMap.create 2 2 4).damageWallTile 5 0 1 = (false, TileMap.create 2 2 4)) ∧
    ((((TileMap.create 2 2 4).setTile 0 0 BaseFloor).damageWallTile 0 0 1) =
      (false, (TileMap.create 2 2 4).setTile 0 0 BaseFloor)) := by
  refine ⟨?_, ?_⟩
  · exact (damageWallTile_noop_spec (TileMap.create 2 2 4) 5 0 1).1 (by decide)
  · exact (damageWallTile_noop_spec ((TileMap.create 2 2 4).setTile 0 0 BaseFloor) 0 0 1).1
      (by decide)

/-! ## Claim C1: player projectiles vs destructible walls -/

/-- C1 counterexample map: a 1×1 grid whose single tile is a destructible
wall (`setWallTile 3 false`, durability 3 < 200). -/
def c1Map : TileMap := (TileMap.create 1 1 4).setWallTile 0 0 3 false

/-- C1 counterexample projectile: player-owned, radius 0, centered on the
wall tile. -/
def c1Proj : Projectile :=
  { id := 1
    type := { key := "playerBullet", speed := 3, damage := 11, lifetime := 180
              sizeScale := 3/10, collisionRadiusScale := some (45/100)
              color := some 0xffffff }
    source := none, x := 2, y := 2, dirX := 1, dirY := 0, speed := 3
    damage := 11, lifetime := 100, size := 1, radius := 0, pierce := 0
    hitIds := [], effects := [], remainingChains := 0, chainRange := 72
    colorOverride := none, isPlayerProjectile := true
    isEnemyProjectile := false, active := true }

/-- A wall with 1 hp, destroyed by a single hit. -/
def c1MapWeak : TileMap := (TileMap.create 1 1 4).setWallTile 0 0 1 false

/-- The same projectile but enemy-owned. -/
def c1ProjEnemy : Projectile :=
  { c1Proj with isPlayerProjectile := false, isEnemyProjectile := true }

theorem wallSampleLoop_nil (p : Projectile) (tm : TileMap) :
    wallSampleLoop p tm [] = (false, tm) := rfl

/-- A sample over an in-bounds, non-blocked tile is skipped. -/
theorem wallSampleLoop_skip (p : Projectile) (tm : TileMap) (s : ℚ × ℚ)
    (rest : List (ℚ × ℚ))
    (hin : tm.inBounds (⌊s.1 / tm.virtualPixelScale⌋)
      (⌊s.2 / tm.virtualPixelScale⌋) = true)
    (hnb : tm.isBlocked (⌊s.1 / tm.virtualPixelScale⌋)
      (⌊s.2 / tm.virtualPixelScale⌋) = false) :
    wallSampleLoop p tm (s :: rest) = wallSampleLoop p tm rest := by
  have hin' : (0 ≤ ⌊s.1 / tm.virtualPixelScale⌋ ∧
      0 ≤ ⌊s.2 / tm.virtualPixelScale⌋ ∧
      ⌊s.1 / tm.virtualPixelScale⌋ < (tm.width : ℤ) ∧
      ⌊s.2 / tm.virtualPixelScale⌋ < (tm.height : ℤ)) := by
    simpa [TileMap.inBounds] using hin
  conv_lhs => unfold wallSampleLoop
  dsimp only
  rw [if_neg (not_not_intro hin'), if_pos (by simp [hnb])]

/-- Core analysis of the wall-collision check for a radius-0 player
projectile centered on a tile: shared by the C1 counterexample and the
amended C1 theorem. -/
theorem wallCenterCollision (tm : TileMap) (p : Projectile)
    (tx ty : ℤ) (hWF : tm.WF)
    (htx : tx = ⌊p.x / tm.virtualPixelScale⌋)
    (hty : ty = ⌊p.y / tm.virtualPixelScale⌋)
    (hin : tm.inBounds tx ty = true)
    (hblock : tm.isBlocked tx ty = true) :
    ((p.isPlayerProjectile = true → p.radius = 0 →
      tm.baseAt tx ty = BaseWall → tm.durabilityAt tx ty < 200 →
      collidesWithWall (some tm) p =
        (!(tm.damageWallTile tx ty 1).1, some (tm.damageWallTile tx ty 1).2)) ∧
     ((p.isPlayerProjectile = false ∨ tm.baseAt tx ty ≠ BaseWall ∨
        200 ≤ tm.durabilityAt tx ty) →
      collidesWithWall (some tm) p = (true, some tm))) := by
  have hin' : (0 ≤ tx ∧ 0 ≤ ty ∧ tx < (tm.width : ℤ) ∧ ty < (tm.height : ℤ)) := by
    simpa [TileMap.inBounds] using hin
  have hget : tm.getTile tx ty = some
      { base := decodeBase (tm.mask.getD (tm.index tx ty) 0)
        flags := decodeFlags (tm.mask.getD (tm.index tx ty) 0)
        decor := decodeDecor (tm.mask.getD (tm.index tx ty) 0)
        effect := decodeEffect (tm.mask.getD (tm.index tx ty) 0)
        state := decodeState (tm.mask.getD (tm.index tx ty) 0)
        hp := tm.hp.getD (tm.index tx ty) 0
        durability := tm.durability.getD (tm.index tx ty) 0
        usage := tm.usage.getD (tm.index tx ty) 0 } := by
    unfold TileMap.getTile
    rw [if_pos hin]
  constructor
  · intro hplayer hrad hwall hdur
    have hbase' : decodeBase (tm.mask.getD (tm.index tx ty) 0) = BaseWall := hwall
    have hdur' : tm.durability.getD (tm.index tx ty) 0 < 200 := hdur
    have htile_base : ((tm.getTile tx ty).map (·.base)) = some BaseWall := by
      rw [hget, Option.map_some']
      exact congrArg some hbase'
    have hcond : ((tm.getTile tx ty).map (·.base)) = some BaseWall ∧
        p.isPlayerProjectile = true ∧
        ¬ (((tm.getTile tx ty).map (·.base)) = some BaseWall ∧
          ((tm.getTile tx ty).map (·.durability)).getD 0 ≥ 200) := by
      refine ⟨htile_base, hplayer, ?_⟩
      rintro ⟨-, hge⟩
      rw [hget, Option.map_some', Option.getD_some] at hge
      dsimp only at hge
      omega
    -- with radius 0 all five samples coincide on (p.x, p.y)
    have hsamples : [(p.x, p.y), (p.x + p.radius, p.y), (p.x - p.radius, p.y),
        (p.x, p.y + p.radius), (p.x, p.y - p.radius)] =
        [(p.x, p.y), (p.x, p.y), (p.x, p.y), (p.x, p.y), (p.x, p.y)] := by
      rw [hrad]; norm_num
    have hstep : ∀ rest, wallSampleLoop p tm ((p.x, p.y) :: rest) =
        (let res := tm.damageWallTile tx ty 1
         if res.1 = false then (true, res.2)
         else wallSampleLoop p res.2 rest) := by
      intro rest
      conv_lhs => unfold wallSampleLoop
      dsimp only
      rw [← htx, ← hty]
      rw [if_neg (not_not_intro hin'), if_neg (by simp [hblock]), if_pos hcond]
    rcases hdw : tm.damageWallTile tx ty 1 with ⟨destroyed, tm'⟩
    have hdims := tm.damageWallTile_dims tx ty 1
    rw [hdw] at hdims
    cases destroyed with
    | false =>
      show collidesWithWall (some tm) p = (!false, some tm')
      unfold collidesWithWall
      dsimp only
      rw [hsamples, hstep, hdw]
      simp
    | true =>
      -- wall destroyed: the remaining samples see a walkable floor tile
      have hin2 : tm'.inBounds tx ty = true := by
        unfold TileMap.inBounds
        rw [hdims.1, hdims.2.1]
        exact hin
      have hnb : tm'.isBlocked tx ty = false := by
        have := tm.damageWallTile_destroyed_unblocked tx ty 1 hWF.1 hin hbase' hdur'
          (by rw [hdw])
        rwa [hdw] at this
      have hskip : ∀ rest, wallSampleLoop p tm' ((p.x, p.y) :: rest) =
          wallSampleLoop p tm' rest := by
        intro rest
        apply wallSampleLoop_skip
        · rw [hdims.2.2, ← htx, ← hty]; exact hin2
        · rw [hdims.2.2, ← htx, ← hty]; exact hnb
      show collidesWithWall (some tm) p = (!true, some tm')
      unfold collidesWithWall
      dsimp only
      rw [hsamples, hstep, hdw]
      rw [if_neg (by simp)]
      rw [hskip, hskip, hskip, hskip, wallSampleLoop_nil]
      rfl
  · intro hother
    have hcond : ¬ (((tm.getTile tx ty).map (·.base)) = some BaseWall ∧
        p.isPlayerProjectile = true ∧
        ¬ (((tm.getTile tx ty).map (·.base)) = some BaseWall ∧
          ((tm.getTile tx ty).map (·.durability)).getD 0 ≥ 200)) := by
      rcases hother with h | h | h
      · rintro ⟨-, hpl, -⟩; rw [h] at hpl; exact Bool.false_ne_true hpl
      · rintro ⟨hb, -, -⟩
        apply h
        rw [hget, Option.map_some'] at hb
        dsimp only at hb
        exact Option.some.inj hb
      · rintro ⟨hb, -, hni⟩
        apply hni
        refine ⟨hb, ?_⟩
        rw [hget, Option.map_some', Option.getD_some]
        dsimp only
        exact h
    unfold collidesWithWall
    dsimp only
    conv_lhs => unfold wallSampleLoop
    dsimp only
    rw [← htx, ← hty]
    rw [if_neg (not_not_intro hin'), if_neg (by simp [hblock]), if_neg hcond]

/-- C1 counterexample: the wall survives the hit (`damageWallTile` returns
`false`, hp 3 → 2), yet `collidesWithWall` reports a blocking collision, so
the projectile is stopped — refuting the claim that the projectile
"continues its flight if the wall was not destroyed". -/
theorem collidesWithWall_blocks_surviving_wall :
    (c1Map.damageWallTile 0 0 1).1 = false ∧
    (collidesWithWall (some c1Map) c1Proj).1 = true := by
  refine ⟨by decide, ?_⟩
  have h := (wallCenterCollision c1Map c1Proj 0 0 (by decide)
      (by rw [show c1Proj.x = 2 from rfl, show c1Map.virtualPixelScale = 4 from rfl]
          norm_num)
      (by rw [show c1Proj.y = 2 from rfl, show c1Map.virtualPixelScale = 4 from rfl]
          norm_num)
      (by decide) (by decide)).1 rfl rfl (by decide) (by decide)
  rw [h, show (c1Map.damageWallTile 0 0 1).1 = false from by decide]
  rfl

/-- C1 amended: for a player-owned projectile whose collision sample lands
on a destructible wall tile (base `Wall`, durability < 200, blocked),
`update`'s wall check calls `damageWallTile` on that tile, and the
projectile continues its flight if the wall *was* destroyed, else (wall
survived) it is treated as blocked and stops; an indestructible or
non-player-owned collision always stops the projectile, leaving the map
unmodified.  (Stated for a radius-0 projectile, whose five samples
coincide on the center tile.) -/
theorem collidesWithWall_destructible_spec (tm : TileMap) (p : Projectile)
    (tx ty : ℤ) (hWF : tm.WF)
    (htx : tx = ⌊p.x / tm.virtualPixelScale⌋)
    (hty : ty = ⌊p.y / tm.virtualPixelScale⌋)
    (hin : tm.inBounds tx ty = true)
    (hblock : tm.isBlocked tx ty = true) :
    ((p.isPlayerProjectile = true → p.radius = 0 →
      tm.baseAt tx ty = BaseWall → tm.durabilityAt tx ty < 200 →
      collidesWithWall (some tm) p =
        (!(tm.damageWallTile tx ty 1).1, some (tm.damageWallTile tx ty 1).2)) ∧
     ((p.isPlayerProjectile = false ∨ tm.baseAt tx ty ≠ BaseWall ∨
        200 ≤ tm.durabilityAt tx ty) →
      collidesWithWall (some tm) p = (true, some tm))) :=
  wallCenterCollision tm p tx ty hWF htx hty hin hblock

/-- Witness for the amended C1 at concrete inputs: a surviving wall blocks,
a destroyed wall lets the projectile continue, an enemy-owned projectile is
always blocked with the map unchanged. -/
theorem collidesWithWall_destructible_spec_witness :
    (collidesWithWall (some c1Map) c1Proj =
      (!(c1Map.damageWallTile 0 0 1).1, some (c1Map.damageWallTile 0 0 1).2)) ∧
    (collidesWithWall (some c1MapWeak) c1Proj =
      (!(c1MapWeak.damageWallTile 0 0 1).1, some (c1MapWeak.damageWallTile 0 0 1).2)) ∧
    (collidesWithWall (some c1Map) c1ProjEnemy = (true, some c1Map)) := by
  refine ⟨?_, ?_, ?_⟩
  · exact (collidesWithWall_destructible_spec c1Map c1Proj 0 0 (by decide)
      (by rw [show c1Proj.x = 2 from rfl, show c1Map.virtualPixelScale = 4 from rfl]
          norm_num)
      (by rw [show c1Proj.y = 2 from rfl, show c1Map.virtualPixelScale = 4 from rfl]
          norm_num)
      (by decide) (by decide)).1 rfl rfl (by decide) (by decide)
  · exact (collidesWithWall_destructible_spec c1MapWeak c1Proj 0 0 (by decide)
      (by rw [show c1Proj.x = 2 from rfl, show c1MapWeak.virtualPixelScale = 4 from rfl]
          norm_num)
      (by rw [show c1Proj.y = 2 from rfl, show c1MapWeak.virtualPixelScale = 4 from rfl]
          norm_num)
      (by decide) (by decide)).1 rfl rfl (by decide) (by decide)
  · exact (collidesWithWall_destructible_spec c1Map c1ProjEnemy 0 0 (by decide)
      (by rw [show c1ProjEnemy.x = 2 from rfl, show c1Map.virtualPixelScale = 4 from rfl]
          norm_num)
      (by rw [show c1ProjEnemy.y = 2 from rfl, show c1Map.virtualPixelScale = 4 from rfl]
          norm_num)
      (by decide) (by decide)).2 (Or.inl rfl)

/-! ## ProjectileManager state and update
(`entities/projectiles/ProjectileManager.ts`) -/

/-- The float primitives (`Math.cos` / `Math.sin` / `Math.sqrt` /
`Math.PI`) as an abstract parameter record: every theorem holds for every
interpretation of them. -/
structure FloatOps where
  cos : ℚ → ℚ
  sin : ℚ → ℚ
  sqrt : ℚ → ℚ
  pi : ℚ

structure ProjectileSystemConfig where
  poolSize : ℕ
  maxProjectiles : ℕ
  enableObjectPooling : Bool
  reuseOldestWhenFull : Bool
  enableFriendlyFire : Bool
  defaultProjectileScale : ℚ
  defaultProjectileSpeed : ℚ
  maxLifetime : ℚ
deriving DecidableEq, Repr

def playerBulletType : ProjectileTypeDefinition :=
  { key := "playerBullet", speed := 3, damage := 11, lifetime := 180
    sizeScale := 3/10, collisionRadiusScale := some (45/100), color := some 0xffffff }

def enemySpitType : ProjectileTypeDefinition :=
  { key := "enemySpit", speed := 3, damage := 6, lifetime := 150
    sizeScale := 34/100, collisionRadiusScale := some (48/100), color := some 0x7dd3fc }

def heavyBlobType : ProjectileTypeDefinition :=
  { key := "heavyBlob", speed := 5/2, damage := 14, lifetime := 240
    sizeScale := 42/100, collisionRadiusScale := some (1/2), color := some 0xf472b6 }

def DEFAULT_TYPES : List ProjectileTypeDefinition :=
  [playerBulletType, enemySpitType, heavyBlobType]

def DEFAULT_CONFIG : ProjectileSystemConfig :=
  { poolSize := 256, maxProjectiles := 256, enableObjectPooling := true
    reuseOldestWhenFull := true, enableFriendlyFire := false
    defaultProjectileScale := 3/10, defaultProjectileSpeed := 6, maxLifetime := 360 }

structure ProjectileSpawnOptions where
  overrideSpeed : Option ℚ
  overrideDamage : Option ℚ
  overrideLifetime : Option ℚ
  sizeScale : Option ℚ
  pierce : Option ℤ
  color : Option ℕ
  effects : Option (List EffectDesc)
  chain : Option ℤ
  chainRange : Option ℚ
deriving DecidableEq, Repr

def noSpawnOptions : ProjectileSpawnOptions :=
  { overrideSpeed := none, overrideDamage := none, overrideLifetime := none
    sizeScale := none, pierce := none, color := none, effects := none
    chain := none, chainRange := none }

/-- The zeroed projectile record allocated by `preallocatePool` and the
non-pooling branch of `acquireProjectile` (`type` starts as
`DEFAULT_TYPES[0]`). -/
def freshProjectile : Projectile :=
  { id := 0, type := playerBulletType, source := none, x := 0, y := 0
    dirX := 0, dirY := 0, speed := 0, damage := 0, lifetime := 0, size := 0
    radius := 0, pierce := 0, hitIds := [], effects := [], remainingChains := 0
    chainRange := 0, colorOverride := none, isPlayerProjectile := false
    isEnemyProjectile := false, active := false }

/-- The projectile manager.  `combat` holds the combat system together with
the entity manager both objects share (`entityManager` is
`combat.em`); `hasCombat` is whether `setCombatSystem` was called.
The on-hit effect bookkeeping keeps ids in place of JS `Set` references. -/
structure ProjSys where
  combat : CombatSystem
  hasCombat : Bool
  registry : List ProjectileTypeDefinition
  config : ProjectileSystemConfig
  pool : List Projectile
  active : List Projectile
  nextId : ℕ
  tileMap : Option TileMap
deriving DecidableEq, Repr

/-- `normalize(x, y) -> {x, y, lenSq}`. -/
def normalize (ops : FloatOps) (x y : ℚ) : ℚ × ℚ × ℚ :=
  let lenSq := x * x + y * y
  if lenSq = 0 then (0, 0, 0)
  else
    let inv := 1 / ops.sqrt lenSq
    (x * inv, y * inv, lenSq)

def getCollisionRadius (e : Entity) (t : TransformComponent) : ℚ :=
  match e.collision with
  | some c => c.radius
  | none => Max.max t.width t.height * (1/2)

/-- `acquireProjectile`: pool pop (fields cleared), fresh allocation when
pooling is off, oldest-eviction or rejection at the cap, else a fresh
record. -/
def acquireProjectile (sys : ProjSys) : Option (Projectile × ProjSys) :=
  match sys.pool.getLast? with
  | some p =>
    some ({ p with hitIds := [], effects := [], remainingChains := 0
                   chainRange := 0, colorOverride := none },
          { sys with pool := sys.pool.dropLast })
  | none =>
    if sys.config.enableObjectPooling = false then some (freshProjectile, sys)
    else if sys.active.length ≥ sys.config.maxProjectiles then
      if sys.config.reuseOldestWhenFull = false then none
      else
        match sys.active with
        | [] => none
        | oldest :: rest =>
          some ({ oldest with active := false }, { sys with active := rest })
    else some (freshProjectile, sys)

/-- `spawn(key, position, direction, source, flags, options)`. -/
def ProjSys.spawn (ops : FloatOps) (sys : ProjSys) (key : String)
    (position : ℚ × ℚ) (direction : ℚ × ℚ) (source : Option ℕ)
    (isPlayer isEnemy : Bool) (options : ProjectileSpawnOptions) :
    Option Projectile × ProjSys :=
  match sys.registry.find? (fun t => t.key == key) with
  | none => (none, sys)
  | some type =>
    let norm := normalize ops direction.1 direction.2
    if norm.2.2 = 0 then (none, sys)
    else
      match acquireProjectile sys with
      | none => (none, sys)
      | some (_slot, sys1) =>
        let sourceTransform := source.bind (fun sid =>
          (sys1.combat.em.lookup sid).bind (fun e => e.transform))
        let shooterSize := match sourceTransform with
          | some t => Max.max t.width t.height
          | none => 1
        let sizeScale := options.sizeScale.getD type.sizeScale
        let effects := options.effects.getD []
        let chain := Max.max 0 (options.chain.getD 0)
        let chainRange := Max.max 0 (options.chainRange.getD 0)
        let speed := options.overrideSpeed.getD type.speed
        let damage := options.overrideDamage.getD type.damage
        let lifetime := options.overrideLifetime.getD
          (min type.lifetime sys1.config.maxLifetime)
        let p : Projectile :=
          { id := sys1.nextId, type := type, source := source
            x := position.1, y := position.2, dirX := norm.1, dirY := norm.2.1
            speed := speed, damage := damage, lifetime := lifetime
            size := shooterSize * sizeScale
            radius := shooterSize * sizeScale * (type.collisionRadiusScale.getD (45/100))
            pierce := Max.max 0 (options.pierce.getD 0)
            hitIds := [], effects := effects, remainingChains := chain
            chainRange := if chainRange = 0 then 72 else chainRange
            colorOverride := options.color
            isPlayerProjectile := isPlayer, isEnemyProjectile := isEnemy
            active := true }
        (some p, { sys1 with nextId := sys1.nextId + 1, active := sys1.active ++ [p] })

/-- `applyStatusEffects(target, effects)` from `CombatSystem`. -/
def CombatSystem.applyStatusEffects (cs : CombatSystem) (target : Entity)
    (effects : List StatusEffectInstance) : CombatSystem :=
  if target.active = false ∨ effects = [] then cs
  else
    match (cs.statuses.find? (fun p => p.1 == target.id)) with
    | some _ =>
      { cs with statuses := cs.statuses.map (fun q =>
          if q.1 = target.id then (q.1, { q.2 with effects := q.2.effects ++ effects })
          else q) }
    | none =>
      { cs with statuses := cs.statuses ++
          [(target.id, { baseMoveSpeed := none, effects := effects })] }

/-- `applyKnockback(target, projectile)`. -/
def ProjSys.applyKnockback (sys : ProjSys) (targetId : ℕ) (p : Projectile) : ProjSys :=
  match p.effects.find? (fun e => e.type == "knockback") with
  | none => sys
  | some knock =>
    match (sys.combat.em.lookup targetId).bind (fun e => e.transform) with
    | none => sys
    | some _ =>
      let strength := (paramsGet knock.params "force").getD
        ((paramsGet knock.params "strength").getD 0)
      if strength ≤ 0 then sys
      else
        { sys with combat := { sys.combat with
            em := sys.combat.em.updateEntity targetId (fun e =>
              match e.transform with
              | some t => { e with transform := some { t with
                  vx := t.vx + p.dirX * strength, vy := t.vy + p.dirY * strength } }
              | none => e) } }

/-- `applyEffects(target, projectile)`. -/
def ProjSys.applyEffects (sys : ProjSys) (targetId : ℕ) (p : Projectile) : ProjSys :=
  if sys.hasCombat = false then sys
  else if p.effects.length = 0 then sys
  else
    match sys.combat.em.lookup targetId with
    | none => sys
    | some target =>
      let mapped := p.effects.map (fun eff =>
        let duration :=
          if eff.type = "freeze" ∨ eff.type = "stun" then
            (paramsGet eff.params "duration").getD (1/2)
          else if eff.type = "slow" then
            (paramsGet eff.params "duration").getD
              ((paramsGet eff.params "slowDuration").getD 1)
          else (paramsGet eff.params "duration").getD 1
        ({ type := eff.type, remaining := duration, params := eff.params
           source := p.source } : StatusEffectInstance))
      let sys1 := { sys with combat := sys.combat.applyStatusEffects target mapped }
      if p.effects.any (fun e => e.type == "knockback") then
        sys1.applyKnockback targetId p
      else sys1

/-- `findNextChainTarget(current, alreadyHit, range)`: nearest not-yet-hit
active enemy within range of the struck target. -/
def findNextChainTarget (sys : ProjSys) (currentId : ℕ) (alreadyHit : List ℕ)
    (range : ℚ) : Option ℕ :=
  match (sys.combat.em.lookup currentId).bind (fun e => e.transform) with
  | none => none
  | some ct =>
    let rangeSq := range * range
    let best := sys.combat.em.enemies.foldl (fun best id =>
      match sys.combat.em.lookup id with
      | none => best
      | some enemy =>
        if enemy.active = false ∨ alreadyHit.contains id then best
        else match enemy.transform with
          | none => best
          | some t =>
            let dx := t.x - ct.x
            let dy := t.y - ct.y
            let distSq := dx * dx + dy * dy
            if distSq > rangeSq then best
            else match best with
              | none => some (id, distSq)
              | some b => if distSq < b.2 then some (id, distSq) else best) none
    best.map (fun b => b.1)

/-- `handleChain(projectile, hitTarget)`: decrement the chain counter, spawn
a follow-up projectile toward the nearest valid target, seed its hit-id
set; returns `false` on every path (the projectile itself is never consumed
by chaining). -/
def handleChain (ops : FloatOps) (sys : ProjSys) (p : Projectile)
    (hitTargetId : ℕ) : Bool × ProjSys × Projectile :=
  if p.remainingChains ≤ 0 then (false, sys, p)
  else
    let p1 := { p with remainingChains := p.remainingChains - 1 }
    match findNextChainTarget sys hitTargetId p1.hitIds p1.chainRange with
    | none => (false, sys, p1)
    | some nextId =>
      match (sys.combat.em.lookup hitTargetId).bind (fun e => e.transform),
            (sys.combat.em.lookup nextId).bind (fun e => e.transform) with
      | some t, some nt =>
        let dirX := nt.x - t.x
        let dirY := nt.y - t.y
        let len0 := ops.sqrt (dirX * dirX + dirY * dirY)
        let len := if len0 = 0 then 1 else len0
        let res := sys.spawn ops p1.type.key
          (t.x + t.width * (1/2), t.y + t.height * (1/2))
          (dirX / len, dirY / len) p1.source
          p1.isPlayerProjectile p1.isEnemyProjectile
          { overrideDamage := some p1.damage, overrideSpeed := some p1.speed
            sizeScale := some (p1.size / Max.max 1 (Max.max t.width t.height))
            effects := some p1.effects, chain := some p1.remainingChains
            chainRange := some p1.chainRange, pierce := some p1.pierce
            color := p1.colorOverride, overrideLifetime := none }
        match res with
        | (some chained, sys2) =>
          let chained' := { chained with hitIds := chained.hitIds ++ p1.hitIds ++ [hitTargetId] }
          (false, { sys2 with active := sys2.active.dropLast ++ [chained'] }, p1)
        | (none, sys2) => (false, sys2, p1)
      | _, _ => (false, sys, p1)

/-- Loop body of `checkEnemyHit` over the snapshot of the enemies array
captured when the `for … of` loop started. -/
def checkEnemyHitLoop (ops : FloatOps) (mod : DamageModifier) :
    List ℕ → ProjSys → Projectile → Bool × ProjSys × Projectile
  | [], sys, p => (false, sys, p)
  | id :: rest, sys, p =>
    match sys.combat.em.lookup id with
    | none => checkEnemyHitLoop ops mod rest sys p
    | some enemy =>
      if enemy.active = false then checkEnemyHitLoop ops mod rest sys p
      else if p.hitIds.contains id then checkEnemyHitLoop ops mod rest sys p
      else match enemy.transform with
        | none => checkEnemyHitLoop ops mod rest sys p
        | some t =>
          let radius := getCollisionRadius enemy t
          let centerX := t.x + t.width * (1/2)
          let centerY := t.y + t.height * (1/2)
          let dx := centerX - p.x
          let dy := centerY - p.y
          let distSq := dx * dx + dy * dy
          let maxDist := p.radius + radius
          if distSq ≤ maxDist * maxDist then
            let sys1 :=
              if sys.hasCombat then
                let combat1 := (CombatSystem.applyDamage mod sys.combat id p.damage
                  (p.source.bind (fun sid => sys.combat.em.lookup sid))).2
                ProjSys.applyEffects { sys with combat := combat1 } id p
              else sys
            let p1 := { p with hitIds := p.hitIds ++ [id] }
            let res := handleChain ops sys1 p1 id
            if res.1 then (true, res.2.1, res.2.2)
            else
              let p2 := res.2.2
              if p2.pierce > 0 then
                checkEnemyHitLoop ops mod rest res.2.1 { p2 with pierce := p2.pierce - 1 }
              else (true, res.2.1, { p2 with active := false })
          else checkEnemyHitLoop ops mod rest sys p

def checkEnemyHit (ops : FloatOps) (mod : DamageModifier) (sys : ProjSys)
    (p : Projectile) : Bool × ProjSys × Projectile :=
  checkEnemyHitLoop ops mod sys.combat.em.enemies sys p

/-- `checkPlayerHit(projectile)`. -/
def checkPlayerHit (mod : DamageModifier) (sys : ProjSys) (p : Projectile) :
    Bool × ProjSys × Projectile :=
  match sys.combat.em.player with
  | none => (false, sys, p)
  | some pid =>
    match sys.combat.em.lookup pid with
    | none => (false, sys, p)
    | some player =>
      if player.active = false then (false, sys, p)
      else match player.transform with
        | none => (false, sys, p)
        | some t =>
          let radius := getCollisionRadius player t
          let centerX := t.x + t.width * (1/2)
          let centerY := t.y + t.height * (1/2)
          let dx := centerX - p.x
          let dy := centerY - p.y
          let distSq := dx * dx + dy * dy
          let maxDist := p.radius + radius
          if distSq ≤ maxDist * maxDist then
            if p.hitIds.contains pid then (false, sys, p)
            else
              let sys1 :=
                if (sys.config.enableFriendlyFire || p.isEnemyProjectile) ∧
                    sys.hasCombat = true then
                  let combat1 := (CombatSystem.applyDamage mod sys.combat pid p.damage
                    (p.source.bind (fun sid => sys.combat.em.lookup sid))).2
                  ProjSys.applyEffects { sys with combat := combat1 } pid p
                else sys
              (true, sys1, { p with hitIds := p.hitIds ++ [pid], active := false })
          else (false, sys, p)

/-- `releaseAtIndex(index)`: splice out, clear transient fields, return to
the pool when pooling is enabled. -/
def releaseAtIndex (sys : ProjSys) (index : ℕ) : ProjSys :=
  let removed := sys.active.getD index freshProjectile
  let removed' := { removed with active := false, hitIds := [], effects := []
                                 remainingChains := 0, chainRange := 0
                                 colorOverride := none }
  { sys with active := sys.active.eraseIdx index
             pool := if sys.config.enableObjectPooling then sys.pool ++ [removed']
                     else sys.pool }

/-- The body of `update`'s index loop.  The loop in the source terminates
because every iteration either advances the index or shrinks the list and
chain spawns are bounded, so the explicit `fuel` is benign; every theorem
quantifies over it.  The current projectile's field updates are written
back to the `active` array at the points where the source mutates the
shared record. -/
def updateLoop (ops : FloatOps) (mod : DamageModifier) (dt : ℚ) :
    ℕ → ℕ → ProjSys → ProjSys
  | 0, _, sys => sys
  | fuel + 1, i, sys =>
    if i < sys.active.length then
      let p := sys.active.getD i freshProjectile
      if p.active = false then
        updateLoop ops mod dt fuel i (releaseAtIndex sys i)
      else
        let p1 := { p with lifetime := p.lifetime - dt }
        if p1.lifetime ≤ (0 : ℚ) then
          let sys1 := { sys with active := sys.active.set i { p1 with active := false } }
          updateLoop ops mod dt fuel i (releaseAtIndex sys1 i)
        else
          let p2 := { p1 with x := p1.x + p1.dirX * p1.speed * dt
                              y := p1.y + p1.dirY * p1.speed * dt }
          let wall := collidesWithWall sys.tileMap p2
          let sys1 := { sys with tileMap := wall.2, active := sys.active.set i p2 }
          if wall.1 then
            let sys2 := { sys1 with active := sys1.active.set i { p2 with active := false } }
            updateLoop ops mod dt fuel i (releaseAtIndex sys2 i)
          else
            let res := if p2.isPlayerProjectile then checkEnemyHit ops mod sys1 p2
              else if p2.isEnemyProjectile then checkPlayerHit mod sys1 p2
              else (false, sys1, p2)
            let sys3 := { res.2.1 with active := res.2.1.active.set i res.2.2 }
            if res.1 ∨ res.2.2.active = false then
              updateLoop ops mod dt fuel i (releaseAtIndex sys3 i)
            else updateLoop ops mod dt fuel (i + 1) sys3
    else sys

/-- `update(dt)`, with explicit fuel for the index loop. -/
def ProjSys.update (ops : FloatOps) (mod : DamageModifier) (dt : ℚ) (fuel : ℕ)
    (sys : ProjSys) : ProjSys :=
  updateLoop ops mod dt fuel 0 sys

/-! ## Claims C10 and C3: entity removal and the damage floor -/

/-- `find?` by id commutes with an id-preserving map over the heap. -/
theorem find?_map_of_id_eq (l : List Entity) (g : Entity → Entity)
    (hg : ∀ e, (g e).id = e.id) (id : ℕ) :
    (l.map g).find? (fun e => e.id == id) = (l.find? (fun e => e.id == id)).map g := by
  induction l with
  | nil => rfl
  | cons a l ih =>
    by_cases ha : a.id = id
    · rw [List.map_cons, List.find?_cons_of_pos _ (by simp [hg, ha]),
        List.find?_cons_of_pos _ (by simp [ha]), Option.map_some']
    · rw [List.map_cons, List.find?_cons_of_neg _ (by simp [hg, ha]),
        List.find?_cons_of_neg _ (by simp [ha]), ih]

theorem lookup_removeEntity (em : EntityManager) (id tid : ℕ) :
    (em.removeEntity id).lookup tid =
      (em.lookup tid).map (fun e => if e.id = id then { e with active := false } else e) :=
  find?_map_of_id_eq _ _ (fun e => by by_cases he : e.id = id <;> simp [he]) tid

theorem lookup_updateEntity (em : EntityManager) (id : ℕ) (f : Entity → Entity)
    (hf : ∀ e, (f e).id = e.id) (tid : ℕ) :
    (em.updateEntity id f).lookup tid =
      (em.lookup tid).map (fun e => if e.id = id then f e else e) :=
  find?_map_of_id_eq _ _ (fun e => by by_cases he : e.id = id <;> simp [he, hf]) tid

/-- An entity returned by `lookup id` has that id. -/
theorem lookup_id (em : EntityManager) (id : ℕ) (e : Entity)
    (h : em.lookup id = some e) : e.id = id := by
  have := List.find?_some h
  simpa using this

/-- C10: `removeEntity` is idempotent: after one call the entity's active
flag is false, the entity occurs in none of the manager's entity / enemy /
pickup lists, and the player slot is cleared if the removed entity was the
player; a second call with the same entity leaves the manager unchanged. -/
theorem removeEntity_idempotent (em : EntityManager) (id : ℕ) :
    (∀ e, (em.removeEntity id).lookup id = some e → e.active = false) ∧
    id ∉ (em.removeEntity id).entities ∧
    id ∉ (em.removeEntity id).enemies ∧
    id ∉ (em.removeEntity id).pickups ∧
    (em.player = some id → (em.removeEntity id).player = none) ∧
    (em.removeEntity id).removeEntity id = em.removeEntity id := by
  have hfilter : ∀ (l : List ℕ), id ∉ l.filter (fun i => i != id) := by
    intro l hmem
    have := (List.mem_filter.mp hmem).2
    simp at this
  have hfilter_idem : ∀ (l : List ℕ),
      (l.filter (fun i => i != id)).filter (fun i => i != id) =
        l.filter (fun i => i != id) := by
    intro l
    exact List.filter_eq_self.mpr (fun a ha => (List.mem_filter.mp ha).2)
  refine ⟨?_, hfilter _, hfilter _, hfilter _, ?_, ?_⟩
  · intro e h
    rw [lookup_removeEntity] at h
    match hL : em.lookup id with
    | none => rw [hL] at h; exact absurd h (by simp)
    | some e0 =>
      rw [hL, Option.map_some'] at h
      have hid : e0.id = id := lookup_id em id e0 hL
      rw [if_pos hid] at h
      cases h
      rfl
  · intro hp
    unfold EntityManager.removeEntity
    rw [if_pos hp]
  · unfold EntityManager.removeEntity
    dsimp only
    have hg : ((fun (e : Entity) => if e.id = id then { e with active := false } else e) ∘
        (fun (e : Entity) => if e.id = id then { e with active := false } else e)) =
        (fun (e : Entity) => if e.id = id then { e with active := false } else e) := by
      funext e
      by_cases he : e.id = id <;> simp [he]
    rw [List.map_map, hg]
    by_cases hp : em.player = some id
    · simp [hp, hfilter_idem]
    · simp [hp, hfilter_idem]

/-- Witness manager: a player (id 1) and an enemy (id 2). -/
def c10Manager : EntityManager :=
  ((EntityManager.empty.createEntity "player").2.createEntity "enemy").2

/-- Witness for C10 at a concrete input: removing the enemy entity (id 2). -/
theorem removeEntity_idempotent_witness :
    ((c10Manager.removeEntity 2).lookup 2 =
       some { Entity.create 2 "enemy" with active := false } →
      ({ Entity.create 2 "enemy" with active := false } : Entity).active = false) ∧
    2 ∉ (c10Manager.removeEntity 2).entities ∧
    2 ∉ (c10Manager.removeEntity 2).enemies ∧
    2 ∉ (c10Manager.removeEntity 2).pickups ∧
    (c10Manager.player = some 2 → (c10Manager.removeEntity 2).player = none) ∧
    (c10Manager.removeEntity 2).removeEntity 2 = c10Manager.removeEntity 2 := by
  have h := removeEntity_idempotent c10Manager 2
  exact ⟨h.1 _, h.2.1, h.2.2.1, h.2.2.2.1, h.2.2.2.2.1, h.2.2.2.2.2⟩

/-- C3: `applyDamage` never drives `health.current` below 0 or above
`health.max`: for every target entity holding a Health component whose
current value satisfies the component invariant `0 ≤ current ≤ max`, any
call — for every damage amount, source and registered damage modifier —
leaves the target's health inside `[0, max]`. -/
theorem applyDamage_health_bounds (modifier : DamageModifier) (cs : CombatSystem)
    (targetId : ℕ) (amount : ℚ) (source : Option Entity) (e : Entity)
    (h : HealthComponent)
    (he : cs.em.lookup targetId = some e) (hh : e.health = some h)
    (h0 : 0 ≤ h.current) (h1 : h.current ≤ h.max) :
    ∀ e' h',
      (CombatSystem.applyDamage modifier cs targetId amount source).2.em.lookup targetId =
        some e' →
      e'.health = some h' → 0 ≤ h'.current ∧ h'.current ≤ h'.max := by
  intro e' h' he' hh'
  have hid : e.id = targetId := lookup_id cs.em targetId e he
  have base_case : (cs.em.lookup targetId = some e' → e'.health = some h' →
      0 ≤ h'.current ∧ h'.current ≤ h'.max) := by
    intro hx hy
    rw [he] at hx
    cases hx
    rw [hh] at hy
    cases hy
    exact ⟨h0, h1⟩
  have takeDamage_bounds : ∀ d : ℚ, 0 ≤ (h.takeDamage d).current ∧
      (h.takeDamage d).current ≤ (h.takeDamage d).max := by
    intro d
    unfold HealthComponent.takeDamage
    dsimp only
    split
    · exact ⟨h0, h1⟩
    · refine ⟨le_max_left 0 _, ?_⟩
      show Max.max 0 (h.current - Max.max 0 d) ≤ h.max
      have hd0 : 0 ≤ Max.max 0 d := le_max_left 0 d
      apply max_le
      · linarith
      · linarith
  have hpush : ∀ (c : CombatSystem) (s : String), (c.pushLog s).em = c.em :=
    fun c s => rfl
  unfold CombatSystem.applyDamage at he'
  rw [he] at he'
  dsimp only at he'
  rw [hh] at he'
  dsimp only at he'
  split at he'
  · exact base_case he' hh'
  split at he'
  · exact base_case he' hh'
  -- name the computed damage D, so the remaining case split is on D alone
  revert he'
  generalize (if cs.flags.oneHitKillEnemies = true ∧ e.type = "enemy" then h.current
    else match modifier with
      | some f => Max.max 0 (f e (Max.max 0 amount) source)
      | none => Max.max 0 amount) = D
  intro he'
  split at he'
  · exact base_case he' hh'
  split at he'
  case isTrue hdead =>
    -- death path: handleDeath removes the entity, flipping only `active`
    dsimp only at he'
    unfold CombatSystem.handleDeath at he'
    dsimp only at he'
    split at he'
    all_goals try dsimp only at he'
    all_goals split at he'
    all_goals try dsimp only [CombatSystem.pushLog] at he'
    all_goals
      rw [lookup_removeEntity,
        lookup_updateEntity _ _ (fun e0 => { e0 with health := some (h.takeDamage D) })
          (fun _ => rfl),
        he, Option.map_some', if_pos hid, Option.map_some'] at he'
    all_goals split at he'
    all_goals
      cases he'
      cases hh'
      exact takeDamage_bounds _
  case isFalse hdead =>
    dsimp only at he'
    split at he'
    all_goals try dsimp only [CombatSystem.pushLog] at he'
    all_goals
      rw [lookup_updateEntity _ _ (fun e0 => { e0 with health := some (h.takeDamage D) })
          (fun _ => rfl),
        he, Option.map_some', if_pos hid] at he'
    all_goals
      cases he'
      cases hh'
      exact takeDamage_bounds _

/-! ## Claim C6: pierce-1 projectile hitting two enemies in one step -/

theorem lookup_updateEntity_ne (em : EntityManager) (id : ℕ) (f : Entity → Entity)
    (hf : ∀ e, (f e).id = e.id) (oid : ℕ) (hne : oid ≠ id) :
    (em.updateEntity id f).lookup oid = em.lookup oid := by
  rw [lookup_updateEntity em id f hf oid]
  match hL : em.lookup oid with
  | none => rfl
  | some e0 =>
    rw [Option.map_some', if_neg]
    rw [lookup_id em oid e0 hL]
    exact hne

theorem lookup_removeEntity_ne (em : EntityManager) (id oid : ℕ) (hne : oid ≠ id) :
    (em.removeEntity id).lookup oid = em.lookup oid := by
  rw [lookup_removeEntity em id oid]
  match hL : em.lookup oid with
  | none => rfl
  | some e0 =>
    rw [Option.map_some', if_neg]
    rw [lookup_id em oid e0 hL]
    exact hne

theorem pushLog_em (cs : CombatSystem) (s : String) : (cs.pushLog s).em = cs.em := rfl

theorem pushLog_flags (cs : CombatSystem) (s : String) :
    (cs.pushLog s).flags = cs.flags := rfl

theorem handleDeath_em (cs : CombatSystem) (target : Entity) (source : Option Entity) :
    (cs.handleDeath target source).em = cs.em.removeEntity target.id := by
  unfold CombatSystem.handleDeath
  dsimp only
  split <;> rfl

theorem handleDeath_flags (cs : CombatSystem) (target : Entity) (source : Option Entity) :
    (cs.handleDeath target source).flags = cs.flags := by
  unfold CombatSystem.handleDeath
  dsimp only
  split <;> rfl

/-- `applyDamage` against an active enemy with no i-frames, no modifier and
no one-hit-kill flag: returns `true` and replaces the target's health with
`takeDamage`; the entity heap is the health update, then removal when the
target died. -/
theorem applyDamage_enemy_em (cs : CombatSystem) (targetId : ℕ) (amount : ℚ)
    (source : Option Entity) (e : Entity) (h : HealthComponent)
    (he : cs.em.lookup targetId = some e) (hh : e.health = some h)
    (htype : e.type = "enemy")
    (hkill : cs.flags.oneHitKillEnemies = false)
    (hinv : ¬ h.invulnTimer > 0)
    (hpos : ¬ Max.max 0 amount ≤ 0) :
    (CombatSystem.applyDamage none cs targetId amount source).1 = true ∧
    (CombatSystem.applyDamage none cs targetId amount source).2.em =
      (if (h.takeDamage (Max.max 0 amount)).isDead then
        (cs.em.updateEntity targetId
          (fun e0 => { e0 with health := some (h.takeDamage (Max.max 0 amount)) })).removeEntity
          targetId
       else cs.em.updateEntity targetId
          (fun e0 => { e0 with health := some (h.takeDamage (Max.max 0 amount)) })) := by
  have hid : e.id = targetId := lookup_id cs.em targetId e he
  unfold CombatSystem.applyDamage
  rw [he]
  dsimp only
  rw [hh]
  dsimp only
  rw [if_neg (show ¬(e.type = "player" ∧ cs.flags.infinitePlayerHealth = true) from
        by simp [htype]),
      if_neg hinv]
  have hdmg : (if cs.flags.oneHitKillEnemies = true ∧ e.type = "enemy" then h.current
      else Max.max 0 amount) = Max.max 0 amount := if_neg (by simp [hkill])
  rw [hdmg, if_neg hpos]
  constructor
  · split <;> rfl
  · split
    case isTrue hdead =>
      dsimp only
      rw [handleDeath_em, hid]
      congr 1
      split
      · rfl
      · rfl
    case isFalse hdead =>
      dsimp only
      split <;> rfl

theorem applyDamage_flags (mod : DamageModifier) (cs : CombatSystem)
    (targetId : ℕ) (amount : ℚ) (source : Option Entity) :
    (CombatSystem.applyDamage mod cs targetId amount source).2.flags = cs.flags := by
  unfold CombatSystem.applyDamage
  cases hL : cs.em.lookup targetId with
  | none => rfl
  | some target =>
    dsimp only
    cases hH : target.health with
    | none => rfl
    | some h =>
      dsimp only
      split
      · rfl
      split
      · rfl
      generalize (if cs.flags.oneHitKillEnemies = true ∧ target.type = "enemy" then h.current
        else match mod with
          | some f => Max.max 0 (f target (Max.max 0 amount) source)
          | none => Max.max 0 amount) = D
      split
      · rfl
      split
      · rw [handleDeath_flags]
        split <;> rfl
      · split <;> rfl

/-- `applyEffects` is a no-op for a projectile carrying no status effects. -/
theorem applyEffects_nil (sys : ProjSys) (targetId : ℕ) (p : Projectile)
    (he : p.effects = []) :
    sys.applyEffects targetId p = sys := by
  unfold ProjSys.applyEffects
  split
  · rfl
  · rw [if_pos (by rw [he]; rfl)]

/-- `handleChain` is a no-op when no chains remain. -/
theorem handleChain_no_chains (ops : FloatOps) (sys : ProjSys) (p : Projectile)
    (hitTargetId : ℕ) (hc : p.remainingChains ≤ 0) :
    handleChain ops sys p hitTargetId = (false, sys, p) := by
  unfold handleChain
  rw [if_pos hc]

/-- One iteration of the enemy-hit loop on a live, not-yet-hit, overlapping
enemy, for a projectile with no chains and no status effects: damage is
applied, the enemy id is recorded, and the loop either continues with
decremented pierce or consumes the projectile. -/
theorem checkEnemyHitLoop_cons_hit (ops : FloatOps) (id : ℕ) (rest : List ℕ)
    (sys : ProjSys) (p : Projectile) (e : Entity) (t : TransformComponent)
    (he : sys.combat.em.lookup id = some e) (ha : e.active = true)
    (hnohit : p.hitIds.contains id = false)
    (ht : e.transform = some t)
    (hov : (t.x + t.width * (1/2) - p.x) * (t.x + t.width * (1/2) - p.x) +
      (t.y + t.height * (1/2) - p.y) * (t.y + t.height * (1/2) - p.y) ≤
      (p.radius + getCollisionRadius e t) * (p.radius + getCollisionRadius e t))
    (hcombat : sys.hasCombat = true)
    (heff : p.effects = [])
    (hchain : p.remainingChains ≤ 0) :
    checkEnemyHitLoop ops none (id :: rest) sys p =
      (let combat1 := (CombatSystem.applyDamage none sys.combat id p.damage
          (p.source.bind (fun sid => sys.combat.em.lookup sid))).2
       let sys1 : ProjSys := { sys with combat := combat1 }
       let p1 := { p with hitIds := p.hitIds ++ [id] }
       if p1.pierce > 0 then
         checkEnemyHitLoop ops none rest sys1 { p1 with pierce := p1.pierce - 1 }
       else (true, sys1, { p1 with active := false })) := by
  unfold checkEnemyHitLoop
  rw [he]
  dsimp only
  rw [if_neg (show ¬ e.active = false by simp [ha]),
      if_neg (show ¬ p.hitIds.contains id = true by
        rw [hnohit]; exact Bool.false_ne_true)]
  rw [ht]
  dsimp only
  rw [if_pos hov]
  rw [if_pos hcombat, applyEffects_nil _ _ _ heff,
      handleChain_no_chains ops _ ({ p with hitIds := p.hitIds ++ [id] }) id hchain]
  dsimp only
  rw [if_neg Bool.false_ne_true]

theorem lookup_updateHealth (em : EntityManager) (id : ℕ) (hc : HealthComponent)
    (tid : ℕ) :
    (em.updateEntity id (fun e0 => { e0 with health := some hc })).lookup tid =
      (em.lookup tid).map
        (fun e => if e.id = id then { e with health := some hc } else e) :=
  lookup_updateEntity em id (fun e0 => { e0 with health := some hc }) (fun _ => rfl) tid

theorem lookup_updateHealth_ne (em : EntityManager) (id : ℕ) (hc : HealthComponent)
    (tid : ℕ) (hne : tid ≠ id) :
    (em.updateEntity id (fun e0 => { e0 with health := some hc })).lookup tid =
      em.lookup tid :=
  lookup_updateEntity_ne em id (fun e0 => { e0 with health := some hc })
    (fun _ => rfl) tid hne

/-- The enemy-hit loop over a two-enemy snapshot, for a pierce-1, no-chain,
no-effect projectile overlapping both: damage lands on both enemies and the
projectile is consumed on the second hit. -/
theorem checkEnemyHitLoop_two (ops : FloatOps) (sys : ProjSys) (p : Projectile)
    (id1 id2 : ℕ) (e1 e2 : Entity) (t1 t2 : TransformComponent)
    (h1 h2 : HealthComponent)
    (hne : id2 ≠ id1)
    (hcombat : sys.hasCombat = true)
    (hkill : sys.combat.flags.oneHitKillEnemies = false)
    (he1 : sys.combat.em.lookup id1 = some e1) (ha1 : e1.active = true)
    (hty1 : e1.type = "enemy") (ht1 : e1.transform = some t1)
    (hh1 : e1.health = some h1) (hi1 : ¬ h1.invulnTimer > 0)
    (hnohit1 : p.hitIds.contains id1 = false)
    (he2 : sys.combat.em.lookup id2 = some e2) (ha2 : e2.active = true)
    (hty2 : e2.type = "enemy") (ht2 : e2.transform = some t2)
    (hh2 : e2.health = some h2) (hi2 : ¬ h2.invulnTimer > 0)
    (hnohit2 : p.hitIds.contains id2 = false)
    (hpierce : p.pierce = 1)
    (hchain : p.remainingChains ≤ 0)
    (heff : p.effects = [])
    (hdmg : ¬ Max.max 0 p.damage ≤ 0)
    (hov1 : (t1.x + t1.width * (1/2) - p.x) * (t1.x + t1.width * (1/2) - p.x) +
      (t1.y + t1.height * (1/2) - p.y) * (t1.y + t1.height * (1/2) - p.y) ≤
      (p.radius + getCollisionRadius e1 t1) * (p.radius + getCollisionRadius e1 t1))
    (hov2 : (t2.x + t2.width * (1/2) - p.x) * (t2.x + t2.width * (1/2) - p.x) +
      (t2.y + t2.height * (1/2) - p.y) * (t2.y + t2.height * (1/2) - p.y) ≤
      (p.radius + getCollisionRadius e2 t2) * (p.radius + getCollisionRadius e2 t2)) :
    ∃ cs2 : CombatSystem,
      checkEnemyHitLoop ops none [id1, id2] sys p =
        (true, { sys with combat := cs2 },
          { p with hitIds := (p.hitIds ++ [id1]) ++ [id2],
                   pierce := p.pierce - 1, active := false }) ∧
      (∀ e', cs2.em.lookup id1 = some e' →
        e'.health = some (h1.takeDamage (Max.max 0 p.damage))) ∧
      (∀ e', cs2.em.lookup id2 = some e' →
        e'.health = some (h2.takeDamage (Max.max 0 p.damage))) := by
  have hid1 : e1.id = id1 := lookup_id _ _ _ he1
  have hid2 : e2.id = id2 := lookup_id _ _ _ he2
  obtain ⟨-, hem1⟩ := applyDamage_enemy_em sys.combat id1 p.damage
    (p.source.bind (fun sid => sys.combat.em.lookup sid)) e1 h1 he1 hh1 hty1 hkill hi1 hdmg
  have hlook2 : (CombatSystem.applyDamage none sys.combat id1 p.damage
      (p.source.bind (fun sid => sys.combat.em.lookup sid))).2.em.lookup id2 = some e2 := by
    rw [hem1]
    split
    · rw [lookup_removeEntity_ne _ _ _ hne, lookup_updateHealth_ne _ _ _ _ hne]
      exact he2
    · rw [lookup_updateHealth_ne _ _ _ _ hne]
      exact he2
  have hflags1 : (CombatSystem.applyDamage none sys.combat id1 p.damage
      (p.source.bind (fun sid => sys.combat.em.lookup sid))).2.flags.oneHitKillEnemies =
        false := by
    rw [applyDamage_flags]
    exact hkill
  have hcont2 : ((p.hitIds ++ [id1]).contains id2) = false := by
    refine Bool.eq_false_iff.mpr (fun hc => ?_)
    rcases List.mem_append.mp (List.mem_of_elem_eq_true hc) with hx | hx
    · have hx' : p.hitIds.contains id2 = true := List.elem_eq_true_of_mem hx
      rw [hnohit2] at hx'
      exact Bool.false_ne_true hx'
    · exact hne (List.mem_singleton.mp hx)
  obtain ⟨-, hem2⟩ := applyDamage_enemy_em
    (CombatSystem.applyDamage none sys.combat id1 p.damage
      (p.source.bind (fun sid => sys.combat.em.lookup sid))).2
    id2 p.damage
    (p.source.bind (fun sid =>
      (CombatSystem.applyDamage none sys.combat id1 p.damage
        (p.source.bind (fun sid => sys.combat.em.lookup sid))).2.em.lookup sid))
    e2 h2 hlook2 hh2 hty2 hflags1 hi2 hdmg
  have step1 := checkEnemyHitLoop_cons_hit ops id1 [id2] sys p e1 t1 he1 ha1 hnohit1
    ht1 hov1 hcombat heff hchain
  dsimp only at step1
  rw [if_pos (show p.pierce > 0 by rw [hpierce]; decide)] at step1
  have step2 := checkEnemyHitLoop_cons_hit ops id2 []
    { sys with combat := (CombatSystem.applyDamage none sys.combat id1 p.damage
        (p.source.bind (fun sid => sys.combat.em.lookup sid))).2 }
    { p with hitIds := p.hitIds ++ [id1], pierce := p.pierce - 1 }
    e2 t2 hlook2 ha2 hcont2 ht2 hov2 hcombat heff hchain
  dsimp only at step2
  rw [if_neg (show ¬ p.pierce - 1 > 0 by rw [hpierce]; decide)] at step2
  have heq := step1.trans step2
  have hconc1 : ∀ e',
      (CombatSystem.applyDamage none
        (CombatSystem.applyDamage none sys.combat id1 p.damage
          (p.source.bind (fun sid => sys.combat.em.lookup sid))).2
        id2 p.damage
        (p.source.bind (fun sid =>
          (CombatSystem.applyDamage none sys.combat id1 p.damage
            (p.source.bind (fun sid => sys.combat.em.lookup sid))).2.em.lookup
            sid))).2.em.lookup id1 = some e' →
      e'.health = some (h1.takeDamage (Max.max 0 p.damage)) := by
    intro e' hx
    rw [hem2] at hx
    split at hx
    all_goals first
      | rw [lookup_removeEntity_ne _ _ _ (Ne.symm hne),
          lookup_updateHealth_ne _ _ _ _ (Ne.symm hne)] at hx
      | rw [lookup_updateHealth_ne _ _ _ _ (Ne.symm hne)] at hx
    all_goals rw [hem1] at hx
    all_goals split at hx
    all_goals first
      | rw [lookup_removeEntity, lookup_updateHealth, he1, Option.map_some',
          if_pos hid1, Option.map_some'] at hx
      | rw [lookup_updateHealth, he1, Option.map_some', if_pos hid1] at hx
    all_goals try (dsimp only at hx; rw [if_pos hid1] at hx)
    all_goals (cases hx; rfl)
  have hconc2 : ∀ e',
      (CombatSystem.applyDamage none
        (CombatSystem.applyDamage none sys.combat id1 p.damage
          (p.source.bind (fun sid => sys.combat.em.lookup sid))).2
        id2 p.damage
        (p.source.bind (fun sid =>
          (CombatSystem.applyDamage none sys.combat id1 p.damage
            (p.source.bind (fun sid => sys.combat.em.lookup sid))).2.em.lookup
            sid))).2.em.lookup id2 = some e' →
      e'.health = some (h2.takeDamage (Max.max 0 p.damage)) := by
    intro e' hx
    rw [hem2] at hx
    split at hx
    · rw [lookup_removeEntity, lookup_updateHealth, hlook2, Option.map_some',
        if_pos hid2, Option.map_some'] at hx
      dsimp only at hx
      rw [if_pos hid2] at hx
      cases hx
      rfl
    · rw [lookup_updateHealth, hlook2, Option.map_some', if_pos hid2] at hx
      cases hx
      rfl
  exact ⟨_, heq, hconc1, hconc2⟩

theorem collidesWithWall_none (p : Projectile) :
    collidesWithWall none p = (false, none) := rfl

/-- C6: a pierce-1 projectile overlapping two not-yet-hit enemies during one
`ProjectileManager.update` step applies its damage to both enemies in that
step and is deactivated and released back to the pool only after the second
hit: after the first hit it decrements pierce and continues through the
target list. -/
theorem update_pierce_one_two_hits (ops : FloatOps) (sys : ProjSys)
    (p : Projectile) (dt : ℚ) (fuel : ℕ) (id1 id2 : ℕ) (e1 e2 : Entity)
    (t1 t2 : TransformComponent) (h1 h2 : HealthComponent) (px py : ℚ)
    (hpx : px = p.x + p.dirX * p.speed * dt)
    (hpy : py = p.y + p.dirY * p.speed * dt)
    (hactive_list : sys.active = [p])
    (hpact : p.active = true)
    (hplayer : p.isPlayerProjectile = true)
    (htm : sys.tileMap = none)
    (hpool : sys.config.enableObjectPooling = true)
    (hlife : ¬ p.lifetime - dt ≤ 0)
    (hne : id2 ≠ id1)
    (hcombat : sys.hasCombat = true)
    (hkill : sys.combat.flags.oneHitKillEnemies = false)
    (hen : sys.combat.em.enemies = [id1, id2])
    (he1 : sys.combat.em.lookup id1 = some e1) (ha1 : e1.active = true)
    (hty1 : e1.type = "enemy") (ht1 : e1.transform = some t1)
    (hh1 : e1.health = some h1) (hi1 : ¬ h1.invulnTimer > 0)
    (hnohit1 : p.hitIds.contains id1 = false)
    (he2 : sys.combat.em.lookup id2 = some e2) (ha2 : e2.active = true)
    (hty2 : e2.type = "enemy") (ht2 : e2.transform = some t2)
    (hh2 : e2.health = some h2) (hi2 : ¬ h2.invulnTimer > 0)
    (hnohit2 : p.hitIds.contains id2 = false)
    (hpierce : p.pierce = 1)
    (hchain : p.remainingChains ≤ 0)
    (heff : p.effects = [])
    (hdpos : 0 < p.damage)
    (hov1 : (t1.x + t1.width * (1/2) - px) * (t1.x + t1.width * (1/2) - px) +
      (t1.y + t1.height * (1/2) - py) * (t1.y + t1.height * (1/2) - py) ≤
      (p.radius + getCollisionRadius e1 t1) * (p.radius + getCollisionRadius e1 t1))
    (hov2 : (t2.x + t2.width * (1/2) - px) * (t2.x + t2.width * (1/2) - px) +
      (t2.y + t2.height * (1/2) - py) * (t2.y + t2.height * (1/2) - py) ≤
      (p.radius + getCollisionRadius e2 t2) * (p.radius + getCollisionRadius e2 t2)) :
    (ProjSys.update ops none dt (fuel + 2) sys).active = [] ∧
    (ProjSys.update ops none dt (fuel + 2) sys).pool =
      sys.pool ++ [{ p with
        x := px
        y := py
        lifetime := p.lifetime - dt
        pierce := 0
        active := false
        hitIds := []
        effects := []
        remainingChains := 0
        chainRange := 0
        colorOverride := none }] ∧
    (∀ e', (ProjSys.update ops none dt (fuel + 2) sys).combat.em.lookup id1 = some e' →
      e'.health = some (h1.takeDamage p.damage)) ∧
    (∀ e', (ProjSys.update ops none dt (fuel + 2) sys).combat.em.lookup id2 = some e' →
      e'.health = some (h2.takeDamage p.damage)) := by
  subst hpx
  subst hpy
  have hmax : Max.max 0 p.damage = p.damage := max_eq_right hdpos.le
  have hdmg : ¬ Max.max 0 p.damage ≤ 0 := by rw [hmax]; exact not_le.mpr hdpos
  unfold ProjSys.update
  rw [show fuel + 2 = fuel + 1 + 1 from rfl]
  rw [updateLoop]
  rw [hactive_list, htm]
  rw [if_pos (show (0 : ℕ) < [p].length by simp)]
  rw [List.getD_cons_zero]
  dsimp only
  rw [if_neg (show ¬ p.active = false by simp [hpact]), if_neg hlife,
      collidesWithWall_none]
  dsimp only
  rw [if_neg Bool.false_ne_true, if_pos hplayer, List.set_cons_zero]
  rw [checkEnemyHit]
  dsimp only
  rw [hen]
  obtain ⟨cs2, hloop, hc1, hc2⟩ := checkEnemyHitLoop_two ops
    { sys with tileMap := none
               active := [{ p with lifetime := p.lifetime - dt
                                   x := p.x + p.dirX * p.speed * dt
                                   y := p.y + p.dirY * p.speed * dt }] }
    { p with lifetime := p.lifetime - dt
             x := p.x + p.dirX * p.speed * dt
             y := p.y + p.dirY * p.speed * dt }
    id1 id2 e1 e2 t1 t2 h1 h2 hne hcombat hkill he1 ha1 hty1 ht1 hh1 hi1 hnohit1
    he2 ha2 hty2 ht2 hh2 hi2 hnohit2 hpierce hchain heff hdmg hov1 hov2
  rw [hloop]
  dsimp only
  rw [if_pos (Or.inl rfl), List.set_cons_zero, releaseAtIndex]
  dsimp only
  rw [List.getD_cons_zero, List.eraseIdx_cons_zero, if_pos hpool]
  rw [updateLoop]
  dsimp only
  rw [if_neg (show ¬ (0 : ℕ) < List.length ([] : List Projectile) by simp)]
  refine ⟨rfl, ?_, ?_, ?_⟩
  · simp [hpierce]
  · intro e' hx
    rw [← hmax]
    exact hc1 e' hx
  · intro e' hx
    rw [← hmax]
    exact hc2 e' hx

/-- Concrete math ops for projectile witnesses. -/
def c6Ops : FloatOps :=
  { cos := fun _ => 0, sin := fun _ => 0, sqrt := fun _ => 0, pi := 3 }

def c6T : TransformComponent := TransformComponent.create 0 0 0 0

def c6H : HealthComponent := { max := 10, current := 10, invulnTimer := 0 }

def c6Enemy1 : Entity :=
  { Entity.create 1 "enemy" with transform := some c6T, health := some c6H }

def c6Enemy2 : Entity :=
  { Entity.create 2 "enemy" with transform := some c6T, health := some c6H }

/-- The pierce-1 test projectile sitting at the origin. -/
def c6Proj : Projectile :=
  { id := 100, type := playerBulletType, source := none
    x := 0, y := 0, dirX := 0, dirY := 0, speed := 0, damage := 4, lifetime := 5
    size := 1, radius := 0, pierce := 1, hitIds := [], effects := []
    remainingChains := 0, chainRange := 0, colorOverride := none
    isPlayerProjectile := true, isEnemyProjectile := false, active := true }

def c6EM : EntityManager :=
  { store := [c6Enemy1, c6Enemy2], entities := [1, 2], enemies := [1, 2]
    pickups := [], player := none, nextId := 3 }

def c6Combat : CombatSystem :=
  { em := c6EM
    flags := { infinitePlayerHealth := false, oneHitKillEnemies := false
               logDamage := false }
    damageLog := [], killCount := 0, statuses := [] }

def c6Sys : ProjSys :=
  { combat := c6Combat, hasCombat := true, registry := DEFAULT_TYPES
    config := DEFAULT_CONFIG, pool := [], active := [c6Proj], nextId := 101
    tileMap := none }

theorem update_pierce_one_two_hits_witness :
    (ProjSys.update c6Ops none 1 (0 + 2) c6Sys).active = [] ∧
    (ProjSys.update c6Ops none 1 (0 + 2) c6Sys).pool =
      c6Sys.pool ++ [{ c6Proj with
        x := 0
        y := 0
        lifetime := c6Proj.lifetime - 1
        pierce := 0
        active := false
        hitIds := []
        effects := []
        remainingChains := 0
        chainRange := 0
        colorOverride := none }] ∧
    (∀ e', (ProjSys.update c6Ops none 1 (0 + 2) c6Sys).combat.em.lookup 1 = some e' →
      e'.health = some (c6H.takeDamage c6Proj.damage)) ∧
    (∀ e', (ProjSys.update c6Ops none 1 (0 + 2) c6Sys).combat.em.lookup 2 = some e' →
      e'.health = some (c6H.takeDamage c6Proj.damage)) :=
  update_pierce_one_two_hits c6Ops c6Sys c6Proj 1 0 1 2 c6Enemy1 c6Enemy2 c6T c6T
    c6H c6H 0 0
    (by norm_num [c6Proj]) (by norm_num [c6Proj])
    rfl rfl rfl rfl rfl
    (by norm_num [c6Proj]) (by decide) rfl rfl rfl
    rfl rfl rfl rfl rfl (by norm_num [c6H]) rfl
    rfl rfl rfl rfl rfl (by norm_num [c6H]) rfl
    rfl (by decide) rfl (by norm_num [c6Proj])
    (by norm_num [c6T, c6Proj, getCollisionRadius, c6Enemy1, Entity.create,
      TransformComponent.create, max_self])
    (by norm_num [c6T, c6Proj, getCollisionRadius, c6Enemy2, Entity.create,
      TransformComponent.create, max_self])

/-- Witness enemy: id 1, 10 max hp, full health, no invulnerability. -/
def c3Enemy : Entity :=
  { Entity.create 1 "enemy" with
    health := some { max := 10, current := 10, invulnTimer := 0 } }

def c3Combat : CombatSystem :=
  { em := { store := [c3Enemy], entities := [1], enemies := [1], pickups := []
            player := none, nextId := 2 }
    flags := { infinitePlayerHealth := false, oneHitKillEnemies := false
               logDamage := false }
    damageLog := [], killCount := 0, statuses := [] }

/-- The enemy after taking 4 damage. -/
def c3Result : Entity :=
  { c3Enemy with health := some { max := 10, current := 6, invulnTimer := 0 } }

/-- Witness for C3 at a concrete input: 4 damage against a 10/10 enemy
leaves 6/10 health, inside the bounds. -/
theorem applyDamage_health_bounds_witness :
    ((CombatSystem.applyDamage none c3Combat 1 4 none).2.em.lookup 1 = some c3Result) ∧
    (0 ≤ ({ max := 10, current := 6, invulnTimer := 0 } : HealthComponent).current ∧
      ({ max := 10, current := 6, invulnTimer := 0 } : HealthComponent).current ≤
        ({ max := 10, current := 6, invulnTimer := 0 } : HealthComponent).max) := by
  have hlook : (CombatSystem.applyDamage none c3Combat 1 4 none).2.em.lookup 1 =
      some c3Result := by
    norm_num [CombatSystem.applyDamage, c3Combat, c3Enemy, c3Result,
      EntityManager.lookup, EntityManager.updateEntity, Entity.create,
      HealthComponent.takeDamage, HealthComponent.isDead, List.find?, max_def]
  refine ⟨hlook, ?_⟩
  exact applyDamage_health_bounds none c3Combat 1 4 none c3Enemy
    { max := 10, current := 10, invulnTimer := 0 } rfl rfl (by norm_num) (by norm_num)
    c3Result { max := 10, current := 6, invulnTimer := 0 } hlook rfl

/-! ## SpawnController (`entities/SpawnController.ts`)

`Math.random()` is modelled as an explicit stream `rolls : ℕ → ℚ` read at a
threaded cursor.  The mutually recursive fallback between
`pickRandomWorldPosition` and `pickTilePosition` (which can retry forever in
the source when no walkable tile is found) carries an explicit fuel; the
spawn counts and entity bookkeeping the theorems are about are independent
of that fuel.  `targetResolver` / `attackHandler` / `onEnemySpawn` callbacks
are external and modelled absent. -/

structure EnemyBaseStats where
  health : ℚ
  damage : ℚ
  speed : ℚ
deriving DecidableEq, Repr

structure EnemyTypeConfig where
  type : String
  baseSize : ℚ
  sizeVariance : ℚ
  spawnWeight : ℚ
  baseStats : EnemyBaseStats
  xpReward : Option ℚ
deriving DecidableEq, Repr

inductive SpawnMode where
  | world
  | aroundPlayer
  | tile
deriving DecidableEq, Repr

structure SpawnControllerConfig where
  initialSpawnCount : ℤ
  spawnIntervalMs : ℚ
  intervalSpawnCount : ℤ
  maxEnemies : ℤ
  spawnRadiusMin : ℚ
  spawnRadiusMax : ℚ
  spawnMode : SpawnMode
  useWeightedSpawns : Bool
  useTileMapSpawns : Bool
  allowSizeVariance : Bool
  debugLogBatches : Bool
deriving DecidableEq, Repr

/-- The controller state.  `player` is the entity the `getPlayer` callback
would return (`none` models a missing callback or a `null` player). -/
structure SpawnController where
  registry : List EnemyTypeConfig
  config : SpawnControllerConfig
  em : EntityManager
  worldWidth : ℚ
  worldHeight : ℚ
  tileSize : ℚ
  tileMap : Option TileMap
  player : Option Entity
  weightTotal : ℚ
  spawnCounts : List (String × ℕ)
  spawnTimerMs : ℚ
  initialized : Bool
deriving DecidableEq, Repr

def ENEMY_BEHAVIORS : List (String × AIBehaviorConfig) :=
  [("SmallChaser",
    { behavior := "slime", aggressionRadius := some 220, attackRange := some 10
      idealRangeMin := none, idealRangeMax := none, retreatRange := none
      attackCooldown := some 35, attackLockDuration := some 12
      attackWindup := none, recoveryDuration := none, moveSpeed := some (7/10) }),
   ("MediumChaser",
    { behavior := "slime", aggressionRadius := some 240, attackRange := some 14
      idealRangeMin := none, idealRangeMax := none, retreatRange := none
      attackCooldown := some 45, attackLockDuration := some 14
      attackWindup := none, recoveryDuration := none, moveSpeed := some (65/100) }),
   ("Tank",
    { behavior := "brute", aggressionRadius := some 240, attackRange := some 16
      idealRangeMin := none, idealRangeMax := none, retreatRange := none
      attackCooldown := some 80, attackLockDuration := some 16
      attackWindup := some 18, recoveryDuration := some 14
      moveSpeed := some (3/10) }),
   ("RangedShooter",
    { behavior := "spitter", aggressionRadius := some 260, attackRange := some 250
      idealRangeMin := some 50, idealRangeMax := some 100, retreatRange := some 80
      attackCooldown := some 90, attackLockDuration := some 10
      attackWindup := none, recoveryDuration := none, moveSpeed := some (1/2) })]

def createAIConfig (enemyType : EnemyTypeConfig) (pixelSize : ℚ) : AIBehaviorConfig :=
  let base := ((ENEMY_BEHAVIORS.find? (fun q => q.1 == enemyType.type)).map (·.2)).getD
    { behavior := "slime", aggressionRadius := some 200
      attackRange := some (Max.max 8 pixelSize)
      idealRangeMin := none, idealRangeMax := none, retreatRange := none
      attackCooldown := some 45, attackLockDuration := none
      attackWindup := none, recoveryDuration := none, moveSpeed := none }
  let moveSpeed := base.moveSpeed.getD enemyType.baseStats.speed
  { base with
    attackRange := some (base.attackRange.getD (Max.max 8 pixelSize))
    idealRangeMin :=
      some ((base.idealRangeMin.orElse (fun _ => base.attackRange)).getD
        (Max.max 8 pixelSize))
    idealRangeMax :=
      some ((base.idealRangeMax.orElse (fun _ => base.attackRange)).getD
        (Max.max 8 (pixelSize * 2)))
    moveSpeed := some moveSpeed }

def clamp (value lo hi : ℚ) : ℚ := Min.min hi (Max.max lo value)

/-- The 20-attempt loop of `pickTilePosition`; two rolls per attempt. -/
def pickTileAttempts (tm : TileMap) (tileSize : ℚ) (rolls : ℕ → ℚ) :
    ℕ → ℕ → Option (ℚ × ℚ) × ℕ
  | 0, cur => (none, cur)
  | n + 1, cur =>
    let tx : ℤ := ⌊rolls cur * tm.width⌋
    let ty : ℤ := ⌊rolls (cur + 1) * tm.height⌋
    if tm.isWalkable tx ty then
      ((some ((tx : ℚ) * tileSize, (ty : ℚ) * tileSize)), cur + 2)
    else pickTileAttempts tm tileSize rolls n (cur + 2)

/-- `pickRandomWorldPosition` (`tileMode = false`) and `pickTilePosition`
(`tileMode = true`), with fuel for their mutual fallback recursion. -/
def pickCore (rolls : ℕ → ℚ) (tileSize ww wh : ℚ) (tmOpt : Option TileMap) :
    ℕ → Bool → ℕ → (ℚ × ℚ) × ℕ
  | 0, _, cur => ((0, 0), cur)
  | fuel + 1, false, cur =>
    let x := rolls cur * (ww - tileSize)
    let y := rolls (cur + 1) * (wh - tileSize)
    match tmOpt with
    | some tm =>
      if tm.isWalkable ⌊x / tileSize⌋ ⌊y / tileSize⌋ = false then
        pickCore rolls tileSize ww wh tmOpt fuel true (cur + 2)
      else ((x, y), cur + 2)
    | none => ((x, y), cur + 2)
  | fuel + 1, true, cur =>
    match tmOpt with
    | none => pickCore rolls tileSize ww wh tmOpt fuel false cur
    | some tm =>
      match pickTileAttempts tm tileSize rolls 20 cur with
      | (some pos, cur') => (pos, cur')
      | (none, cur') => pickCore rolls tileSize ww wh tmOpt fuel false cur'

def pickAroundPlayerPosition (ops : FloatOps) (rolls : ℕ → ℚ)
    (sc : SpawnController) (fuel cur : ℕ) : (ℚ × ℚ) × ℕ :=
  match sc.player.bind (fun e => e.transform) with
  | none => pickCore rolls sc.tileSize sc.worldWidth sc.worldHeight sc.tileMap
      fuel false cur
  | some tr =>
    let angle := rolls cur * ops.pi * 2
    let rMin := sc.config.spawnRadiusMin
    let rMax := Max.max rMin sc.config.spawnRadiusMax
    let radius := rMin + rolls (cur + 1) * (rMax - rMin)
    let x := tr.x + ops.cos angle * radius
    let y := tr.y + ops.sin angle * radius
    let clamped := (clamp x 0 (sc.worldWidth - sc.tileSize),
                    clamp y 0 (sc.worldHeight - sc.tileSize))
    match sc.tileMap with
    | some tm =>
      if tm.isWalkable ⌊x / sc.tileSize⌋ ⌊y / sc.tileSize⌋ = false then
        pickCore rolls sc.tileSize sc.worldWidth sc.worldHeight sc.tileMap
          fuel true (cur + 2)
      else (clamped, cur + 2)
    | none => (clamped, cur + 2)

def pickSpawnPosition (ops : FloatOps) (rolls : ℕ → ℚ) (sc : SpawnController)
    (fuel cur : ℕ) : (ℚ × ℚ) × ℕ :=
  match sc.config.spawnMode with
  | SpawnMode.aroundPlayer => pickAroundPlayerPosition ops rolls sc fuel cur
  | SpawnMode.tile =>
      pickCore rolls sc.tileSize sc.worldWidth sc.worldHeight sc.tileMap fuel true cur
  | SpawnMode.world =>
      pickCore rolls sc.tileSize sc.worldWidth sc.worldHeight sc.tileMap fuel false cur

/-- The cumulative-weight scan in `pickEnemyType`. -/
def weightedPick (roll : ℚ) : List EnemyTypeConfig → ℚ → Option EnemyTypeConfig
  | [], _ => none
  | e :: rest, cumulative =>
    let c := cumulative + Max.max 0 e.spawnWeight
    if roll ≤ c then some e else weightedPick roll rest c

def pickEnemyType (rolls : ℕ → ℚ) (sc : SpawnController) (cur : ℕ) :
    Option EnemyTypeConfig × ℕ :=
  if sc.registry.length = 0 then (none, cur)
  else if sc.config.useWeightedSpawns = false ∨ sc.weightTotal ≤ 0 then
    let idx := (⌊rolls cur * sc.registry.length⌋).toNat
    (sc.registry.get? idx, cur + 1)
  else
    let roll := rolls cur * sc.weightTotal
    (match weightedPick roll sc.registry 0 with
     | some e => some e
     | none => sc.registry.getLast?, cur + 1)

def pickSizeScale (rolls : ℕ → ℚ) (sc : SpawnController) (t : EnemyTypeConfig)
    (cur : ℕ) : ℚ × ℕ :=
  if sc.config.allowSizeVariance = false then (t.baseSize, cur)
  else
    let variance := (rolls cur * 2 - 1) * t.sizeVariance
    (Max.max (1/10) (t.baseSize + variance), cur + 1)

/-- `spawnOne(forcedType?)`: returns the spawned type key (or `null`), the
updated entity heap and the advanced random cursor. -/
def spawnOne (ops : FloatOps) (rolls : ℕ → ℚ) (sc : SpawnController)
    (fuel cur : ℕ) (forced : Option EnemyTypeConfig) :
    Option String × EntityManager × ℕ :=
  let picked := match forced with
    | some t => (some t, cur)
    | none => pickEnemyType rolls sc cur
  match picked with
  | (none, cur0) => (none, sc.em, cur0)
  | (some enemyType, cur0) =>
    let sizeRes := pickSizeScale rolls sc enemyType cur0
    let pixelSize : ℚ := Max.max 1 ((round (sizeRes.1 * sc.tileSize) : ℤ) : ℚ)
    let posRes := pickSpawnPosition ops rolls sc fuel sizeRes.2
    let spawnPos := posRes.1
    let created := sc.em.createEntity "enemy"
    let aiConfig := createAIConfig enemyType pixelSize
    let attackRange := aiConfig.attackRange.getD pixelSize
    let em2 := created.2.updateEntity created.1.id (fun e0 =>
      { e0 with
        transform := some { TransformComponent.create spawnPos.1 spawnPos.2
            pixelSize pixelSize with speed := enemyType.baseStats.speed }
        health := some (HealthComponent.create enemyType.baseStats.health 0)
        collision := some (CollisionComponent.create (pixelSize * (4/10)))
        enemyInfo := some { enemyType := enemyType.type
                            xpReward := enemyType.xpReward.getD 1 }
        attack := some (AttackComponent.create enemyType.baseStats.damage
          (aiConfig.attackCooldown.getD 45) attackRange)
        ai := some (AIComponent.create aiConfig)
        flags := { e0.flags with hostile := true } })
    (some enemyType.type, em2, posRes.2)

def bumpCount (l : List (String × ℕ)) (k : String) : List (String × ℕ) :=
  if (l.find? (fun p => p.1 == k)).isSome then
    l.map (fun p => if p.1 = k then (p.1, p.2 + 1) else p)
  else l ++ [(k, 1)]

/-- The `for` loop of `spawnEnemyType`. -/
def spawnEnemyTypeLoop (ops : FloatOps) (rolls : ℕ → ℚ) (fuel : ℕ)
    (enemyType : EnemyTypeConfig) :
    ℕ → SpawnController → ℕ → ℤ → ℤ × SpawnController × ℕ
  | 0, sc, cur, spawned => (spawned, sc, cur)
  | n + 1, sc, cur, spawned =>
    match spawnOne ops rolls sc fuel cur (some enemyType) with
    | (none, em', cur') => (spawned, { sc with em := em' }, cur')
    | (some result, em', cur') =>
      spawnEnemyTypeLoop ops rolls fuel enemyType n
        { sc with em := em', spawnCounts := bumpCount sc.spawnCounts result }
        cur' (spawned + 1)

/-- `spawnEnemyType(type, count) -> number spawned`. -/
def spawnEnemyType (ops : FloatOps) (rolls : ℕ → ℚ) (fuel : ℕ)
    (sc : SpawnController) (type : String) (count : ℤ) (cur : ℕ) :
    ℤ × SpawnController × ℕ :=
  match sc.registry.find? (fun e => e.type == type) with
  | none => (0, sc, cur)
  | some enemyType =>
    let currentEnemies : ℤ := sc.em.enemies.length
    let spaceAvailable := if sc.config.maxEnemies > 0 then
        Max.max 0 (sc.config.maxEnemies - currentEnemies)
      else count
    let toSpawn := if sc.config.maxEnemies > 0 then Min.min count spaceAvailable
      else count
    if toSpawn ≤ 0 then (0, sc, cur)
    else spawnEnemyTypeLoop ops rolls fuel enemyType toSpawn.toNat sc cur 0

/-- The `for` loop of `spawnBatch` (batch-count bookkeeping is only used for
debug logging and is not tracked). -/
def spawnBatchLoop (ops : FloatOps) (rolls : ℕ → ℚ) (fuel : ℕ) :
    ℕ → SpawnController → ℕ → SpawnController × ℕ
  | 0, sc, cur => (sc, cur)
  | n + 1, sc, cur =>
    match spawnOne ops rolls sc fuel cur none with
    | (none, em', cur') => ({ sc with em := em' }, cur')
    | (some result, em', cur') =>
      spawnBatchLoop ops rolls fuel n
        { sc with em := em', spawnCounts := bumpCount sc.spawnCounts result } cur'

/-- `spawnBatch(count)`. -/
def spawnBatch (ops : FloatOps) (rolls : ℕ → ℚ) (fuel : ℕ)
    (sc : SpawnController) (count : ℤ) (cur : ℕ) : SpawnController × ℕ :=
  if count ≤ 0 then (sc, cur)
  else
    let currentEnemies : ℤ := sc.em.enemies.length
    let spaceAvailable := Max.max 0 (sc.config.maxEnemies - currentEnemies)
    let toSpawn := if sc.config.maxEnemies > 0 then Min.min count spaceAvailable
      else count
    if toSpawn ≤ 0 then (sc, cur)
    else spawnBatchLoop ops rolls fuel toSpawn.toNat sc cur

def MAX_SAFE_INTEGER : ℤ := 2 ^ 53 - 1

def getAvailableSlots (sc : SpawnController) : ℤ :=
  if sc.config.maxEnemies ≤ 0 then MAX_SAFE_INTEGER
  else Max.max 0 (sc.config.maxEnemies - sc.em.enemies.length)

/-- A forced spawn always succeeds, returning the forced type's key and
growing the heap and enemy list by one. -/
theorem spawnOne_forced (ops : FloatOps) (rolls : ℕ → ℚ) (sc : SpawnController)
    (fuel cur : ℕ) (t : EnemyTypeConfig) :
    ∃ em' cur', spawnOne ops rolls sc fuel cur (some t) = (some t.type, em', cur') ∧
      em'.store.length = sc.em.store.length + 1 ∧
      em'.enemies.length = sc.em.enemies.length + 1 := by
  refine ⟨_, _, rfl, ?_, ?_⟩
  · simp [EntityManager.updateEntity, EntityManager.createEntity]
  · simp [EntityManager.updateEntity, EntityManager.createEntity]

theorem pickEnemyType_some (rolls : ℕ → ℚ) (sc : SpawnController) (cur : ℕ)
    (hreg : sc.registry ≠ [])
    (hw : sc.config.useWeightedSpawns = true)
    (hwt : 0 < sc.weightTotal) :
    ∃ t, pickEnemyType rolls sc cur = (some t, cur + 1) := by
  unfold pickEnemyType
  rw [if_neg (by simpa [List.length_eq_zero] using hreg)]
  rw [if_neg (show ¬ (sc.config.useWeightedSpawns = false ∨ sc.weightTotal ≤ 0) by
    rintro (h | h)
    · rw [hw] at h
      cases h
    · exact absurd h (not_le.mpr hwt))]
  dsimp only
  cases hwp : weightedPick (rolls cur * sc.weightTotal) sc.registry 0 with
  | some e => exact ⟨e, rfl⟩
  | none =>
    obtain ⟨e, he⟩ := Option.isSome_iff_exists.mp (List.getLast?_isSome.mpr hreg)
    exact ⟨e, by dsimp only; rw [he]⟩

/-- An unforced spawn succeeds whenever the registry is nonempty and the
weighted pick is enabled with a positive weight total. -/
theorem spawnOne_unforced_some (ops : FloatOps) (rolls : ℕ → ℚ)
    (sc : SpawnController) (fuel cur : ℕ)
    (hreg : sc.registry ≠ [])
    (hw : sc.config.useWeightedSpawns = true)
    (hwt : 0 < sc.weightTotal) :
    (spawnOne ops rolls sc fuel cur none).1.isSome = true ∧
    (spawnOne ops rolls sc fuel cur none).2.1.store.length =
      sc.em.store.length + 1 ∧
    (spawnOne ops rolls sc fuel cur none).2.1.enemies.length =
      sc.em.enemies.length + 1 := by
  obtain ⟨t, hpick⟩ := pickEnemyType_some rolls sc cur hreg hw hwt
  unfold spawnOne
  dsimp only
  rw [hpick]
  dsimp only
  refine ⟨rfl, ?_, ?_⟩
  · simp [EntityManager.updateEntity, EntityManager.createEntity]
  · simp [EntityManager.updateEntity, EntityManager.createEntity]

/-- The forced-spawn loop runs to completion: it spawns exactly one enemy
per iteration. -/
theorem spawnEnemyTypeLoop_count (ops : FloatOps) (rolls : ℕ → ℚ) (fuel : ℕ)
    (t : EnemyTypeConfig) :
    ∀ (n : ℕ) (sc : SpawnController) (cur : ℕ) (spawned : ℤ),
      (spawnEnemyTypeLoop ops rolls fuel t n sc cur spawned).1 = spawned + n ∧
      (spawnEnemyTypeLoop ops rolls fuel t n sc cur spawned).2.1.em.store.length =
        sc.em.store.length + n := by
  intro n
  induction n with
  | zero =>
    intro sc cur spawned
    exact ⟨by simp [spawnEnemyTypeLoop], by simp [spawnEnemyTypeLoop]⟩
  | succ n ih =>
    intro sc cur spawned
    obtain ⟨em', cur', heq, hst, hen⟩ := spawnOne_forced ops rolls sc fuel cur t
    unfold spawnEnemyTypeLoop
    rw [heq]
    dsimp only
    obtain ⟨ih1, ih2⟩ := ih
      { sc with em := em', spawnCounts := bumpCount sc.spawnCounts t.type } cur'
      (spawned + 1)
    constructor
    · rw [ih1]
      push_cast
      ring
    · rw [ih2]
      dsimp only
      omega

/-- The batch loop spawns one enemy per iteration when unforced spawning
cannot fail. -/
theorem spawnBatchLoop_count (ops : FloatOps) (rolls : ℕ → ℚ) (fuel : ℕ) :
    ∀ (n : ℕ) (sc : SpawnController) (cur : ℕ), sc.registry ≠ [] →
      sc.config.useWeightedSpawns = true → 0 < sc.weightTotal →
      (spawnBatchLoop ops rolls fuel n sc cur).1.em.store.length =
        sc.em.store.length + n := by
  intro n
  induction n with
  | zero =>
    intro sc cur _ _ _
    simp [spawnBatchLoop]
  | succ n ih =>
    intro sc cur hreg hw hwt
    obtain ⟨h1, h2, h3⟩ := spawnOne_unforced_some ops rolls sc fuel cur hreg hw hwt
    unfold spawnBatchLoop
    cases hsp : spawnOne ops rolls sc fuel cur none with
    | mk fst rest =>
      cases rest with
      | mk em' cur' =>
        rw [hsp] at h1 h2 h3
        cases fst with
        | none => simp at h1
        | some ty =>
          dsimp only
          rw [ih { sc with em := em', spawnCounts := bumpCount sc.spawnCounts ty }
            cur' hreg hw hwt]
          dsimp only at h2 ⊢
          omega

/-- The "Tank" registry entry. -/
def tankConfig : EnemyTypeConfig :=
  { type := "Tank", baseSize := 22/10, sizeVariance := 2/10, spawnWeight := 6
    baseStats := { health := 50, damage := 12, speed := 1/2 }
    xpReward := some 20 }

def c7Config : SpawnControllerConfig :=
  { initialSpawnCount := 100, spawnIntervalMs := 0, intervalSpawnCount := 5
    maxEnemies := 0, spawnRadiusMin := 96, spawnRadiusMax := 168
    spawnMode := SpawnMode.world, useWeightedSpawns := true
    useTileMapSpawns := false, allowSizeVariance := false
    debugLogBatches := false }

def c7Rolls : ℕ → ℚ := fun _ => 0

/-- A controller with `maxEnemies = 0` and an empty world. -/
def c7Sc : SpawnController :=
  { registry := [tankConfig], config := c7Config, em := EntityManager.empty
    worldWidth := 100, worldHeight := 100, tileSize := 4, tileMap := none
    player := none, weightTotal := 6, spawnCounts := [], spawnTimerMs := 0
    initialized := true }

def c7ConfigCapped : SpawnControllerConfig := { c7Config with maxEnemies := 1 }

/-- A controller whose one-enemy cap is already filled. -/
def c7ScFull : SpawnController :=
  { c7Sc with config := c7ConfigCapped
              em := (EntityManager.empty.createEntity "enemy").2 }

/-- C7 counterexample: with `maxEnemies = 0` the remaining capacity
`maxEnemies - currentEnemyCount` is 0, yet `spawnEnemyType("Tank", 1)`
returns 1 and creates an entity — the cap value 0 disables the cap instead
of meaning zero capacity, so the claimed bound
`min(count, maxEnemies - currentEnemyCount)` and the zero-capacity scenario
are violated. -/
theorem spawnEnemyType_ignores_zero_cap :
    c7Sc.config.maxEnemies - (c7Sc.em.enemies.length : ℤ) = 0 ∧
    (spawnEnemyType c6Ops c7Rolls 1 c7Sc "Tank" 1 0).1 = 1 ∧
    (spawnEnemyType c6Ops c7Rolls 1 c7Sc "Tank" 1 0).2.1.em.store.length =
      c7Sc.em.store.length + 1 :=
  ⟨rfl, rfl, rfl⟩

/-- C7 (corrected): when the configured cap is positive, `spawnEnemyType`
returns the number of enemies actually created, which equals the clamp
`max 0 (min count (max 0 (maxEnemies - currentEnemyCount)))`; an unknown
type key returns 0 with the controller unchanged, and a filled cap
(`maxEnemies - currentEnemyCount ≤ 0`) returns 0 and creates no entity. -/
theorem spawnEnemyType_spec (ops : FloatOps) (rolls : ℕ → ℚ) (fuel : ℕ)
    (sc : SpawnController) (type : String) (count : ℤ) (cur : ℕ)
    (hmax : 0 < sc.config.maxEnemies) :
    (sc.registry.find? (fun e => e.type == type) = none →
      spawnEnemyType ops rolls fuel sc type count cur = (0, sc, cur)) ∧
    (∀ t, sc.registry.find? (fun e => e.type == type) = some t →
      (spawnEnemyType ops rolls fuel sc type count cur).1 =
        Max.max 0 (Min.min count
          (Max.max 0 (sc.config.maxEnemies - (sc.em.enemies.length : ℤ)))) ∧
      (spawnEnemyType ops rolls fuel sc type count cur).2.1.em.store.length =
        sc.em.store.length +
          (spawnEnemyType ops rolls fuel sc type count cur).1.toNat) ∧
    (sc.config.maxEnemies - (sc.em.enemies.length : ℤ) ≤ 0 →
      (spawnEnemyType ops rolls fuel sc type count cur).1 = 0 ∧
      (spawnEnemyType ops rolls fuel sc type count cur).2.1.em = sc.em) := by
  unfold spawnEnemyType
  cases hf : sc.registry.find? (fun e => e.type == type) with
  | none =>
    exact ⟨fun _ => rfl, fun t ht => Option.noConfusion ht, fun _ => ⟨rfl, rfl⟩⟩
  | some t0 =>
    dsimp only
    rw [if_pos hmax, if_pos hmax]
    refine ⟨fun h => Option.noConfusion h, ?_, ?_⟩
    · intro t ht
      split
      case isTrue hts =>
        refine ⟨?_, ?_⟩
        · dsimp only
          omega
        · dsimp only
          omega
      case isFalse hts =>
        obtain ⟨h1, h2⟩ := spawnEnemyTypeLoop_count ops rolls fuel t0
          (Min.min count
            (Max.max 0 (sc.config.maxEnemies - (sc.em.enemies.length : ℤ)))).toNat
          sc cur 0
        refine ⟨?_, ?_⟩
        · rw [h1]
          omega
        · rw [h2, h1]
          omega
    · intro hle
      have hts : Min.min count
          (Max.max 0 (sc.config.maxEnemies - (sc.em.enemies.length : ℤ))) ≤ 0 := by
        rw [max_eq_left hle]
        exact min_le_right _ _
      rw [if_pos hts]
      exact ⟨rfl, rfl⟩

/-- C7 witness: a full one-enemy cap makes `spawnEnemyType("Tank", 1)`
return 0 and leave the heap untouched. -/
theorem spawnEnemyType_spec_witness :
    ((0 : ℤ) < c7ScFull.config.maxEnemies) ∧
    (spawnEnemyType c6Ops c7Rolls 1 c7ScFull "Tank" 1 0).1 = 0 ∧
    (spawnEnemyType c6Ops c7Rolls 1 c7ScFull "Tank" 1 0).2.1.em = c7ScFull.em := by
  obtain ⟨-, -, h3⟩ :=
    spawnEnemyType_spec c6Ops c7Rolls 1 c7ScFull "Tank" 1 0 (by decide)
  have h := h3 (by decide)
  exact ⟨by decide, h.1, h.2⟩

/-- C8: a non-positive `maxEnemies` disables the enemy cap instead of
meaning zero capacity: `getAvailableSlots` returns
`Number.MAX_SAFE_INTEGER`, and `spawnEnemyType` / `spawnBatch` attempt the
full requested count regardless of the current enemy count. -/
theorem maxEnemies_nonpositive_disables_cap (ops : FloatOps) (rolls : ℕ → ℚ)
    (fuel : ℕ) (sc : SpawnController) (count : ℤ) (cur : ℕ)
    (h0 : sc.config.maxEnemies ≤ 0) :
    getAvailableSlots sc = MAX_SAFE_INTEGER ∧
    (∀ type t, sc.registry.find? (fun e => e.type == type) = some t → 0 < count →
      (spawnEnemyType ops rolls fuel sc type count cur).1 = count) ∧
    (sc.registry ≠ [] → sc.config.useWeightedSpawns = true → 0 < sc.weightTotal →
      0 < count →
      (spawnBatch ops rolls fuel sc count cur).1.em.store.length =
        sc.em.store.length + count.toNat) := by
  refine ⟨?_, ?_, ?_⟩
  · unfold getAvailableSlots
    rw [if_pos h0]
  · intro type t hf hc
    unfold spawnEnemyType
    rw [hf]
    dsimp only
    rw [if_neg (not_lt.mpr h0), if_neg (not_le.mpr hc)]
    obtain ⟨h1, -⟩ := spawnEnemyTypeLoop_count ops rolls fuel t count.toNat sc cur 0
    rw [h1]
    omega
  · intro hreg hw hwt hc
    unfold spawnBatch
    rw [if_neg (not_le.mpr hc)]
    dsimp only
    rw [if_neg (not_lt.mpr h0), if_neg (not_le.mpr hc)]
    rw [spawnBatchLoop_count ops rolls fuel count.toNat sc cur hreg hw hwt]

/-- C8 witness: with `maxEnemies = 0` and an empty world, three Tanks are
requested and three are spawned, both through `spawnEnemyType` and through
`spawnBatch`. -/
theorem maxEnemies_nonpositive_disables_cap_witness :
    getAvailableSlots c7Sc = MAX_SAFE_INTEGER ∧
    (spawnEnemyType c6Ops c7Rolls 1 c7Sc "Tank" 3 0).1 = 3 ∧
    (spawnBatch c6Ops c7Rolls 1 c7Sc 3 0).1.em.store.length =
      c7Sc.em.store.length + (3 : ℤ).toNat := by
  obtain ⟨h1, h2, h3⟩ :=
    maxEnemies_nonpositive_disables_cap c6Ops c7Rolls 1 c7Sc 3 0 (by decide)
  exact ⟨h1, h2 "Tank" tankConfig rfl (by decide),
         h3 (by decide) rfl (by decide) (by decide)⟩

/-! ## WaveManager (`entities/waves/WaveTypes.ts`)

`Record<string, number>` objects are association lists without duplicate
keys; `Set<TimedWaveEvent>` holds the events by their index in the wave's
`timedEvents` array (JS object identity).  The `onWaveStart` /
`onWaveComplete` / `onEventTriggered` callbacks are external and modelled
absent. -/

structure TimedWaveEvent where
  triggerTime : ℚ
  eventType : String
  enemies : List (String × ℤ)
  weights : List (String × ℚ)
  eliteType : Option String
  eliteCount : Option ℤ
  totalCount : Option ℤ
deriving DecidableEq, Repr

structure WaveDefinition where
  durationSeconds : ℚ
  budgetPerSecond : ℚ
  enemyCosts : List (String × ℚ)
  continuousSpawnMix : List (String × ℚ)
  timedEvents : List TimedWaveEvent
deriving DecidableEq, Repr

structure ActiveWaveContext where
  wave : WaveDefinition
  waveIndex : ℕ
  elapsed : ℚ
  budget : ℚ
  triggeredEvents : List ℕ
  costs : List (String × ℚ)
deriving DecidableEq, Repr

structure WaveManager where
  sc : SpawnController
  waves : List WaveDefinition
  baseEnemyCosts : List (String × ℚ)
  intermissionSeconds : ℚ
  clearEnemiesOnWaveStart : Bool
  loopLastWave : Bool
  activeWave : Option ActiveWaveContext
  intermissionTimer : ℚ
  endlessMode : Bool
deriving DecidableEq, Repr

def costsGet (costs : List (String × ℚ)) (k : String) : Option ℚ :=
  (costs.find? (fun p => p.1 == k)).map (·.2)

/-- Update-or-append on a `Record`-style association list. -/
def recordSet (l : List (String × ℚ)) (k : String) (v : ℚ) : List (String × ℚ) :=
  if (l.find? (fun p => p.1 == k)).isSome then
    l.map (fun p => if p.1 = k then (k, v) else p)
  else l ++ [(k, v)]

/-- `{...base, ...override}`. -/
def mergeCosts (base override : List (String × ℚ)) : List (String × ℚ) :=
  override.foldl (fun acc p => recordSet acc p.1 p.2) base

/-- The fold inside `getCheapestEnemyCost` over the cost table's values. -/
def cheapestAux : List (String × ℚ) → Option ℚ → Option ℚ
  | [], acc => acc
  | p :: rest, acc =>
    if p.2 ≤ 0 then cheapestAux rest acc
    else match acc with
      | none => cheapestAux rest (some p.2)
      | some c => cheapestAux rest (some (Min.min c p.2))

/-- `getCheapestEnemyCost`: `none` models `Number.POSITIVE_INFINITY` (no
positive cost in the table). -/
def getCheapestEnemyCost (costs : List (String × ℚ)) : Option ℚ :=
  cheapestAux costs none

def pickScanLoop (roll : ℚ) : List (String × ℚ) → Option String
  | [] => none
  | (ty, w) :: rest => if roll - w ≤ 0 then some ty else pickScanLoop (roll - w) rest

/-- `pickFromMix(mix)`: filter the positive weights, roll against the weight
total, scan cumulatively, fall back to the last entry. -/
def pickFromMix (rolls : ℕ → ℚ) (mix : List (String × ℚ)) (cur : ℕ) :
    Option String × ℕ :=
  let entries := mix.filter (fun p => p.2 > 0)
  if entries.length = 0 then (none, cur)
  else
    let total := entries.foldl (fun s p => s + p.2) 0
    let roll := rolls cur * total
    (match pickScanLoop roll entries with
     | some ty => some ty
     | none => entries.getLast?.map (·.1), cur + 1)

/-- The `while (budget >= cheapest && attempts < 64)` loop of
`processContinuousSpawns`; the counter runs structurally from 64 to 0. -/
def continuousLoop (ops : FloatOps) (rolls : ℕ → ℚ) (fuel : ℕ) (cheapest : ℚ) :
    ℕ → SpawnController → ActiveWaveContext → ℕ →
      SpawnController × ActiveWaveContext × ℕ
  | 0, sc, ctx, cur => (sc, ctx, cur)
  | n + 1, sc, ctx, cur =>
    if ctx.budget ≥ cheapest then
      match pickFromMix rolls ctx.wave.continuousSpawnMix cur with
      | (none, cur') => (sc, ctx, cur')
      | (some enemyType, cur') =>
        match costsGet ctx.costs enemyType with
        | none => continuousLoop ops rolls fuel cheapest n sc ctx cur'
        | some cost =>
          let res := spawnEnemyType ops rolls fuel sc enemyType 1 cur'
          if res.1 > 0 then
            continuousLoop ops rolls fuel cheapest n res.2.1
              { ctx with budget := ctx.budget - cost } res.2.2
          else (res.2.1, ctx, res.2.2)
    else (sc, ctx, cur)

def processContinuousSpawns (ops : FloatOps) (rolls : ℕ → ℚ) (fuel : ℕ)
    (sc : SpawnController) (ctx : ActiveWaveContext) (cur : ℕ) :
    SpawnController × ActiveWaveContext × ℕ :=
  match getCheapestEnemyCost ctx.costs with
  | none => (sc, ctx, cur)
  | some cheapest =>
    if cheapest ≤ 0 then (sc, ctx, cur)
    else continuousLoop ops rolls fuel cheapest 64 sc ctx cur

def spawnGroups (ops : FloatOps) (rolls : ℕ → ℚ) (fuel : ℕ) :
    List (String × ℤ) → SpawnController → ℕ → SpawnController × ℕ
  | [], sc, cur => (sc, cur)
  | (ty, count) :: rest, sc, cur =>
    if ty = "" ∨ count ≤ 0 then spawnGroups ops rolls fuel rest sc cur
    else
      let r := spawnEnemyType ops rolls fuel sc ty count cur
      spawnGroups ops rolls fuel rest r.2.1 r.2.2

def weightedBurstLoop (ops : FloatOps) (rolls : ℕ → ℚ) (fuel : ℕ)
    (weights : List (String × ℚ)) :
    ℕ → SpawnController → ℕ → SpawnController × ℕ
  | 0, sc, cur => (sc, cur)
  | n + 1, sc, cur =>
    match pickFromMix rolls weights cur with
    | (none, cur') => (sc, cur')
    | (some ty, cur') =>
      let r := spawnEnemyType ops rolls fuel sc ty 1 cur'
      weightedBurstLoop ops rolls fuel weights n r.2.1 r.2.2

def executeEvent (ops : FloatOps) (rolls : ℕ → ℚ) (fuel : ℕ)
    (sc : SpawnController) (evt : TimedWaveEvent) (cur : ℕ) :
    SpawnController × ℕ :=
  if evt.eventType = "BurstSpawn" ∨ evt.eventType = "MixedGroup" then
    spawnGroups ops rolls fuel evt.enemies sc cur
  else if evt.eventType = "EliteSpawn" then
    match evt.eliteType with
    | some ty => spawnGroups ops rolls fuel [(ty, evt.eliteCount.getD 1)] sc cur
    | none => (sc, cur)
  else if evt.eventType = "WeightedBurst" then
    weightedBurstLoop ops rolls fuel evt.weights (evt.totalCount.getD 20).toNat sc cur
  else (sc, cur)

def processEventsLoop (ops : FloatOps) (rolls : ℕ → ℚ) (fuel : ℕ) :
    List (ℕ × TimedWaveEvent) → SpawnController → ActiveWaveContext → ℕ →
      SpawnController × ActiveWaveContext × ℕ
  | [], sc, ctx, cur => (sc, ctx, cur)
  | (i, evt) :: rest, sc, ctx, cur =>
    if ctx.triggeredEvents.contains i then
      processEventsLoop ops rolls fuel rest sc ctx cur
    else if ctx.elapsed < evt.triggerTime then
      processEventsLoop ops rolls fuel rest sc ctx cur
    else
      let r := executeEvent ops rolls fuel sc evt cur
      processEventsLoop ops rolls fuel rest r.1
        { ctx with triggeredEvents := ctx.triggeredEvents ++ [i] } r.2

def processEvents (ops : FloatOps) (rolls : ℕ → ℚ) (fuel : ℕ)
    (sc : SpawnController) (ctx : ActiveWaveContext) (cur : ℕ) :
    SpawnController × ActiveWaveContext × ℕ :=
  processEventsLoop ops rolls fuel ctx.wave.timedEvents.enum sc ctx cur

/-- `beginWave(index)`.  An out-of-range lookup into an empty wave list (a
crash in the source) leaves the manager unchanged. -/
def beginWave (wm : WaveManager) (index : ℕ) : WaveManager :=
  let waveIndex : ℕ := Min.min index (wm.waves.length - 1)
  match wm.waves.get? waveIndex with
  | none => wm
  | some wave =>
    let costs := mergeCosts wm.baseEnemyCosts wave.enemyCosts
    let em' := if wm.clearEnemiesOnWaveStart then
        wm.sc.em.enemies.foldl (fun em id => em.removeEntity id) wm.sc.em
      else wm.sc.em
    { wm with
      sc := { wm.sc with em := em' }
      activeWave := some { wave := wave, waveIndex := waveIndex, elapsed := 0
                           budget := 0, triggeredEvents := [], costs := costs }
      intermissionTimer := 0
      endlessMode := decide ((waveIndex : ℤ) ≥ (wm.waves.length : ℤ) - 1) &&
        wm.loopLastWave }

def beginNextWave (wm : WaveManager) : WaveManager :=
  match wm.activeWave with
  | none => wm
  | some ctx =>
    let nextIndex := ctx.waveIndex + 1
    if nextIndex ≥ wm.waves.length then
      if wm.loopLastWave = false then wm
      else { beginWave wm (wm.waves.length - 1) with endlessMode := true }
    else beginWave wm nextIndex

def finishWave (wm : WaveManager) (ctx : ActiveWaveContext) (skipping : Bool) :
    WaveManager :=
  let isFinalWave := decide ((ctx.waveIndex : ℤ) ≥ (wm.waves.length : ℤ) - 1) &&
    !wm.loopLastWave
  if isFinalWave then
    { wm with activeWave := none, intermissionTimer := 0, endlessMode := false }
  else if skipping = true ∧ wm.intermissionSeconds ≤ 0 then beginNextWave wm
  else { wm with intermissionTimer := wm.intermissionSeconds }

/-- `WaveManager.update(dtSeconds)`. -/
def WaveManager.update (ops : FloatOps) (rolls : ℕ → ℚ) (fuel : ℕ)
    (wm : WaveManager) (dtSeconds : ℚ) (cur : ℕ) : WaveManager × ℕ :=
  match wm.activeWave with
  | none => (wm, cur)
  | some ctx0 =>
    if wm.intermissionTimer > 0 then
      let t := wm.intermissionTimer - dtSeconds
      let wm1 := { wm with intermissionTimer := t }
      if t ≤ 0 then (beginNextWave wm1, cur) else (wm1, cur)
    else
      let ctx1 := { ctx0 with
        elapsed := ctx0.elapsed + dtSeconds
        budget := ctx0.budget + ctx0.wave.budgetPerSecond * dtSeconds }
      let r1 := processEvents ops rolls fuel wm.sc ctx1 cur
      let r2 := processContinuousSpawns ops rolls fuel r1.1 r1.2.1 r1.2.2
      let wm2 := { wm with sc := r2.1, activeWave := some r2.2.1 }
      if r2.2.1.elapsed ≥ r2.2.1.wave.durationSeconds then
        (finishWave wm2 r2.2.1 false, r2.2.2)
      else (wm2, r2.2.2)

/-- Unfolding equation of the continuous-spawn loop at a successor counter. -/
theorem continuousLoop_succ (ops : FloatOps) (rolls : ℕ → ℚ) (fuel : ℕ)
    (cheapest : ℚ) (n : ℕ) (sc : SpawnController) (ctx : ActiveWaveContext)
    (cur : ℕ) :
    continuousLoop ops rolls fuel cheapest (n + 1) sc ctx cur =
      (if ctx.budget ≥ cheapest then
        match pickFromMix rolls ctx.wave.continuousSpawnMix cur with
        | (none, cur') => (sc, ctx, cur')
        | (some enemyType, cur') =>
          match costsGet ctx.costs enemyType with
          | none => continuousLoop ops rolls fuel cheapest n sc ctx cur'
          | some cost =>
            let res := spawnEnemyType ops rolls fuel sc enemyType 1 cur'
            if res.1 > 0 then
              continuousLoop ops rolls fuel cheapest n res.2.1
                { ctx with budget := ctx.budget - cost } res.2.2
            else (res.2.1, ctx, res.2.2)
      else (sc, ctx, cur)) := rfl

theorem processEvents_nil (ops : FloatOps) (rolls : ℕ → ℚ) (fuel : ℕ)
    (sc : SpawnController) (ctx : ActiveWaveContext) (cur : ℕ)
    (h : ctx.wave.timedEvents = []) :
    processEvents ops rolls fuel sc ctx cur = (sc, ctx, cur) := by
  unfold processEvents
  rw [h]
  rfl

/-- Budget invariant of the continuous-spawn loop: when every cost in the
table is at most `M`, one iteration can overdraw the budget by at most
`M - cheapest`. -/
theorem continuousLoop_bound (ops : FloatOps) (rolls : ℕ → ℚ) (fuel : ℕ)
    (cheapest M : ℚ) :
    ∀ (n : ℕ) (sc : SpawnController) (ctx : ActiveWaveContext) (cur : ℕ),
      (∀ k cost, costsGet ctx.costs k = some cost → cost ≤ M) →
      Min.min ctx.budget (cheapest - M) ≤
        (continuousLoop ops rolls fuel cheapest n sc ctx cur).2.1.budget := by
  intro n
  induction n with
  | zero =>
    intro sc ctx cur _
    exact min_le_left _ _
  | succ n ih =>
    intro sc ctx cur hM
    unfold continuousLoop
    split
    case isFalse h => exact min_le_left _ _
    case isTrue hb =>
      cases hp : pickFromMix rolls ctx.wave.continuousSpawnMix cur with
      | mk o cur' =>
        cases o with
        | none => exact min_le_left _ _
        | some ty =>
          dsimp only
          cases hc : costsGet ctx.costs ty with
          | none => exact ih sc ctx cur' hM
          | some cost =>
            dsimp only
            split
            case isTrue hres =>
              have hcost : cost ≤ M := hM ty cost hc
              refine le_trans ?_ (ih (spawnEnemyType ops rolls fuel sc ty 1 cur').2.1
                { ctx with budget := ctx.budget - cost }
                (spawnEnemyType ops rolls fuel sc ty 1 cur').2.2 hM)
              refine le_min ?_ (min_le_right _ _)
              have h1 : Min.min ctx.budget (cheapest - M) ≤ cheapest - M :=
                min_le_right _ _
              have h2 : cheapest - M ≤ ctx.budget - cost := by
                have : cheapest ≤ ctx.budget := hb
                linarith
              exact le_trans h1 h2
            case isFalse hres =>
              exact min_le_left _ _

/-- The per-wave enemy registry entry used in the C2 concrete run. -/
def c2BType : EnemyTypeConfig :=
  { type := "b", baseSize := 1, sizeVariance := 0, spawnWeight := 1
    baseStats := { health := 10, damage := 5, speed := 1 }, xpReward := none }

def c2Sc : SpawnController := { c7Sc with registry := [c2BType] }

/-- Cheap type "a" costs 1, expensive type "b" costs 5; the continuous mix
only ever picks "b". -/
def c2Wave : WaveDefinition :=
  { durationSeconds := 100, budgetPerSecond := 2
    enemyCosts := [("a", 1), ("b", 5)]
    continuousSpawnMix := [("b", 1)], timedEvents := [] }

def c2Ctx : ActiveWaveContext :=
  { wave := c2Wave, waveIndex := 0, elapsed := 0, budget := 0
    triggeredEvents := [], costs := [("a", 1), ("b", 5)] }

def c2Wm : WaveManager :=
  { sc := c2Sc, waves := [c2Wave], baseEnemyCosts := []
    intermissionSeconds := 4, clearEnemiesOnWaveStart := false
    loopLastWave := true, activeWave := some c2Ctx, intermissionTimer := 0
    endlessMode := true }

/-- C2: one `WaveManager.update` step can leave the accrued budget negative:
with costs a↦1, b↦5 and a mix that always picks b, a 2-point accrual passes
the cheapest-cost guard (1) and then has the chosen type's cost 5 subtracted
unguarded, leaving −3 after a single spawn; in general, when every cost is
at most `M`, the final budget is at least `min budget (cheapest − M)` (one
over-spend per step), and once the budget is below the cheapest cost the
continuous-spawn loop performs no spawn at all. -/
theorem wave_budget_overspend (ops : FloatOps) (rolls : ℕ → ℚ) (fuel : ℕ) :
    ((WaveManager.update c6Ops c7Rolls 1 c2Wm 1 0).1.activeWave.map
        (fun c => c.budget) = some (-3) ∧
     (WaveManager.update c6Ops c7Rolls 1 c2Wm 1 0).1.sc.em.store.length =
       c2Wm.sc.em.store.length + 1) ∧
    (∀ (sc : SpawnController) (ctx : ActiveWaveContext) (cur : ℕ) (c M : ℚ),
      getCheapestEnemyCost ctx.costs = some c →
      (∀ k cost, costsGet ctx.costs k = some cost → cost ≤ M) →
      Min.min ctx.budget (c - M) ≤
        (processContinuousSpawns ops rolls fuel sc ctx cur).2.1.budget) ∧
    (∀ (sc : SpawnController) (ctx : ActiveWaveContext) (cur : ℕ) (c : ℚ),
      getCheapestEnemyCost ctx.costs = some c → ctx.budget < c →
      processContinuousSpawns ops rolls fuel sc ctx cur = (sc, ctx, cur)) := by
  refine ⟨?_, ?_, ?_⟩
  · unfold WaveManager.update
    rw [show c2Wm.activeWave = some c2Ctx from rfl]
    dsimp only
    rw [if_neg (show ¬ c2Wm.intermissionTimer > 0 from by norm_num [c2Wm])]
    rw [processEvents_nil c6Ops c7Rolls 1 _ _ _ rfl]
    dsimp only
    unfold processContinuousSpawns
    rw [show getCheapestEnemyCost c2Ctx.costs = some 1 from by
      norm_num [getCheapestEnemyCost, cheapestAux, c2Ctx]]
    dsimp only
    rw [if_neg (show ¬ (1 : ℚ) ≤ 0 from by norm_num)]
    rw [show (64 : ℕ) = 63 + 1 from rfl, continuousLoop_succ]
    dsimp only
    rw [if_pos (show c2Ctx.budget + c2Ctx.wave.budgetPerSecond * 1 ≥ 1 from by
      norm_num [c2Ctx, c2Wave])]
    rw [show pickFromMix c7Rolls c2Ctx.wave.continuousSpawnMix 0 = (some "b", 1) from by
      norm_num [pickFromMix, pickScanLoop, c2Ctx, c2Wave, c7Rolls]]
    dsimp only
    rw [show costsGet c2Ctx.costs "b" = some 5 from rfl]
    dsimp only
    rw [show (spawnEnemyType c6Ops c7Rolls 1 c2Wm.sc "b" 1 1).1 = 1 from rfl]
    rw [if_pos (show (1 : ℤ) > 0 from by norm_num)]
    rw [show (63 : ℕ) = 62 + 1 from rfl, continuousLoop_succ]
    dsimp only
    rw [if_neg (show ¬ c2Ctx.budget + c2Ctx.wave.budgetPerSecond * 1 - 5 ≥ 1 from by
      norm_num [c2Ctx, c2Wave])]
    dsimp only
    rw [if_neg (show ¬ c2Ctx.elapsed + 1 ≥ c2Ctx.wave.durationSeconds from by
      norm_num [c2Ctx, c2Wave])]
    constructor
    · dsimp only
      norm_num [c2Ctx, c2Wave]
    · rfl
  · intro sc ctx cur c M hch hM
    unfold processContinuousSpawns
    rw [hch]
    dsimp only
    split
    · exact min_le_left _ _
    · exact continuousLoop_bound ops rolls fuel c M 64 sc ctx cur hM
  · intro sc ctx cur c hch hlt
    unfold processContinuousSpawns
    rw [hch]
    dsimp only
    split
    · rfl
    · rw [show (64 : ℕ) = 63 + 1 from rfl, continuousLoop_succ,
        if_neg (not_le.mpr hlt)]

theorem wave_budget_overspend_witness :
    ((WaveManager.update c6Ops c7Rolls 1 c2Wm 1 0).1.activeWave.map
        (fun c => c.budget) = some (-3)) ∧
    (Min.min c2Ctx.budget ((1 : ℚ) - 5) ≤
      (processContinuousSpawns c6Ops c7Rolls 1 c2Sc c2Ctx 0).2.1.budget) ∧
    (processContinuousSpawns c6Ops c7Rolls 1 c2Sc { c2Ctx with budget := 1/2 } 0 =
      (c2Sc, { c2Ctx with budget := 1/2 }, 0)) := by
  obtain ⟨hA, hB, hC⟩ := wave_budget_overspend c6Ops c7Rolls 1
  have hch : getCheapestEnemyCost c2Ctx.costs = some 1 := by
    norm_num [getCheapestEnemyCost, cheapestAux, c2Ctx]
  refine ⟨hA.1, ?_, ?_⟩
  · refine hB c2Sc c2Ctx 0 1 5 hch ?_
    intro k cost h
    unfold costsGet at h
    rw [show c2Ctx.costs = [("a", (1 : ℚ)), ("b", (5 : ℚ))] from rfl] at h
    obtain ⟨p, hp, hpv⟩ := Option.map_eq_some'.mp h
    have hmem : p = ("a", (1 : ℚ)) ∨ p = ("b", (5 : ℚ)) := by
      simpa using List.mem_of_find?_eq_some hp
    rcases hmem with rfl | rfl <;> (rw [← hpv]; try norm_num)
  · exact hC c2Sc { c2Ctx with budget := 1/2 } 0 1 hch (by norm_num [c2Ctx])

/-! ## ProceduralMapGenerator (`world/MapGenerator.ts` section of `part_009`)

`Math.random()` appears only in the unseeded path and is modelled by the
`ambient` parameter; `Math.cos` / `Math.sin` / `Math.sqrt` come from the
`FloatOps` record.  The unbounded blob-scatter `for` loop and the Bresenham
`while` loop carry explicit fuel (the Bresenham fuel `|dx|+|dy|+1` is exactly
the source loop's step count).  Division by zero on a 0-area map yields `0`
where JS produces `NaN`; no theorem below inspects a ratio of a 0-area
map. -/

def TileMap.setDecorOverlay (tm : TileMap) (x y : ℤ) (decor : ℕ) : TileMap :=
  if tm.inBounds x y then
    let idx := tm.index x y
    let m := tm.mask.getD idx 0
    let m' := encodeTile (decodeBase m) (decodeFlags m) decor (decodeEffect m)
      (decodeState m)
    { tm with mask := tm.mask.set idx m' }
  else tm

/-- The integers `lo, lo+1, …, hi` (empty when `hi < lo`). -/
def intRange (lo hi : ℤ) : List ℤ :=
  (List.range (hi + 1 - lo).toNat).map (fun k => lo + (k : ℤ))

structure SeededRng where
  state : ℕ
deriving DecidableEq, Repr

/-- Xorshift32 on a 32-bit word. -/
def xorshift32 (x0 : ℕ) : ℕ :=
  let x1 := (x0 ^^^ (x0 <<< 13)) % 2 ^ 32
  let x2 := x1 ^^^ (x1 >>> 17)
  (x2 ^^^ (x2 <<< 5)) % 2 ^ 32

def SeededRng.create (seed : ℕ) : SeededRng :=
  let s := seed % 2 ^ 32
  ⟨if s = 0 then 1 else s⟩

def SeededRng.next (r : SeededRng) : ℚ × SeededRng :=
  let s := xorshift32 r.state
  ((s : ℚ) / 4294967295, ⟨s⟩)

def SeededRng.int (r : SeededRng) (lo hi : ℤ) : ℤ × SeededRng :=
  let vr := r.next
  (⌊vr.1 * ((hi - lo + 1 : ℤ) : ℚ)⌋ + lo, vr.2)

def SeededRng.float (r : SeededRng) (lo hi : ℚ) : ℚ × SeededRng :=
  let vr := r.next
  (lo + (hi - lo) * vr.1, vr.2)

structure MapGenerationConfig where
  seed : Option ℕ
  obstacleDensity : ℚ
  blobCountMin : ℤ
  blobCountMax : ℤ
  blobRadiusMin : ℤ
  blobRadiusMax : ℤ
  blobEdgeJitter : ℚ
  safeZoneRadius : ℤ
  carveLoopCount : ℤ
  carveLoopRadius : ℚ
  carveThickness : ℤ
  requiredConnectedRatio : ℚ
  maxAttempts : ℕ
  spawn : ℤ × ℤ
  edgeJaggedThicknessMin : ℤ
  edgeJaggedThicknessMax : ℤ
  edgeJaggedStep : ℤ
deriving DecidableEq, Repr

structure MapObstacleBounds where
  x : ℤ
  y : ℤ
  w : ℤ
  h : ℤ
deriving DecidableEq, Repr

structure MapGenerationResult where
  seed : ℕ
  safeZoneRadius : ℤ
  spawn : ℤ × ℤ
  obstacleBounds : List MapObstacleBounds
  walkableTiles : List (ℤ × ℤ)
  obstacleTiles : List (ℤ × ℤ)
  spawnableTiles : List (ℤ × ℤ)
  collisionGrid : List ℕ
  reachableRatio : ℚ
  walkableRatio : ℚ
deriving DecidableEq, Repr

def clampInt (value lo hi : ℤ) : ℤ := Min.min hi (Max.max lo value)

def paintBase (tm : TileMap) : TileMap :=
  (List.range tm.height).foldl (fun tmY y =>
    (List.range tm.width).foldl (fun tmX x =>
      tmX.setTile (x : ℤ) (y : ℤ) BaseFloor) tmY) tm

def applyJaggedBorders (tm0 : TileMap) (rng0 : SeededRng)
    (cfg : MapGenerationConfig) : TileMap × SeededRng :=
  let minT := Max.max 1 cfg.edgeJaggedThicknessMin
  let maxT := Max.max minT cfg.edgeJaggedThicknessMax
  let step := Max.max 1 cfg.edgeJaggedStep
  let h := (tm0.height : ℤ)
  let w := (tm0.width : ℤ)
  let tr0 := rng0.int minT maxT
  let br0 := tr0.2.int minT maxT
  let xPass := (List.range tm0.width).foldl
    (fun (st : TileMap × SeededRng × ℤ × ℤ) x =>
    let d1 := st.2.1.int (-step) step
    let top' := clampInt (st.2.2.1 + d1.1) minT maxT
    let d2 := d1.2.int (-step) step
    let bottom' := clampInt (st.2.2.2 + d2.1) minT maxT
    let tm1 := (intRange 0 (top' - 1)).foldl
      (fun t y => t.setWallTile (x : ℤ) y 999 true) st.1
    let tm2 := (intRange (h - bottom') (h - 1)).foldl
      (fun t y => t.setWallTile (x : ℤ) y 999 true) tm1
    (tm2, d2.2, top', bottom')) (tm0, br0.2, tr0.1, br0.1)
  let lr0 := xPass.2.1.int minT maxT
  let rr0 := lr0.2.int minT maxT
  let yPass := (List.range tm0.height).foldl
    (fun (st : TileMap × SeededRng × ℤ × ℤ) y =>
    let d1 := st.2.1.int (-step) step
    let left' := clampInt (st.2.2.1 + d1.1) minT maxT
    let d2 := d1.2.int (-step) step
    let right' := clampInt (st.2.2.2 + d2.1) minT maxT
    let tm1 := (intRange 0 (left' - 1)).foldl
      (fun t x => t.setWallTile x (y : ℤ) 999 true) st.1
    let tm2 := (intRange (w - right') (w - 1)).foldl
      (fun t x => t.setWallTile x (y : ℤ) 999 true) tm1
    (tm2, d2.2, left', right')) (xPass.1, rr0.2, lr0.1, rr0.1)
  (yPass.1, yPass.2.1)

/-- `paintBlob`: the threshold roll is drawn only for cells inside the
radius (the `continue` comes first). -/
def paintBlob (ops : FloatOps) (tm0 : TileMap) (cx cy radius : ℤ) (jitter : ℚ)
    (rng0 : SeededRng) : ℤ × TileMap × SeededRng :=
  let r2 := radius * radius
  let minX := Max.max 0 (cx - radius - 1)
  let maxX := Min.min ((tm0.width : ℤ) - 1) (cx + radius + 1)
  let minY := Max.max 0 (cy - radius - 1)
  let maxY := Min.min ((tm0.height : ℤ) - 1) (cy + radius + 1)
  (intRange minY maxY).foldl (fun (stY : ℤ × TileMap × SeededRng) y =>
    (intRange minX maxX).foldl (fun (st : ℤ × TileMap × SeededRng) x =>
      let dx := x - cx
      let dy := y - cy
      let dist2 := dx * dx + dy * dy
      if dist2 > r2 then st
      else
        let dist := ops.sqrt ((dist2 : ℤ) : ℚ)
        let normalized := dist / ((radius : ℤ) : ℚ)
        let vr := st.2.2.next
        let threshold := 1 + (vr.1 - 1/2) * jitter
        if normalized ≤ threshold then
          let notWall := match st.2.1.getTile x y with
            | some snap => decide (snap.base ≠ BaseWall)
            | none => true
          if notWall then (st.1 + 1, st.2.1.setWallTile x y 3 false, vr.2)
          else (st.1, st.2.1, vr.2)
        else (st.1, st.2.1, vr.2)) stY) ((0 : ℤ), tm0, rng0)

def scatterBlobsLoop (ops : FloatOps) (cfg : MapGenerationConfig)
    (blobTargetCount : ℤ) (target85 : ℚ) :
    ℕ → ℤ → ℤ → TileMap → SeededRng → List MapObstacleBounds →
      TileMap × SeededRng × List MapObstacleBounds
  | 0, _, _, tm, rng, bounds => (tm, rng, bounds)
  | fuel + 1, i, painted, tm, rng, bounds =>
    if i < blobTargetCount ∨ (painted : ℚ) < target85 then
      let rr := rng.int cfg.blobRadiusMin cfg.blobRadiusMax
      let radius := rr.1
      let cxr := rr.2.int (radius + 2)
        (Max.max (radius + 2) ((tm.width : ℤ) - radius - 2))
      let cx := cxr.1
      let cyr := cxr.2.int (radius + 2)
        (Max.max (radius + 2) ((tm.height : ℤ) - radius - 2))
      let cy := cyr.1
      let res := paintBlob ops tm cx cy radius cfg.blobEdgeJitter cyr.2
      if res.1 > 0 then
        let b : MapObstacleBounds :=
          { x := Max.max 0 (cx - radius), y := Max.max 0 (cy - radius)
            w := Min.min ((tm.width : ℤ) - 1) (cx + radius) -
              Max.max 0 (cx - radius) + 1
            h := Min.min ((tm.height : ℤ) - 1) (cy + radius) -
              Max.max 0 (cy - radius) + 1 }
        scatterBlobsLoop ops cfg blobTargetCount target85 fuel (i + 1)
          (painted + res.1) res.2.1 res.2.2 (bounds ++ [b])
      else
        scatterBlobsLoop ops cfg blobTargetCount target85 fuel (i + 1)
          painted res.2.1 res.2.2 bounds
    else (tm, rng, bounds)

def scatterBlobs (ops : FloatOps) (fuel : ℕ) (tm : TileMap)
    (cfg : MapGenerationConfig) (rng0 : SeededRng)
    (bounds : List MapObstacleBounds) :
    TileMap × SeededRng × List MapObstacleBounds :=
  let totalTiles : ℕ := tm.width * tm.height
  let target : ℤ := ⌊(totalTiles : ℚ) * cfg.obstacleDensity⌋
  let btc := rng0.int cfg.blobCountMin cfg.blobCountMax
  scatterBlobsLoop ops cfg btc.1 ((target : ℚ) * (85/100)) fuel 0 0
    tm btc.2 bounds

def clearSafeZone (tm0 : TileMap) (cfg : MapGenerationConfig) : TileMap :=
  let sx := cfg.spawn.1
  let sy := cfg.spawn.2
  let r := cfg.safeZoneRadius
  let r2 := r * r
  (intRange (Max.max 0 (sy - r)) (Min.min ((tm0.height : ℤ) - 1) (sy + r))).foldl
    (fun tmY y =>
      (intRange (Max.max 0 (sx - r)) (Min.min ((tm0.width : ℤ) - 1) (sx + r))).foldl
        (fun tmX x =>
          if (x - sx) * (x - sx) + (y - sy) * (y - sy) ≤ r2 then
            tmX.setTile x y BaseFloor
          else tmX) tmY) tm0

def carveDisk (tm0 : TileMap) (cx cy radius : ℤ) : TileMap :=
  (intRange (cy - radius) (cy + radius)).foldl (fun tmY y =>
    (intRange (cx - radius) (cx + radius)).foldl (fun tmX x =>
      let dx := x - cx
      let dy := y - cy
      if dx * dx + dy * dy > radius * radius then tmX
      else if x < 0 ∨ y < 0 ∨ x ≥ (tm0.width : ℤ) ∨ y ≥ (tm0.height : ℤ) then tmX
      else tmX.setTile x y BaseFloor) tmY) tm0

def carveLineLoop (thickness x1 y1 sx sy dx dy : ℤ) :
    ℕ → ℤ → ℤ → ℤ → TileMap → TileMap
  | 0, _, _, _, tm => tm
  | fuel + 1, x, y, err, tm =>
    let tm1 := carveDisk tm x y thickness
    if x = x1 ∧ y = y1 then tm1
    else
      let e2 := err * 2
      let x' := if e2 > -dy then x + sx else x
      let err1 := if e2 > -dy then err - dy else err
      let y' := if e2 < dx then y + sy else y
      let err2 := if e2 < dx then err1 + dx else err1
      carveLineLoop thickness x1 y1 sx sy dx dy fuel x' y' err2 tm1

def carveLine (tm : TileMap) (x0 y0 x1 y1 thickness : ℤ) : TileMap :=
  let dx : ℤ := (x1 - x0).natAbs
  let dy : ℤ := (y1 - y0).natAbs
  let sx : ℤ := if x0 < x1 then 1 else -1
  let sy : ℤ := if y0 < y1 then 1 else -1
  carveLineLoop thickness x1 y1 sx sy dx dy
    ((x1 - x0).natAbs + (y1 - y0).natAbs + 1) x0 y0 (dx - dy) tm

def carveLoopRun (ops : FloatOps) (tm0 : TileMap) (center : ℤ × ℤ) (radius : ℚ)
    (thickness : ℤ) (rng0 : SeededRng) : TileMap × SeededRng :=
  let steps : ℤ := Max.max 24 ⌊radius * (75/100)⌋
  let prevX0 : ℤ := ⌊(center.1 : ℚ) + ops.cos 0 * radius⌋
  let prevY0 : ℤ := ⌊(center.2 : ℚ) + ops.sin 0 * radius⌋
  let res := (intRange 1 steps).foldl
    (fun (st : ℤ × ℤ × TileMap × SeededRng) i =>
    let t := ((i : ℚ) / ((steps : ℤ) : ℚ)) * ops.pi * 2
    let jr := st.2.2.2.float (-(radius * (8/100))) (radius * (8/100))
    let r := radius + jr.1
    let x : ℤ := ⌊(center.1 : ℚ) + ops.cos t * r⌋
    let y : ℤ := ⌊(center.2 : ℚ) + ops.sin t * r⌋
    let tm1 := carveLine st.2.2.1 st.1 st.2.1 x y thickness
    (x, y, tm1, jr.2)) (prevX0, prevY0, tm0, rng0)
  (res.2.2.1, res.2.2.2)

def carveLoops (ops : FloatOps) (tm0 : TileMap) (cfg : MapGenerationConfig)
    (rng0 : SeededRng) : TileMap × SeededRng :=
  (intRange 0 (cfg.carveLoopCount - 1)).foldl
    (fun (st : TileMap × SeededRng) i =>
    let jr := st.2.float (-(cfg.carveLoopRadius * (15/100)))
      (cfg.carveLoopRadius * (15/100))
    let radius := Max.max 4 (cfg.carveLoopRadius + jr.1 + (i : ℚ) * 2)
    carveLoopRun ops st.1 cfg.spawn radius cfg.carveThickness jr.2) (tm0, rng0)

def reinforceOuterWall (tm0 : TileMap) : TileMap :=
  let w := (tm0.width : ℤ)
  let h := (tm0.height : ℤ)
  let tm1 := (List.range tm0.width).foldl (fun t x =>
    ((t.setWallTile (x : ℤ) 0 999 true).setWallTile (x : ℤ) (h - 1) 999 true)) tm0
  (List.range tm0.height).foldl (fun t y =>
    ((t.setWallTile 0 (y : ℤ) 999 true).setWallTile (w - 1) (y : ℤ) 999 true)) tm1

/-- The BFS of `countReachable`; each iteration shifts one queue entry, and
every enqueued cell is first marked visited, so `width*height + 1` fuel is
never exhausted. -/
def bfsLoop (tm : TileMap) : ℕ → List (ℤ × ℤ) → List ℕ → ℕ → ℕ
  | 0, _, _, count => count
  | fuel + 1, queue, visited, count =>
    match queue with
    | [] => count
    | c :: rest =>
      let neighbors := [(c.1 + 1, c.2), (c.1 - 1, c.2), (c.1, c.2 + 1),
        (c.1, c.2 - 1)]
      let st := neighbors.foldl (fun (st : List (ℤ × ℤ) × List ℕ) n =>
        if n.1 < 0 ∨ n.2 < 0 ∨ n.1 ≥ (tm.width : ℤ) ∨ n.2 ≥ (tm.height : ℤ) then st
        else
          let idx := (n.2 * (tm.width : ℤ) + n.1).toNat
          if st.2.getD idx 0 ≠ 0 then st
          else if tm.isWalkable n.1 n.2 = false then st
          else (st.1 ++ [n], st.2.set idx 1)) (rest, visited)
      bfsLoop tm fuel st.1 st.2 (count + 1)

def countReachable (tm : TileMap) (spawn : ℤ × ℤ) : ℕ :=
  if tm.isWalkable spawn.1 spawn.2 = false then 0
  else
    let visited := (List.replicate (tm.width * tm.height) 0).set
      ((spawn.2 * (tm.width : ℤ) + spawn.1).toNat) 1
    bfsLoop tm (tm.width * tm.height + 1) [spawn] visited 0

def countWalkable (tm : TileMap) : ℕ :=
  (List.range tm.height).foldl (fun c y =>
    (List.range tm.width).foldl (fun c2 x =>
      if tm.isWalkable (x : ℤ) (y : ℤ) then c2 + 1 else c2) c) 0

def hasClearNeighbors (tm : TileMap) (x y : ℤ) : Bool :=
  [(x + 1, y), (x - 1, y), (x, y + 1), (x, y - 1)].all (fun n =>
    decide (0 ≤ n.1) && decide (0 ≤ n.2) && decide (n.1 < (tm.width : ℤ)) &&
      decide (n.2 < (tm.height : ℤ)) && tm.isWalkable n.1 n.2)

structure MapMetadata where
  walkableTiles : List (ℤ × ℤ)
  obstacleTiles : List (ℤ × ℤ)
  spawnableTiles : List (ℤ × ℤ)
  collisionGrid : List ℕ
deriving DecidableEq, Repr

def extractMetadata (tm : TileMap) (cfg : MapGenerationConfig) : MapMetadata :=
  let safeR2 := cfg.safeZoneRadius * cfg.safeZoneRadius
  let spawn := cfg.spawn
  let st := (List.range tm.height).foldl (fun stY y =>
    (List.range tm.width).foldl (fun st2 x =>
      let (wk, ob, sp, grid) := st2
      let xi : ℤ := x
      let yi : ℤ := y
      let idx := y * tm.width + x
      let walkable := tm.isWalkable xi yi
      let grid' := grid.set idx (if walkable then 0 else 1)
      if walkable then
        let far := decide ((xi - spawn.1) * (xi - spawn.1) +
          (yi - spawn.2) * (yi - spawn.2) > safeR2 + 9)
        if far && hasClearNeighbors tm xi yi then
          (wk ++ [(xi, yi)], ob, sp ++ [(xi, yi)], grid')
        else (wk ++ [(xi, yi)], ob, sp, grid')
      else (wk, ob ++ [(xi, yi)], sp, grid')) stY)
    (([], [], [], List.replicate (tm.width * tm.height) 0) :
      List (ℤ × ℤ) × List (ℤ × ℤ) × List (ℤ × ℤ) × List ℕ)
  { walkableTiles := st.1, obstacleTiles := st.2.1, spawnableTiles := st.2.2.1
    collisionGrid := st.2.2.2 }

def generateAttempts (ops : FloatOps) (cfg : MapGenerationConfig)
    (attemptSeed : ℕ) (blobFuel : ℕ) :
    ℕ → ℕ → TileMap → Option MapGenerationResult × TileMap
  | 0, _, tm => (none, tm)
  | n + 1, attempt, tm =>
    let seed := (attemptSeed + attempt * 1013904223) % 2 ^ 32
    let rng0 := SeededRng.create seed
    let tm1 := paintBase tm
    let jag := applyJaggedBorders tm1 rng0 cfg
    let sb := scatterBlobs ops blobFuel jag.1 cfg jag.2 []
    let tm4 := clearSafeZone sb.1 cfg
    let cl := carveLoops ops tm4 cfg sb.2.1
    let tm6 := reinforceOuterWall cl.1
    let reachable := countReachable tm6 cfg.spawn
    let walkableCount := countWalkable tm6
    let totalTiles := tm6.width * tm6.height
    let reachableRatio : ℚ :=
      if totalTiles > 0 then (reachable : ℚ) / (totalTiles : ℚ) else 0
    let walkableRatio : ℚ :=
      if totalTiles > 0 then (walkableCount : ℚ) / (totalTiles : ℚ) else 0
    if reachableRatio ≥ cfg.requiredConnectedRatio then
      let md := extractMetadata tm6 cfg
      (some { seed := seed, safeZoneRadius := cfg.safeZoneRadius
              spawn := cfg.spawn, obstacleBounds := sb.2.2
              walkableTiles := md.walkableTiles
              obstacleTiles := md.obstacleTiles
              spawnableTiles := md.spawnableTiles
              collisionGrid := md.collisionGrid
              reachableRatio := reachableRatio
              walkableRatio := walkableRatio }, tm6)
    else generateAttempts ops cfg attemptSeed blobFuel n (attempt + 1) tm6

/-- The fallback path: base seed, no jagged borders, no outer-wall pass. -/
def generateFallback (ops : FloatOps) (cfg : MapGenerationConfig)
    (attemptSeed : ℕ) (blobFuel : ℕ) (tm : TileMap) :
    MapGenerationResult × TileMap :=
  let seed := attemptSeed % 2 ^ 32
  let rng0 := SeededRng.create seed
  let tm1 := paintBase tm
  let sb := scatterBlobs ops blobFuel tm1 cfg rng0 []
  let tm3 := clearSafeZone sb.1 cfg
  let cl := carveLoops ops tm3 cfg sb.2.1
  let md := extractMetadata cl.1 cfg
  ({ seed := seed, safeZoneRadius := cfg.safeZoneRadius, spawn := cfg.spawn
     obstacleBounds := sb.2.2, walkableTiles := md.walkableTiles
     obstacleTiles := md.obstacleTiles, spawnableTiles := md.spawnableTiles
     collisionGrid := md.collisionGrid
     reachableRatio :=
       (countReachable cl.1 cfg.spawn : ℚ) / ((cl.1.width * cl.1.height : ℕ) : ℚ)
     walkableRatio :=
       (countWalkable cl.1 : ℚ) / ((cl.1.width * cl.1.height : ℕ) : ℚ) }, cl.1)

/-- `generate(tileMap, config)`: the `ambient` parameter stands for the
`Math.random()` draw used only when no seed is configured. -/
def generate (ops : FloatOps) (blobFuel : ℕ) (tm : TileMap)
    (cfg : MapGenerationConfig) (ambient : ℚ) : MapGenerationResult × TileMap :=
  let attemptSeed := match cfg.seed with
    | some s => s
    | none => (⌊ambient * 2147483647⌋).toNat
  match generateAttempts ops cfg attemptSeed blobFuel cfg.maxAttempts 0 tm with
  | (some res, tm') => (res, tm')
  | (none, tm') => generateFallback ops cfg attemptSeed blobFuel tm'

/-- The decor nibble of the mask survives every tile write of the generator
pipeline (`setTile` and `setWallTile` re-encode the previous decor). -/
def decorEq (tm tm' : TileMap) : Prop :=
  tm'.width = tm.width ∧ tm'.height = tm.height ∧
  ∀ idx, decodeDecor (tm'.mask.getD idx 0) = decodeDecor (tm.mask.getD idx 0)

theorem decorEq_refl (tm : TileMap) : decorEq tm tm := ⟨rfl, rfl, fun _ => rfl⟩

theorem decorEq_trans {a b c : TileMap} (h1 : decorEq a b) (h2 : decorEq b c) :
    decorEq a c :=
  ⟨h2.1.trans h1.1, h2.2.1.trans h1.2.1, fun idx => (h2.2.2 idx).trans (h1.2.2 idx)⟩

theorem maskDecor_testBit_true (j : ℕ) (hj : j < 4) :
    (0x0f0000 : ℕ).testBit (16 + j) = true := by
  rw [show (0x0f0000 : ℕ) = 15 <<< 16 from rfl, Nat.testBit_shiftLeft]
  simp only [show 16 ≤ 16 + j from by omega, decide_True, Bool.true_and,
    show 16 + j - 16 = j from by omega]
  interval_cases j <;> decide

theorem maskDecor_testBit_false (i : ℕ) (hi : 4 ≤ i) :
    (0x0f0000 : ℕ).testBit (16 + i) = false := by
  apply Nat.testBit_lt_two_pow
  calc (0x0f0000 : ℕ) < 2 ^ 20 := by norm_num
    _ ≤ 2 ^ (16 + i) := Nat.pow_le_pow_right (by norm_num) (by omega)

theorem encodeTile_testBit_decor (b f d e s j : ℕ) (hj : j < 4) :
    (encodeTile b f d e s).testBit (16 + j) = d.testBit j := by
  unfold encodeTile MASK_BASE MASK_FLAGS MASK_DECOR MASK_EFFECT MASK_STATE
  rw [Nat.testBit_mod_two_pow]
  have hb : (0xff : ℕ).testBit (16 + j) = false := by
    apply Nat.testBit_lt_two_pow
    calc (0xff : ℕ) < 2 ^ 16 := by norm_num
      _ ≤ 2 ^ (16 + j) := Nat.pow_le_pow_right (by norm_num) (by omega)
  have hf : (0xff00 : ℕ).testBit (16 + j) = false := by
    apply Nat.testBit_lt_two_pow
    calc (0xff00 : ℕ) < 2 ^ 16 := by norm_num
      _ ≤ 2 ^ (16 + j) := Nat.pow_le_pow_right (by norm_num) (by omega)
  have hd2 : (0x0f0000 : ℕ).testBit (16 + j) = true := maskDecor_testBit_true j hj
  have he : (0xf00000 : ℕ).testBit (16 + j) = false := by
    rw [show (0xf00000 : ℕ) = 15 <<< 20 from rfl, Nat.testBit_shiftLeft]
    simp [show ¬ 20 ≤ 16 + j from by omega]
  have hs : (0x0f000000 : ℕ).testBit (16 + j) = false := by
    rw [show (0x0f000000 : ℕ) = 15 <<< 24 from rfl, Nat.testBit_shiftLeft]
    simp [show ¬ 24 ≤ 16 + j from by omega]
  have hdshift : (d <<< 16).testBit (16 + j) = d.testBit j := by
    rw [Nat.testBit_shiftLeft]
    simp [show 16 ≤ 16 + j from by omega, show 16 + j - 16 = j from by omega]
  simp [Nat.testBit_lor, Nat.testBit_land, hb, hf, hd2, he, hs, hdshift,
    show 16 + j < 32 from by omega]

theorem decodeDecor_lt (m : ℕ) : decodeDecor m < 16 := by
  unfold decodeDecor MASK_DECOR
  have h1 : m &&& 0x0f0000 ≤ 0x0f0000 := Nat.and_le_right
  have h2 : (m &&& 0x0f0000) >>> 16 ≤ (0x0f0000 : ℕ) >>> 16 := by
    rw [Nat.shiftRight_eq_div_pow, Nat.shiftRight_eq_div_pow]
    exact Nat.div_le_div_right h1
  have h3 : (0x0f0000 : ℕ) >>> 16 = 15 := rfl
  omega

theorem decodeDecor_encodeTile (b f d e s : ℕ) (hd : d < 16) :
    decodeDecor (encodeTile b f d e s) = d := by
  have hmain : ∀ i, (decodeDecor (encodeTile b f d e s)).testBit i = d.testBit i := by
    intro i
    unfold decodeDecor MASK_DECOR
    rw [Nat.testBit_shiftRight, Nat.testBit_land]
    by_cases hi : i < 4
    · rw [encodeTile_testBit_decor b f d e s i hi,
        show (0x0f0000 : ℕ).testBit (16 + i) = true from maskDecor_testBit_true i hi]
      simp
    · rw [show (0x0f0000 : ℕ).testBit (16 + i) = false from
        maskDecor_testBit_false i (by omega)]
      have hdi : d.testBit i = false := by
        apply Nat.testBit_lt_two_pow
        calc d < 16 := hd
          _ ≤ 2 ^ i := by
            calc (16 : ℕ) = 2 ^ 4 := by norm_num
              _ ≤ 2 ^ i := Nat.pow_le_pow_right (by norm_num) (by omega)
      simp [hdi]
  exact Nat.eq_of_testBit_eq hmain

theorem getD_set_ne (l : List ℕ) (i j : ℕ) (a d : ℕ) (h : i ≠ j) :
    (l.set i a).getD j d = l.getD j d := by
  rw [List.getD_eq_getElem?_getD, List.getElem?_set_ne h,
    ← List.getD_eq_getElem?_getD]

/-- Writing a mask word with the same decor nibble preserves `decorEq`. -/
theorem decorEq_mask_set (tm : TileMap) (idx : ℕ) (v : ℕ)
    (hv : decodeDecor v = decodeDecor (tm.mask.getD idx 0))
    (tm' : TileMap) (hm : tm'.mask = tm.mask.set idx v)
    (hw : tm'.width = tm.width) (hh : tm'.height = tm.height) :
    decorEq tm tm' := by
  refine ⟨hw, hh, fun j => ?_⟩
  rw [hm]
  by_cases hj : j = idx
  · subst hj
    by_cases hlen : j < tm.mask.length
    · rw [getD_set_self_of_lt _ _ _ _ hlen, hv]
    · rw [List.set_eq_of_length_le (by omega)]
  · rw [getD_set_ne _ _ _ _ _ (fun he => hj he.symm)]

theorem setTile_decorEq (tm : TileMap) (x y : ℤ) (base : ℕ) :
    decorEq tm (tm.setTile x y base) := by
  unfold TileMap.setTile
  split
  case isTrue h =>
    dsimp only
    have hv : decodeDecor (encodeTile base (defaultFlagsForBase base)
        (decodeDecor (tm.mask.getD (tm.index x y) 0))
        (decodeEffect (tm.mask.getD (tm.index x y) 0))
        (decodeState (tm.mask.getD (tm.index x y) 0))) =
        decodeDecor (tm.mask.getD (tm.index x y) 0) :=
      decodeDecor_encodeTile _ _ _ _ _ (decodeDecor_lt _)
    split
    · exact decorEq_mask_set tm (tm.index x y) _ hv _ rfl rfl rfl
    · exact decorEq_mask_set tm (tm.index x y) _ hv _ rfl rfl rfl
  case isFalse => exact decorEq_refl tm

theorem setWallTile_decorEq (tm : TileMap) (x y : ℤ) (hitPoints : ℤ)
    (ind : Bool) : decorEq tm (tm.setWallTile x y hitPoints ind) := by
  unfold TileMap.setWallTile
  split
  case isTrue h =>
    dsimp only
    have hv : decodeDecor (encodeTile BaseWall (FlagBlocked ||| FlagLosBlock)
        (decodeDecor (tm.mask.getD (tm.index x y) 0))
        (decodeEffect (tm.mask.getD (tm.index x y) 0))
        (decodeState (tm.mask.getD (tm.index x y) 0))) =
        decodeDecor (tm.mask.getD (tm.index x y) 0) :=
      decodeDecor_encodeTile _ _ _ _ _ (decodeDecor_lt _)
    split
    · exact decorEq_mask_set tm (tm.index x y) _ hv _ rfl rfl rfl
    · exact decorEq_mask_set tm (tm.index x y) _ hv _ rfl rfl rfl
  case isFalse => exact decorEq_refl tm

theorem foldl_decorEq {α : Type} (f : TileMap → α → TileMap) (l : List α)
    (hf : ∀ t a, decorEq t (f t a)) :
    ∀ tm : TileMap, decorEq tm (l.foldl f tm) := by
  induction l with
  | nil => exact fun tm => decorEq_refl tm
  | cons a rest ih => exact fun tm => decorEq_trans (hf tm a) (ih (f tm a))

theorem foldl_decorEq_state {α β : Type} (proj : β → TileMap) (f : β → α → β)
    (l : List α) (hf : ∀ st a, decorEq (proj st) (proj (f st a))) :
    ∀ b : β, decorEq (proj b) (proj (l.foldl f b)) := by
  induction l with
  | nil => exact fun b => decorEq_refl _
  | cons a rest ih => exact fun b => decorEq_trans (hf b a) (ih (f b a))

theorem paintBase_decorEq (tm : TileMap) : decorEq tm (paintBase tm) := by
  unfold paintBase
  exact foldl_decorEq _ _ (fun t y =>
    foldl_decorEq _ _ (fun t' x => setTile_decorEq t' (x : ℤ) (y : ℤ) BaseFloor) t) tm

theorem applyJaggedBorders_decorEq (tm : TileMap) (rng : SeededRng)
    (cfg : MapGenerationConfig) :
    decorEq tm (applyJaggedBorders tm rng cfg).1 := by
  unfold applyJaggedBorders
  dsimp only
  refine decorEq_trans ?_
    (foldl_decorEq_state (fun st : TileMap × SeededRng × ℤ × ℤ => st.1) _ _ ?hy _)
  case hy =>
    intro st a
    dsimp only
    refine decorEq_trans ?_
      (foldl_decorEq _ _ (fun t' x => setWallTile_decorEq t' x _ 999 true) _)
    exact foldl_decorEq _ _ (fun t' x => setWallTile_decorEq t' x _ 999 true) st.1
  refine decorEq_trans ?_
    (foldl_decorEq_state (fun st : TileMap × SeededRng × ℤ × ℤ => st.1) _ _ ?hx _)
  case hx =>
    intro st a
    dsimp only
    refine decorEq_trans ?_
      (foldl_decorEq _ _ (fun t' y => setWallTile_decorEq t' _ y 999 true) _)
    exact foldl_decorEq _ _ (fun t' y => setWallTile_decorEq t' _ y 999 true) st.1
  exact decorEq_refl tm

theorem paintBlob_decorEq (ops : FloatOps) (tm : TileMap) (cx cy radius : ℤ)
    (jitter : ℚ) (rng : SeededRng) :
    decorEq tm (paintBlob ops tm cx cy radius jitter rng).2.1 := by
  unfold paintBlob
  dsimp only
  refine decorEq_trans ?_
    (foldl_decorEq_state (fun st : ℤ × TileMap × SeededRng => st.2.1) _ _ ?hy _)
  case hy =>
    intro stY y
    refine decorEq_trans (decorEq_refl stY.2.1)
      (foldl_decorEq_state (fun st : ℤ × TileMap × SeededRng => st.2.1) _ _ ?hx stY)
    case hx =>
      intro st x
      dsimp only
      split
      · exact decorEq_refl st.2.1
      · split
        · split
          · exact setWallTile_decorEq st.2.1 x y 3 false
          · exact decorEq_refl st.2.1
        · exact decorEq_refl st.2.1
  exact decorEq_refl tm

theorem scatterBlobsLoop_decorEq (ops : FloatOps) (cfg : MapGenerationConfig)
    (btc : ℤ) (t85 : ℚ) :
    ∀ (fuel : ℕ) (i painted : ℤ) (tm : TileMap) (rng : SeededRng)
      (bounds : List MapObstacleBounds),
      decorEq tm (scatterBlobsLoop ops cfg btc t85 fuel i painted tm rng bounds).1 := by
  intro fuel
  induction fuel with
  | zero => exact fun i painted tm rng bounds => decorEq_refl tm
  | succ n ih =>
    intro i painted tm rng bounds
    unfold scatterBlobsLoop
    split
    · dsimp only
      split
      · exact decorEq_trans (paintBlob_decorEq ops tm _ _ _ _ _) (ih _ _ _ _ _)
      · exact decorEq_trans (paintBlob_decorEq ops tm _ _ _ _ _) (ih _ _ _ _ _)
    · exact decorEq_refl tm

theorem scatterBlobs_decorEq (ops : FloatOps) (fuel : ℕ) (tm : TileMap)
    (cfg : MapGenerationConfig) (rng : SeededRng)
    (bounds : List MapObstacleBounds) :
    decorEq tm (scatterBlobs ops fuel tm cfg rng bounds).1 := by
  unfold scatterBlobs
  exact scatterBlobsLoop_decorEq ops cfg _ _ fuel 0 0 tm _ bounds

theorem clearSafeZone_decorEq (tm : TileMap) (cfg : MapGenerationConfig) :
    decorEq tm (clearSafeZone tm cfg) := by
  unfold clearSafeZone
  dsimp only
  refine foldl_decorEq _ _ ?hy tm
  case hy =>
    intro t y
    refine foldl_decorEq _ _ ?hx t
    case hx =>
      intro t' x
      split
      · exact setTile_decorEq t' x y BaseFloor
      · exact decorEq_refl t'

theorem carveDisk_decorEq (tm : TileMap) (cx cy radius : ℤ) :
    decorEq tm (carveDisk tm cx cy radius) := by
  unfold carveDisk
  dsimp only
  refine foldl_decorEq _ _ ?hy tm
  case hy =>
    intro t y
    refine foldl_decorEq _ _ ?hx t
    case hx =>
      intro t' x
      dsimp only
      split
      · exact decorEq_refl t'
      · split
        · exact decorEq_refl t'
        · exact setTile_decorEq t' x y BaseFloor

theorem carveLineLoop_decorEq (thickness x1 y1 sx sy dx dy : ℤ) :
    ∀ (fuel : ℕ) (x y err : ℤ) (tm : TileMap),
      decorEq tm (carveLineLoop thickness x1 y1 sx sy dx dy fuel x y err tm) := by
  intro fuel
  induction fuel with
  | zero => exact fun x y err tm => decorEq_refl tm
  | succ n ih =>
    intro x y err tm
    unfold carveLineLoop
    split
    · exact carveDisk_decorEq tm x y thickness
    · exact decorEq_trans (carveDisk_decorEq tm x y thickness) (ih _ _ _ _)

theorem carveLine_decorEq (tm : TileMap) (x0 y0 x1 y1 thickness : ℤ) :
    decorEq tm (carveLine tm x0 y0 x1 y1 thickness) := by
  unfold carveLine
  exact carveLineLoop_decorEq _ _ _ _ _ _ _ _ _ _ _ tm

theorem carveLoopRun_decorEq (ops : FloatOps) (tm : TileMap) (center : ℤ × ℤ)
    (radius : ℚ) (thickness : ℤ) (rng : SeededRng) :
    decorEq tm (carveLoopRun ops tm center radius thickness rng).1 := by
  unfold carveLoopRun
  dsimp only
  refine decorEq_trans ?_ (foldl_decorEq_state
    (fun st : ℤ × ℤ × TileMap × SeededRng => st.2.2.1) _ _ ?hstep _)
  case hstep =>
    intro st i
    dsimp only
    exact carveLine_decorEq st.2.2.1 st.1 st.2.1 _ _ thickness
  exact decorEq_refl tm

theorem carveLoops_decorEq (ops : FloatOps) (tm : TileMap)
    (cfg : MapGenerationConfig) (rng : SeededRng) :
    decorEq tm (carveLoops ops tm cfg rng).1 := by
  unfold carveLoops
  refine decorEq_trans ?_ (foldl_decorEq_state
    (fun st : TileMap × SeededRng => st.1) _ _ ?hstep _)
  case hstep =>
    intro st i
    dsimp only
    exact carveLoopRun_decorEq ops st.1 cfg.spawn _ cfg.carveThickness _
  exact decorEq_refl tm

theorem reinforceOuterWall_decorEq (tm : TileMap) :
    decorEq tm (reinforceOuterWall tm) := by
  unfold reinforceOuterWall
  dsimp only
  refine decorEq_trans ?_ (foldl_decorEq _ _ ?hy _)
  case hy =>
    intro t y
    exact decorEq_trans (setWallTile_decorEq t 0 _ 999 true)
      (setWallTile_decorEq _ _ _ 999 true)
  refine decorEq_trans ?_ (foldl_decorEq _ _ ?hx _)
  case hx =>
    intro t x
    exact decorEq_trans (setWallTile_decorEq t _ 0 999 true)
      (setWallTile_decorEq _ _ _ 999 true)
  exact decorEq_refl tm

set_option maxHeartbeats 1600000 in
theorem generateAttempts_decorEq (ops : FloatOps) (cfg : MapGenerationConfig)
    (attemptSeed blobFuel : ℕ) :
    ∀ (n attempt : ℕ) (tm : TileMap),
      decorEq tm (generateAttempts ops cfg attemptSeed blobFuel n attempt tm).2 := by
  intro n
  induction n with
  | zero => exact fun attempt tm => decorEq_refl tm
  | succ k ih =>
    intro attempt tm
    unfold generateAttempts
    dsimp only
    split
    · split
      · refine decorEq_trans ?_ (reinforceOuterWall_decorEq _)
        refine decorEq_trans ?_ (carveLoops_decorEq ops _ cfg _)
        refine decorEq_trans ?_ (clearSafeZone_decorEq _ cfg)
        refine decorEq_trans ?_ (scatterBlobs_decorEq ops blobFuel _ cfg _ [])
        refine decorEq_trans ?_ (applyJaggedBorders_decorEq _ _ cfg)
        exact paintBase_decorEq tm
      · refine decorEq_trans ?_ (ih _ _)
        refine decorEq_trans ?_ (reinforceOuterWall_decorEq _)
        refine decorEq_trans ?_ (carveLoops_decorEq ops _ cfg _)
        refine decorEq_trans ?_ (clearSafeZone_decorEq _ cfg)
        refine decorEq_trans ?_ (scatterBlobs_decorEq ops blobFuel _ cfg _ [])
        refine decorEq_trans ?_ (applyJaggedBorders_decorEq _ _ cfg)
        exact paintBase_decorEq tm
    · split
      · refine decorEq_trans ?_ (reinforceOuterWall_decorEq _)
        refine decorEq_trans ?_ (carveLoops_decorEq ops _ cfg _)
        refine decorEq_trans ?_ (clearSafeZone_decorEq _ cfg)
        refine decorEq_trans ?_ (scatterBlobs_decorEq ops blobFuel _ cfg _ [])
        refine decorEq_trans ?_ (applyJaggedBorders_decorEq _ _ cfg)
        exact paintBase_decorEq tm
      · refine decorEq_trans ?_ (ih _ _)
        refine decorEq_trans ?_ (reinforceOuterWall_decorEq _)
        refine decorEq_trans ?_ (carveLoops_decorEq ops _ cfg _)
        refine decorEq_trans ?_ (clearSafeZone_decorEq _ cfg)
        refine decorEq_trans ?_ (scatterBlobs_decorEq ops blobFuel _ cfg _ [])
        refine decorEq_trans ?_ (applyJaggedBorders_decorEq _ _ cfg)
        exact paintBase_decorEq tm

theorem generateFallback_decorEq (ops : FloatOps) (cfg : MapGenerationConfig)
    (attemptSeed blobFuel : ℕ) (tm : TileMap) :
    decorEq tm (generateFallback ops cfg attemptSeed blobFuel tm).2 := by
  unfold generateFallback
  dsimp only
  refine decorEq_trans ?_ (carveLoops_decorEq ops _ cfg _)
  refine decorEq_trans ?_ (clearSafeZone_decorEq _ cfg)
  refine decorEq_trans ?_ (scatterBlobs_decorEq ops blobFuel _ cfg _ [])
  exact paintBase_decorEq tm

theorem generate_decorEq (ops : FloatOps) (blobFuel : ℕ) (tm : TileMap)
    (cfg : MapGenerationConfig) (amb : ℚ) :
    decorEq tm (generate ops blobFuel tm cfg amb).2 := by
  unfold generate
  dsimp only
  cases hga : generateAttempts ops cfg (match cfg.seed with
      | some s => s
      | none => (⌊amb * 2147483647⌋).toNat) blobFuel cfg.maxAttempts 0 tm with
  | mk o tm' =>
    have h0 : decorEq tm tm' := by
      have := generateAttempts_decorEq ops cfg (match cfg.seed with
        | some s => s
        | none => (⌊amb * 2147483647⌋).toNat) blobFuel cfg.maxAttempts 0 tm
      rw [hga] at this
      exact this
    cases o with
    | some res => exact h0
    | none => exact decorEq_trans h0 (generateFallback_decorEq ops cfg _ blobFuel tm')

/-- Trig/sqrt stand-ins for the map-generation theorems. -/
def c4Ops : FloatOps :=
  { cos := fun _ => 0, sin := fun _ => 0, sqrt := fun _ => 0, pi := 0 }

def c4cfg : MapGenerationConfig :=
  { seed := some 7
    obstacleDensity := 0
    blobCountMin := 0
    blobCountMax := 0
    blobRadiusMin := 0
    blobRadiusMax := 0
    blobEdgeJitter := 0
    safeZoneRadius := 0
    carveLoopCount := 0
    carveLoopRadius := 0
    carveThickness := 0
    requiredConnectedRatio := 0
    maxAttempts := 1
    spawn := (0, 0)
    edgeJaggedThicknessMin := 1
    edgeJaggedThicknessMax := 1
    edgeJaggedStep := 1 }

/-- A 1×1 grid as handed to the generator. -/
def c4tmA : TileMap := TileMap.create 1 1 4

/-- The same grid with a decor overlay painted into its only cell. -/
def c4tmB : TileMap := c4tmA.setDecorOverlay 0 0 3

/-- C4 counterexample: two `generate` calls with the identical config (same
explicit seed) on grids of identical width and height do NOT always produce
bit-identical tile grids — the pipeline's tile writes preserve each cell's
decor nibble, so grids that differ only in decor content yield different
masks for every float model, blob fuel and ambient draw. -/
theorem generate_depends_on_grid_content :
    c4tmB.width = c4tmA.width ∧ c4tmB.height = c4tmA.height ∧
    ∀ (ops : FloatOps) (blobFuel : ℕ) (amb : ℚ),
      (generate ops blobFuel c4tmA c4cfg amb).2.mask ≠
        (generate ops blobFuel c4tmB c4cfg amb).2.mask := by
  refine ⟨rfl, rfl, ?_⟩
  intro ops blobFuel amb h
  have hA := (generate_decorEq ops blobFuel c4tmA c4cfg amb).2.2 0
  have hB := (generate_decorEq ops blobFuel c4tmB c4cfg amb).2.2 0
  rw [h] at hA
  have hcontr : decodeDecor (c4tmA.mask.getD 0 0) =
      decodeDecor (c4tmB.mask.getD 0 0) := hA.symm.trans hB
  exact absurd hcontr (by decide)

/-- C4 (amended): with an explicit seed configured, `generate` never draws
from the ambient random source — its entire output (tile grid, metadata and
`reachableRatio`) is a function of the input grid and config alone, so two
calls with identical config and identical starting grid agree regardless of
the ambient draws. -/
theorem generate_seeded_deterministic (ops : FloatOps) (blobFuel : ℕ)
    (tm : TileMap) (cfg : MapGenerationConfig) (s : ℕ) (amb1 amb2 : ℚ)
    (h : cfg.seed = some s) :
    generate ops blobFuel tm cfg amb1 = generate ops blobFuel tm cfg amb2 := by
  unfold generate
  rw [h]

theorem generate_seeded_deterministic_witness :
    c4cfg.seed = some 7 ∧
    generate c4Ops 1 c4tmA c4cfg 0 = generate c4Ops 1 c4tmA c4cfg (1/2) :=
  ⟨rfl, generate_seeded_deterministic c4Ops 1 c4tmA c4cfg 7 0 (1/2) rfl⟩

/-- A config whose connectivity requirement (ratio ≥ 2) can never be met, so
every attempt fails; its blob loop exits immediately
(`blobCountMax < blobCountMin`, zero density). -/
def c5cfg : MapGenerationConfig :=
  { seed := some 5
    obstacleDensity := 0
    blobCountMin := 0
    blobCountMax := -1
    blobRadiusMin := 0
    blobRadiusMax := 0
    blobEdgeJitter := 0
    safeZoneRadius := 0
    carveLoopCount := 0
    carveLoopRadius := 0
    carveThickness := 0
    requiredConnectedRatio := 2
    maxAttempts := 2
    spawn := (0, 0)
    edgeJaggedThicknessMin := 1
    edgeJaggedThicknessMax := 1
    edgeJaggedStep := 1 }

def c5tm : TileMap := TileMap.create 0 0 1

/-- C5 counterexample: when all attempts fail, the returned map is NOT "the
best effort from the final attempt": the fallback regenerates from the BASE
seed (the result's `seed` is 5, while the final attempt ran with
`(5 + (maxAttempts-1)·1013904223) mod 2³²`, a different seed) and it skips
`applyJaggedBorders` / `reinforceOuterWall`. -/
theorem generate_fallback_uses_base_seed :
    (generateAttempts c4Ops c5cfg 5 0 c5cfg.maxAttempts 0 c5tm).1 = none ∧
    (generate c4Ops 0 c5tm c5cfg 0).1.seed = 5 ∧
    (5 + (c5cfg.maxAttempts - 1) * 1013904223) % 2 ^ 32 ≠ 5 := by
  refine ⟨rfl, rfl, by decide⟩

/-- C5 (amended): when no attempt reaches `requiredConnectedRatio` within
`maxAttempts`, `generate` still returns a `MapGenerationResult` (no failure
path exists), but that result is the FALLBACK generation: it is rebuilt from
the base seed with a reduced pipeline rather than taken from the final
attempt, and its `seed` field records the base seed `s mod 2³²`. -/
theorem generate_fallback_spec (ops : FloatOps) (blobFuel : ℕ) (tm : TileMap)
    (cfg : MapGenerationConfig) (s : ℕ) (amb : ℚ)
    (hseed : cfg.seed = some s)
    (hfail : (generateAttempts ops cfg s blobFuel cfg.maxAttempts 0 tm).1 = none) :
    generate ops blobFuel tm cfg amb =
      generateFallback ops cfg s blobFuel
        (generateAttempts ops cfg s blobFuel cfg.maxAttempts 0 tm).2 ∧
    (generate ops blobFuel tm cfg amb).1.seed = s % 2 ^ 32 := by
  unfold generate
  rw [hseed]
  dsimp only
  cases hga : generateAttempts ops cfg s blobFuel cfg.maxAttempts 0 tm with
  | mk o tm' =>
    rw [hga] at hfail
    cases o with
    | some res => exact absurd hfail (by simp)
    | none => exact ⟨rfl, rfl⟩

theorem generate_fallback_spec_witness :
    c5cfg.seed = some 5 ∧
    (generateAttempts c4Ops c5cfg 5 0 c5cfg.maxAttempts 0 c5tm).1 = none ∧
    (generate c4Ops 0 c5tm c5cfg 0).1.seed = 5 % 2 ^ 32 :=
  ⟨rfl, rfl, (generate_fallback_spec c4Ops 0 c5tm c5cfg 5 0 rfl rfl).2⟩

end Rogue
